import Mathlib

/-! Zigbee OTA client: transfer and persistence engine

Shallow embedding of the OTA functions of `STM32_WPAN/App/app_zigbee.c`.

* The global `OTA_client_info`, the function-local static `current_offset` of
  the write-image callback, the flash array, the emulated EEPROM, the bytes of
  SRAM1 read by the sector helpers and the secure-area option bytes are the
  fields of one `World`; every C function is a function on `World`.
* `uint32_t` arithmetic is natural-number arithmetic reduced modulo
  `4294967296`; `uint8_t` locals are reduced modulo `256`.
* Everything the file obtains from its headers (buffer capacity, retry budget,
  image types, versions, addresses, enumerator values) is a field of `Config`.
  The three bits of `OTA_client_info.flags` the file tests are named Booleans.
* The HAL, the EEPROM emulation library and the ZCL stack are not part of the
  translated file: their entry points are the fields of `Hw`.
* Calls with an outside effect are recorded, in program order, in
  `World.trace`.  Debug output, LEDs, delays and the throughput diagnostics of
  the validation callback have no effect on the modelled state and are left out.
-/

namespace OtaClient

/-! ## Data model -/

/-- Status codes of the ZCL layer that the callbacks exchange with the stack. -/
inductive ZclStatusCodeT
  | ZCL_STATUS_SUCCESS
  | ZCL_STATUS_FAILURE
  | ZCL_STATUS_WAIT_FOR_DATA
  | ZCL_STATUS_INVALID_IMAGE
  | ZCL_STATUS_ABORT
  | ZCL_STATUS_NO_IMAGE_AVAILABLE
  deriving DecidableEq, Repr

/-- Application status type `APP_ZIGBEE_StatusTypeDef`. -/
inductive APP_ZIGBEE_StatusTypeDef
  | APP_ZIGBEE_OK
  | APP_ZIGBEE_ERROR
  deriving DecidableEq, Repr

/-- Return codes of the EEPROM emulation: success, success with a pending
clean-up, and every other (failing) code. -/
inductive EEStatus
  | EE_OK
  | EE_CLEAN_NEEDED
  | EE_ERROR
  deriving DecidableEq, Repr

/-- Sequencer tasks set by the OTA functions. -/
inductive Task
  | CFG_TASK_ZIGBEE_OTA_REQUEST_UPGRADE
  | CFG_TASK_ZIGBEE_OTA_START_DOWNLOAD
  | CFG_TASK_FUOTA_RESET
  deriving DecidableEq, Repr

/-- Timer-server timers used by the OTA functions. -/
inductive Timer
  | TS_ID_LED
  | TS_DOWNLOAD_RESUME
  deriving DecidableEq, Repr

/-- Outside effects, in the order the program performs them.  The three `enter`
and `magicRead` constructors mark a function entry or a memory read and carry
the cursor values at that point. -/
inductive Event
  | hsemLock
  | hsemRelease
  | flashUnlock
  | flashLock
  | flashProgram (addr data : Nat) (ok : Bool)
  | flashErase (page nbPages : Nat)
  | eeWrite (addr data : Nat) (status : EEStatus)
  | eeClean
  | attrWrite (value : Nat)
  | setTask (t : Task)
  | tsStart (t : Timer)
  | tsStop (t : Timer)
  | bootSelector
  | systemReset
  | enterWriteFirmwareData (flash_offset fill : Nat)
  | enterCtxSave (flash_offset : Nat)
  | magicRead (addr : Nat)
  deriving DecidableEq, Repr

/-- Compile-time constants of the headers that are not part of the translated
file. -/
structure Config where
  RAM_FIRMWARE_BUFFER_SIZE : Nat
  OTA_CLIENT_ABORT_MAX_RETRIES : Nat
  OTA_PREVENT_DOWNGRADE : Bool
  ST_ZIGBEE_MANUFACTURER_CODE : Nat
  ZCL_OTA_NOTIFY_TYPE_FILE_VERSION : Nat
  fileType_COPRO_WIRELESS : Nat
  fileType_APP : Nat
  CURRENT_FW_COPRO_WIRELESS_FILE_VERSION : Nat
  CURRENT_FW_APP_FILE_VERSION : Nat
  FUOTA_COPRO_FW_BINARY_ADDRESS : Nat
  FUOTA_APP_FW_BINARY_ADDRESS : Nat
  FUOTA_MAGIC_KEYWORD_COPRO_WIRELESS : Nat
  FUOTA_MAGIC_KEYWORD_APP : Nat
  CFG_APP_START_SECTOR_INDEX : Nat
  CFG_REBOOT_ON_DOWNLOADED_FW : Nat
  USER_DB_START_ADDR : Nat
  OTA_HEADER_TAG_SIZE : Nat
  DOWNLOADING_IMAGE : Nat
  VERIFYING_IMAGE : Nat

/-- Entry points of the HAL, the EEPROM emulation and the ZCL stack.
`HAL_FLASH_Program flash addr data` gives the HAL status (`true` for `HAL_OK`)
and the flash array afterwards. -/
structure Hw where
  HAL_FLASH_Program : (Nat → Nat) → Nat → Nat → Bool × (Nat → Nat)
  HAL_FLASHEx_Erase : (Nat → Nat) → Nat → Nat → (Nat → Nat)
  EE_Write : (Nat → Option Nat) → Nat → Nat → EEStatus × (Nat → Option Nat)
  EE_Clean : (Nat → Option Nat) → (Nat → Option Nat)
  EE_Read : (Nat → Option Nat) → Nat → Option Nat
  ZbZclAttrIntegerWrite : Nat → ZclStatusCodeT

/-- Field `ctx` of `struct Zigbee_OTA_client_info`. -/
structure OtaContext where
  base_address : Nat
  magic_keyword : Nat
  file_type : Nat
  binary_srv_crc : Nat
  binary_calc_crc : Nat
  file_version : Nat

/-- Field `write_info`: the RAM staging buffer and the flash cursor. -/
structure WriteInfo where
  firmware_buffer : Nat → Nat
  firmware_buffer_current_offset : Nat
  flash_current_offset : Nat
  buffer_full : Bool

/-- Field `zigbee_ota_ctx_nvm`: the four words of the persistent record. -/
structure OtaCtxNvm where
  flash_offset : Nat
  previous_image_type : Nat
  file_version : Nat
  OtaCurrentState : Nat

/-- The bits of `flags` that the file tests, sets and clears. -/
structure Flags where
  OTA_CLIENT_CTX_FOUND_FLAG : Bool
  OTA_CLIENT_RESUME_DOWNLOAD_FLAG : Bool
  OTA_CLIENT_PAUSE_DOWNLOAD_FLAG : Bool

/-- The global `OTA_client_info`. -/
structure Zigbee_OTA_client_info where
  ctx : OtaContext
  write_info : WriteInfo
  zigbee_ota_ctx_nvm : OtaCtxNvm
  flags : Flags
  OTA_state : Nat
  OTA_abort_retries : Nat
  image_type : Nat
  current_file_version : Nat
  requested_image_size : Nat

/-- Image definition carried by an image-notify or query-next-image response. -/
structure ZbZclOtaImageDefinition where
  manufacturer_code : Nat
  image_type : Nat
  file_version : Nat

/-- Program state. -/
structure World where
  OTA_client_info : Zigbee_OTA_client_info
  current_offset : Nat
  flash : Nat → Nat
  ee : Nat → Option Nat
  sram1 : Nat → Nat
  sfsa_field : Nat
  sbrv_field : Nat
  trace : List Event

/-- Append events to the trace. -/
def World.emit (w : World) (es : List Event) : World :=
  { w with trace := w.trace ++ es }

/-- Replace the `write_info` field. -/
def World.setWriteInfo (w : World) (wi : WriteInfo) : World :=
  { w with OTA_client_info := { w.OTA_client_info with write_info := wi } }

/-- Replace the `flags` field. -/
def World.setFlags (w : World) (f : Flags) : World :=
  { w with OTA_client_info := { w.OTA_client_info with flags := f } }

/-- Little-endian 64-bit value of the eight bytes of `m` starting at `a`. -/
def read64 (m : Nat → Nat) (a : Nat) : Nat :=
  m a + 256 * m (a + 1) + 65536 * m (a + 2) + 16777216 * m (a + 3)
    + 4294967296 * m (a + 4) + 1099511627776 * m (a + 5)
    + 281474976710656 * m (a + 6) + 72057594037927936 * m (a + 7)

/-- Little-endian 32-bit value of the four bytes of `m` starting at `a`. -/
def read32 (m : Nat → Nat) (a : Nat) : Nat :=
  m a + 256 * m (a + 1) + 65536 * m (a + 2) + 16777216 * m (a + 3)

/-- The array `m` after `memcpy (m + off, src, n)`. -/
def memcpy (m : Nat → Nat) (off : Nat) (src : List Nat) (n : Nat) : Nat → Nat :=
  fun i => if off ≤ i ∧ i < off + n then src.getD (i - off) 0 else m i

/-- The array `m` after `memset (m + off, 0, n)`. -/
def memset0 (m : Nat → Nat) (off n : Nat) : Nat → Nat :=
  fun i => if off ≤ i ∧ i < off + n then 0 else m i

/-- A flash array after a double word has been stored at `a`. -/
def store64 (m : Nat → Nat) (a v : Nat) : Nat → Nat :=
  fun x => if a ≤ x ∧ x < a + 8 then v / 256 ^ (x - a) % 256 else m x

/-- A flash array after the pages `page .. page + nb - 1` (4096 bytes each,
from `0x08000000`) have been erased. -/
def erasePages (m : Nat → Nat) (page nb : Nat) : Nat → Nat :=
  fun x => if 134217728 + page * 4096 ≤ x ∧ x < 134217728 + (page + nb) * 4096
    then 255 else m x

/-- A flash controller on which every program and erase succeeds, an emulated
EEPROM that keeps the last word written per address, and an attribute store
that accepts every write. -/
def idealHw : Hw where
  HAL_FLASH_Program := fun m a v => (true, store64 m a v)
  HAL_FLASHEx_Erase := erasePages
  EE_Write := fun e a d => (.EE_OK, fun x => if x = a then some d else e x)
  EE_Clean := fun e => e
  EE_Read := fun e a => e a
  ZbZclAttrIntegerWrite := fun _ => .ZCL_STATUS_SUCCESS

/-! ## Persistence of the OTA context -/

/-- Loop of `APP_ZIGBEE_OTA_ctx_save_nvm`: `EE_Write` of the remaining words
`ds` of the record, word `i` first. -/
def ctx_save_loop (cfg : Config) (hw : Hw) : List Nat → Nat → World → Bool × World
  | [], _, w => (true, w)
  | d :: ds, i, w =>
    match hw.EE_Write w.ee (cfg.USER_DB_START_ADDR + i) d with
    | (.EE_OK, e) =>
      ctx_save_loop cfg hw ds (i + 1)
        ({ w with ee := e }.emit [.eeWrite (cfg.USER_DB_START_ADDR + i) d .EE_OK])
    | (.EE_CLEAN_NEEDED, e) =>
      ctx_save_loop cfg hw ds (i + 1)
        ({ w with ee := hw.EE_Clean e }.emit
          [.eeWrite (cfg.USER_DB_START_ADDR + i) d .EE_CLEAN_NEEDED, .eeClean])
    | (.EE_ERROR, e) =>
      (false, { w with ee := e }.emit [.eeWrite (cfg.USER_DB_START_ADDR + i) d .EE_ERROR])

/-- `APP_ZIGBEE_OTA_ctx_save_nvm`. -/
def APP_ZIGBEE_OTA_ctx_save_nvm (cfg : Config) (hw : Hw) (w : World) : Bool × World :=
  let ci := w.OTA_client_info
  let nvm : OtaCtxNvm :=
    { flash_offset := ci.write_info.flash_current_offset
      previous_image_type := ci.ctx.file_type
      file_version := ci.ctx.file_version
      OtaCurrentState := ci.OTA_state }
  let w1 : World := { w with OTA_client_info := { ci with zigbee_ota_ctx_nvm := nvm } }
  ctx_save_loop cfg hw
    [nvm.flash_offset, nvm.previous_image_type, nvm.file_version, nvm.OtaCurrentState] 0
    (w1.emit [.enterCtxSave ci.write_info.flash_current_offset])

/-- `APP_ZIGBEE_OTA_ctx_load_nvm`, its loop over the four words of the record
unrolled.  On a failing read the function returns `false` at once; the words
read before the failure stay in the record and the flash stays unlocked. -/
def APP_ZIGBEE_OTA_ctx_load_nvm (cfg : Config) (hw : Hw) (w : World) : Bool × World :=
  let w1 := w.emit [.flashUnlock]
  let ci := w1.OTA_client_info
  match hw.EE_Read w1.ee (cfg.USER_DB_START_ADDR + 0) with
  | none => (false, w1)
  | some d0 =>
    let ci0 := { ci with zigbee_ota_ctx_nvm := { ci.zigbee_ota_ctx_nvm with flash_offset := d0 } }
    match hw.EE_Read w1.ee (cfg.USER_DB_START_ADDR + 1) with
    | none => (false, { w1 with OTA_client_info := ci0 })
    | some d1 =>
      let ci1 := { ci0 with
        zigbee_ota_ctx_nvm := { ci0.zigbee_ota_ctx_nvm with previous_image_type := d1 } }
      match hw.EE_Read w1.ee (cfg.USER_DB_START_ADDR + 2) with
      | none => (false, { w1 with OTA_client_info := ci1 })
      | some d2 =>
        let ci2 := { ci1 with
          zigbee_ota_ctx_nvm := { ci1.zigbee_ota_ctx_nvm with file_version := d2 } }
        match hw.EE_Read w1.ee (cfg.USER_DB_START_ADDR + 3) with
        | none => (false, { w1 with OTA_client_info := ci2 })
        | some d3 =>
          let ci3 := { ci2 with
            zigbee_ota_ctx_nvm := { ci2.zigbee_ota_ctx_nvm with OtaCurrentState := d3 } }
          let ci4 := { ci3 with
            flags := { ci3.flags with OTA_CLIENT_CTX_FOUND_FLAG := true }
            write_info := { ci3.write_info with
              flash_current_offset := ci3.zigbee_ota_ctx_nvm.flash_offset } }
          (true, ({ w1 with OTA_client_info := ci4 }).emit [.flashLock])

/-! ## Checksum, flash writer and the chunk callbacks -/

/-- `APP_ZIGBEE_OTA_Client_Crc_Calc`.  `crc_data` is the staging buffer seen as
an array of 32-bit words, so the padding `memset (&crc_data[size], ..)` starts
at byte `4 * size` of the buffer. -/
def APP_ZIGBEE_OTA_Client_Crc_Calc (w : World) : World :=
  let ci := w.OTA_client_info
  let size := ci.write_info.firmware_buffer_current_offset % 65536
  let modulo := size % 4
  let buf := if modulo ≠ 0 then memset0 ci.write_info.firmware_buffer (4 * size) (4 - modulo)
    else ci.write_info.firmware_buffer
  let size := if modulo ≠ 0 then (size + (4 - modulo)) % 65536 else size
  let crc := (List.range (size / 4)).foldl
    (fun crc index => Nat.xor crc (read32 buf (4 * index))) ci.ctx.binary_calc_crc
  { w with OTA_client_info := { ci with
      ctx := { ci.ctx with binary_calc_crc := crc }
      write_info := { ci.write_info with firmware_buffer := buf } } }

/-- The `for` loop of `APP_ZIGBEE_OTA_Client_WriteFirmwareData`, entered with
index `flash_index`; `fuel` bounds the number of iterations.  The result is
`false` when the function returns `APP_ZIGBEE_ERROR` from inside the loop. -/
def WriteFirmwareData_loop (hw : Hw) : Nat → Nat → World → Bool × World
  | 0, _, w => (true, w)
  | fuel + 1, flash_index, w =>
    let ci := w.OTA_client_info
    if flash_index < ci.write_info.firmware_buffer_current_offset then
      let l_read64 := read64 ci.write_info.firmware_buffer flash_index
      let addr := (ci.ctx.base_address + ci.write_info.flash_current_offset) % 4294967296
      let r := hw.HAL_FLASH_Program w.flash addr l_read64
      let w1 : World := ({ w with flash := r.2 }).emit
        [.hsemLock, .flashUnlock, .flashProgram addr l_read64 r.1]
      if r.1 then
        if read64 w1.flash addr ≠ read64 ci.write_info.firmware_buffer flash_index then
          (false, w1)
        else
          WriteFirmwareData_loop hw fuel (flash_index + 8)
            (w1.setWriteInfo { ci.write_info with
              flash_current_offset := (ci.write_info.flash_current_offset + 8) % 4294967296 })
      else
        (false, w1)
    else
      (true, w)

/-- `APP_ZIGBEE_OTA_Client_WriteFirmwareData`.  The loop advances its index by
eight from zero, so a fuel of `firmware_buffer_current_offset` iterations is
never exhausted. -/
def APP_ZIGBEE_OTA_Client_WriteFirmwareData (cfg : Config) (hw : Hw) (w : World) :
    APP_ZIGBEE_StatusTypeDef × World :=
  let wi := w.OTA_client_info.write_info
  let w0 := w.emit [.enterWriteFirmwareData wi.flash_current_offset wi.firmware_buffer_current_offset]
  match WriteFirmwareData_loop hw wi.firmware_buffer_current_offset 0 w0 with
  | (false, w1) => (.APP_ZIGBEE_ERROR, w1)
  | (true, w1) =>
    let w2 := (APP_ZIGBEE_OTA_ctx_save_nvm cfg hw w1).2
    (.APP_ZIGBEE_OK, w2.emit [.flashLock, .hsemRelease])

/-- `APP_ZIGBEE_OTA_Client_WriteImage_cb` for a chunk `data` whose `length` is
the length of the list (an `uint8_t`, at most 255). -/
def APP_ZIGBEE_OTA_Client_WriteImage_cb (cfg : Config) (hw : Hw) (header_length : Nat)
    (data : List Nat) (w : World) : ZclStatusCodeT × World :=
  let length := data.length
  let w := { w with current_offset := (w.current_offset + length) % 4294967296 }
  let ci := w.OTA_client_info
  if ci.flags.OTA_CLIENT_RESUME_DOWNLOAD_FLAG then
    let w := { w with
      current_offset := (w.current_offset + ci.zigbee_ota_ctx_nvm.flash_offset) % 4294967296 }
    let w := w.setFlags { ci.flags with OTA_CLIENT_RESUME_DOWNLOAD_FLAG := false }
    let v := (ci.zigbee_ota_ctx_nvm.flash_offset + header_length + cfg.OTA_HEADER_TAG_SIZE)
      % 4294967296
    let w := w.emit [.attrWrite v]
    if hw.ZbZclAttrIntegerWrite v ≠ .ZCL_STATUS_SUCCESS then (.ZCL_STATUS_FAILURE, w)
    else (.ZCL_STATUS_SUCCESS, w)
  else
    let wi := ci.write_info
    let fbco := wi.firmware_buffer_current_offset
    let over := (fbco + length) % 4294967296 > cfg.RAM_FIRMWARE_BUFFER_SIZE
    let size := if over then
        (cfg.RAM_FIRMWARE_BUFFER_SIZE + 4294967296 - fbco) % 4294967296 % 256
      else length
    let remaining_size := if over then (length + 256 - size) % 256 else 0
    let full := if over then true
      else if (fbco + length) % 4294967296 = cfg.RAM_FIRMWARE_BUFFER_SIZE then true
      else wi.buffer_full
    let w := w.setWriteInfo { wi with
      firmware_buffer := memcpy wi.firmware_buffer fbco data size
      firmware_buffer_current_offset := (fbco + size) % 4294967296
      buffer_full := full }
    if full then
      match APP_ZIGBEE_OTA_Client_WriteFirmwareData cfg hw w with
      | (.APP_ZIGBEE_ERROR, w1) => (.ZCL_STATUS_FAILURE, w1)
      | (.APP_ZIGBEE_OK, w1) =>
        let w2 := APP_ZIGBEE_OTA_Client_Crc_Calc w1
        let wi2 := w2.OTA_client_info.write_info
        let w3 := w2.setWriteInfo { wi2 with
          firmware_buffer := memcpy (memset0 wi2.firmware_buffer 0 cfg.RAM_FIRMWARE_BUFFER_SIZE)
            0 (data.drop size) remaining_size
          firmware_buffer_current_offset := remaining_size
          buffer_full := false }
        if w3.OTA_client_info.flags.OTA_CLIENT_PAUSE_DOWNLOAD_FLAG then
          (.ZCL_STATUS_WAIT_FOR_DATA,
            w3.setFlags { w3.OTA_client_info.flags with OTA_CLIENT_PAUSE_DOWNLOAD_FLAG := false })
        else (.ZCL_STATUS_SUCCESS, w3)
    else
      if w.OTA_client_info.flags.OTA_CLIENT_PAUSE_DOWNLOAD_FLAG then
        (.ZCL_STATUS_WAIT_FOR_DATA,
          w.setFlags { w.OTA_client_info.flags with OTA_CLIENT_PAUSE_DOWNLOAD_FLAG := false })
      else (.ZCL_STATUS_SUCCESS, w)

/-- `APP_ZIGBEE_OTA_Client_ImageValidate_cb`. -/
def APP_ZIGBEE_OTA_Client_ImageValidate_cb (cfg : Config) (hw : Hw) (w : World) :
    ZclStatusCodeT × World :=
  let w := w.emit [.tsStop .TS_ID_LED]
  let w : World := { w with OTA_client_info := { w.OTA_client_info with
    OTA_state := cfg.VERIFYING_IMAGE } }
  let w :=
    if w.OTA_client_info.write_info.firmware_buffer_current_offset ≠ 0 then
      let w1 := (APP_ZIGBEE_OTA_Client_WriteFirmwareData cfg hw w).2
      w1.setWriteInfo { w1.OTA_client_info.write_info with firmware_buffer_current_offset := 0 }
    else w
  let wi := w.OTA_client_info.write_info
  let w := w.setWriteInfo { wi with
    flash_current_offset := (wi.flash_current_offset + 4294967296 - 8) % 4294967296 }
  let ci := w.OTA_client_info
  let addr := (ci.ctx.base_address + ci.write_info.flash_current_offset) % 4294967296
  let last_double_word := read64 w.flash addr
  let w := w.emit [.magicRead addr]
  if last_double_word % 4294967296 ≠ ci.ctx.magic_keyword
      ∧ last_double_word / 4294967296 % 4294967296 ≠ ci.ctx.magic_keyword then
    (.ZCL_STATUS_INVALID_IMAGE, w)
  else
    (.ZCL_STATUS_SUCCESS, w)

/-! ## Image policy, capacity check and negotiation -/

/-- The table `OTA_currentFileVersionTab`: file type and running file version. -/
def OTA_currentFileVersionTab (cfg : Config) : List (Nat × Nat) :=
  [(cfg.fileType_COPRO_WIRELESS, cfg.CURRENT_FW_COPRO_WIRELESS_FILE_VERSION),
   (cfg.fileType_APP, cfg.CURRENT_FW_APP_FILE_VERSION)]

/-- Loop of `APP_ZIGBEE_FindImageType` over the entries from index `i` on. -/
def FindImageType_loop (fileType : Nat) : List (Nat × Nat) → Nat → Int
  | [], _ => -1
  | e :: es, i => if e.1 = fileType then (i : Int) else FindImageType_loop fileType es (i + 1)

/-- `APP_ZIGBEE_FindImageType`: index of the first entry of the table with
the requested file type, `-1` when there is none. -/
def APP_ZIGBEE_FindImageType (cfg : Config) (fileType : Nat) : Int :=
  FindImageType_loop fileType (OTA_currentFileVersionTab cfg) 0

/-- `APP_ZIGBEE_OTA_Client_ImageNotify_cb`. -/
def APP_ZIGBEE_OTA_Client_ImageNotify_cb (cfg : Config) (payload_type _jitter : Nat)
    (image_definition : ZbZclOtaImageDefinition) (w : World) : ZclStatusCodeT × World :=
  if payload_type = cfg.ZCL_OTA_NOTIFY_TYPE_FILE_VERSION then
    if image_definition.manufacturer_code ≠ cfg.ST_ZIGBEE_MANUFACTURER_CODE then
      (.ZCL_STATUS_FAILURE, w)
    else
      let pos := APP_ZIGBEE_FindImageType cfg image_definition.image_type
      if pos < 0 then (.ZCL_STATUS_FAILURE, w)
      else
        let fileVersion := ((OTA_currentFileVersionTab cfg).getD pos.toNat (0, 0)).2
        if fileVersion = image_definition.file_version then (.ZCL_STATUS_FAILURE, w)
        else if cfg.OTA_PREVENT_DOWNGRADE ∧ fileVersion > image_definition.file_version then
          (.ZCL_STATUS_FAILURE, w)
        else
          let w1 : World := { w with OTA_client_info := { w.OTA_client_info with
            image_type := image_definition.image_type
            current_file_version := fileVersion } }
          (.ZCL_STATUS_SUCCESS, w1.emit [.setTask .CFG_TASK_ZIGBEE_OTA_REQUEST_UPGRADE])
  else
    (.ZCL_STATUS_FAILURE, w)

/-- `GetFirstSecureSector`: the smaller of the SFSA option byte and the sector
of the CPU2 boot reset vector. -/
def GetFirstSecureSector (w : World) : Nat :=
  let sfsa_field := w.sfsa_field
  let sbrv_field_sector := w.sbrv_field / 1024
  if sbrv_field_sector < sfsa_field then sbrv_field_sector else sfsa_field

/-- `Delete_Sectors`.  The Boolean is `false` when the function does not return
because it has reset the system. -/
def Delete_Sectors (cfg : Config) (hw : Hw) (w : World) : Bool × World :=
  let first_secure_sector_idx := GetFirstSecureSector w
  let page := w.sram1 1 % 256
  if page < (cfg.CFG_APP_START_SECTOR_INDEX + 4294967296 - 1) % 4294967296 then
    let boot : Nat → Nat := fun i => if i = 0 then cfg.CFG_REBOOT_ON_DOWNLOADED_FW else w.sram1 i
    (false, ({ w with sram1 := boot }).emit [.bootSelector, .systemReset])
  else
    let nbPages := w.sram1 2 % 256
    let nbPages := if (page + nbPages) % 4294967296 > first_secure_sector_idx then
        (first_secure_sector_idx + 4294967296 - page) % 4294967296
      else nbPages
    (true, ({ w with flash := hw.HAL_FLASHEx_Erase w.flash page nbPages }).emit
      [.flashUnlock, .flashErase page nbPages, .flashLock])

/-- `APP_ZIGBEE_CheckDeviceCapabilities`. -/
def APP_ZIGBEE_CheckDeviceCapabilities (cfg : Config) (w : World) : APP_ZIGBEE_StatusTypeDef :=
  let first_secure_sector_idx := GetFirstSecureSector w
  let first_sector_idx := w.sram1 1 % 256
  let first_sector_idx := if first_sector_idx = 0 then cfg.CFG_APP_START_SECTOR_INDEX
    else first_sector_idx
  let free_sectors := (first_secure_sector_idx + 4294967296 - first_sector_idx) % 4294967296
  let free_size := free_sectors * 4096 % 4294967296
  if free_size < w.OTA_client_info.requested_image_size then .APP_ZIGBEE_ERROR
  else .APP_ZIGBEE_OK

/-- `APP_ZIGBEE_OTA_Client_CheckPriviousDownload`. -/
def APP_ZIGBEE_OTA_Client_CheckPriviousDownload (image_definition : ZbZclOtaImageDefinition)
    (w : World) : Bool :=
  let status := true
  let status := if image_definition.file_version
      ≠ w.OTA_client_info.zigbee_ota_ctx_nvm.file_version then false else status
  let status := if image_definition.image_type
      ≠ w.OTA_client_info.zigbee_ota_ctx_nvm.previous_image_type then false else status
  status

/-- End of `APP_ZIGBEE_OTA_Client_QueryNextImage_cb`: state change and start
of the download. -/
def QueryNextImage_start (cfg : Config) (w : World) : World :=
  ({ w with OTA_client_info := { w.OTA_client_info with
    OTA_state := cfg.DOWNLOADING_IMAGE } }).emit [.setTask .CFG_TASK_ZIGBEE_OTA_START_DOWNLOAD]

/-- Second half of `APP_ZIGBEE_OTA_Client_QueryNextImage_cb`, from the test of
the resume flag on. -/
def QueryNextImage_resume (cfg : Config) (hw : Hw) (w : World) : World :=
  if w.OTA_client_info.flags.OTA_CLIENT_RESUME_DOWNLOAD_FLAG then
    if w.OTA_client_info.zigbee_ota_ctx_nvm.OtaCurrentState = cfg.VERIFYING_IMAGE then
      match APP_ZIGBEE_OTA_Client_ImageValidate_cb cfg hw w with
      | (.ZCL_STATUS_SUCCESS, w1) => w1.emit [.setTask .CFG_TASK_FUOTA_RESET]
      | (_, w1) => QueryNextImage_start cfg w1
    else QueryNextImage_start cfg w
  else QueryNextImage_start cfg w

/-- The `switch` of `APP_ZIGBEE_OTA_Client_QueryNextImage_cb` on the image
type: the context with base address, magic keyword and file type selected,
`none` for an unknown image type. -/
def QueryNextImage_select (cfg : Config) (ctx : OtaContext) (image_type : Nat) :
    Option OtaContext :=
  if image_type = cfg.fileType_COPRO_WIRELESS then
    some { ctx with
      base_address := cfg.FUOTA_COPRO_FW_BINARY_ADDRESS
      magic_keyword := cfg.FUOTA_MAGIC_KEYWORD_COPRO_WIRELESS
      file_type := cfg.fileType_COPRO_WIRELESS }
  else if image_type = cfg.fileType_APP then
    some { ctx with
      base_address := cfg.FUOTA_APP_FW_BINARY_ADDRESS
      magic_keyword := cfg.FUOTA_MAGIC_KEYWORD_APP
      file_type := cfg.fileType_APP }
  else none

/-- The part of `APP_ZIGBEE_OTA_Client_QueryNextImage_cb` that follows the
capacity check: the test of a previous download, then the resume test. -/
def QueryNextImage_previous (cfg : Config) (hw : Hw) (image_definition : ZbZclOtaImageDefinition)
    (w1 : World) : World :=
  if w1.OTA_client_info.flags.OTA_CLIENT_CTX_FOUND_FLAG then
    if APP_ZIGBEE_OTA_Client_CheckPriviousDownload image_definition w1 then
      QueryNextImage_resume cfg hw
        (w1.setFlags { w1.OTA_client_info.flags with OTA_CLIENT_RESUME_DOWNLOAD_FLAG := true })
    else
      match Delete_Sectors cfg hw
        (w1.setFlags { w1.OTA_client_info.flags with OTA_CLIENT_CTX_FOUND_FLAG := false }) with
      | (false, w2) => w2
      | (true, w2) => QueryNextImage_resume cfg hw w2
  else QueryNextImage_resume cfg hw w1

/-- The state in which `APP_ZIGBEE_OTA_Client_QueryNextImage_cb` runs its
capacity check: the selected context with both checksums cleared and the
offered file version, and the requested image size. -/
def QueryNextImage_prepare (ctx : OtaContext) (image_definition : ZbZclOtaImageDefinition)
    (image_size : Nat) (w : World) : World :=
  { w with OTA_client_info := { w.OTA_client_info with
      requested_image_size := image_size
      ctx := { ctx with
        binary_srv_crc := 0
        binary_calc_crc := 0
        file_version := image_definition.file_version } } }

/-- `APP_ZIGBEE_OTA_Client_QueryNextImage_cb`. -/
def APP_ZIGBEE_OTA_Client_QueryNextImage_cb (cfg : Config) (hw : Hw) (status : ZclStatusCodeT)
    (image_definition : ZbZclOtaImageDefinition) (image_size : Nat) (w : World) : World :=
  if status ≠ .ZCL_STATUS_SUCCESS then w
  else
    match QueryNextImage_select cfg w.OTA_client_info.ctx image_definition.image_type with
    | none => w
    | some ctx =>
      let w1 := QueryNextImage_prepare ctx image_definition image_size w
      if APP_ZIGBEE_CheckDeviceCapabilities cfg w1 ≠ .APP_ZIGBEE_OK then w1
      else QueryNextImage_previous cfg hw image_definition w1

/-! ## Abort, pause and start-up -/

/-- `APP_ZIGBEE_OTA_Client_AbortDownload_cb` (`OTA_ABORT_RETRY_ENABLE` is
defined).  The retry counter stays within `0 .. OTA_CLIENT_ABORT_MAX_RETRIES`
from a zeroed context, so its increment is not reduced. -/
def APP_ZIGBEE_OTA_Client_AbortDownload_cb (cfg : Config) (w : World) : ZclStatusCodeT × World :=
  let w := w.emit [.tsStop .TS_ID_LED]
  let ci := w.OTA_client_info
  let ci := { ci with OTA_abort_retries := ci.OTA_abort_retries + 1 }
  if ci.OTA_abort_retries < cfg.OTA_CLIENT_ABORT_MAX_RETRIES then
    (.ZCL_STATUS_ABORT, ({ w with OTA_client_info := ci }).emit [.tsStart .TS_DOWNLOAD_RESUME])
  else
    (.ZCL_STATUS_SUCCESS, { w with OTA_client_info := { ci with OTA_abort_retries := 0 } })

/-- `APP_ZIGBEE_OTA_Client_PauseDownload`. -/
def APP_ZIGBEE_OTA_Client_PauseDownload (w : World) : World :=
  w.setFlags { w.OTA_client_info.flags with OTA_CLIENT_PAUSE_DOWNLOAD_FLAG := true }

/-- The value of `OTA_client_info` after `memset (&OTA_client_info, 0, ..)`. -/
def zeroed_client_info : Zigbee_OTA_client_info where
  ctx := { base_address := 0, magic_keyword := 0, file_type := 0, binary_srv_crc := 0,
           binary_calc_crc := 0, file_version := 0 }
  write_info := { firmware_buffer := fun _ => 0, firmware_buffer_current_offset := 0,
                  flash_current_offset := 0, buffer_full := false }
  zigbee_ota_ctx_nvm := { flash_offset := 0, previous_image_type := 0, file_version := 0,
                          OtaCurrentState := 0 }
  flags := { OTA_CLIENT_CTX_FOUND_FLAG := false, OTA_CLIENT_RESUME_DOWNLOAD_FLAG := false,
             OTA_CLIENT_PAUSE_DOWNLOAD_FLAG := false }
  OTA_state := 0
  OTA_abort_retries := 0
  image_type := 0
  current_file_version := 0
  requested_image_size := 0

/-- The part of `APP_ZIGBEE_OTA_Client_Init` that acts on the OTA context:
the context is zeroed, the persistent record is loaded, and the download area
is erased when there is none. -/
def APP_ZIGBEE_OTA_Client_Init (cfg : Config) (hw : Hw) (w : World) : World :=
  let w0 : World := { w with OTA_client_info := zeroed_client_info }
  match APP_ZIGBEE_OTA_ctx_load_nvm cfg hw w0 with
  | (true, w1) => w1
  | (false, w1) => (Delete_Sectors cfg hw w1).2

/-! ## Specification vocabulary -/

/-- Flash array after `cnt` consecutive double words of `buf`, taken from index
`idx` on, have been stored from address `a` on. -/
def flushedFlash (flash buf : Nat → Nat) (a idx cnt : Nat) : Nat → Nat :=
  fun x => if a ≤ x ∧ x < a + 8 * cnt then buf (idx + (x - a)) else flash x

/-- Events of `cnt` successful iterations of the programming loop that starts
at address `a` with buffer index `idx`. -/
def progEvents (buf : Nat → Nat) : Nat → Nat → Nat → List Event
  | _, _, 0 => []
  | a, idx, cnt + 1 =>
    [.hsemLock, .flashUnlock, .flashProgram a (read64 buf idx) true]
      ++ progEvents buf (a + 8) (idx + 8) cnt

/-- Events of the EEPROM emulation. -/
def Event.isEE : Event → Bool
  | .eeWrite _ _ _ => true
  | .eeClean => true
  | _ => false

/-- Events that delimit a flush and checkpoint cycle, and the read of the
magic marker. -/
def Event.isCycle : Event → Bool
  | .enterWriteFirmwareData _ _ => true
  | .enterCtxSave _ => true
  | .magicRead _ => true
  | _ => false

/-- The cycle events of the first `k` flushes of a full staging buffer of
`cap` bytes, the cursor starting at zero. -/
def cycleEvents (cap : Nat) : Nat → List Event
  | 0 => []
  | k + 1 => cycleEvents cap k
      ++ [.enterWriteFirmwareData (k * cap) cap, .enterCtxSave ((k + 1) * cap)]

/-- Delivery of the chunks, in order, to the write-image callback: the statuses
returned and the final state. -/
def deliverChunks (cfg : Config) (hw : Hw) (header_length : Nat) :
    List (List Nat) → World → List ZclStatusCodeT × World
  | [], w => ([], w)
  | c :: cs, w =>
    let r := APP_ZIGBEE_OTA_Client_WriteImage_cb cfg hw header_length c w
    let rs := deliverChunks cfg hw header_length cs r.2
    (r.1 :: rs.1, rs.2)

/-- A fresh transfer context: write offset zero, empty zeroed staging buffer,
neither resume nor pause requested. -/
def FreshTransfer (w : World) : Prop :=
  w.OTA_client_info.write_info.flash_current_offset = 0
  ∧ w.OTA_client_info.write_info.firmware_buffer_current_offset = 0
  ∧ (∀ i, w.OTA_client_info.write_info.firmware_buffer i = 0)
  ∧ w.OTA_client_info.write_info.buffer_full = false
  ∧ w.OTA_client_info.flags.OTA_CLIENT_RESUME_DOWNLOAD_FLAG = false
  ∧ w.OTA_client_info.flags.OTA_CLIENT_PAUSE_DOWNLOAD_FLAG = false

/-- Only the trace and the emulated EEPROM differ between `w` and `w1`, and the
trace has grown by events of the EEPROM emulation only. -/
def EEFrame (w w1 : World) : Prop :=
  w1.OTA_client_info = w.OTA_client_info ∧ w1.current_offset = w.current_offset
  ∧ w1.flash = w.flash ∧ w1.sram1 = w.sram1 ∧ w1.sfsa_field = w.sfsa_field
  ∧ w1.sbrv_field = w.sbrv_field
  ∧ ∃ es, w1.trace = w.trace ++ es ∧ ∀ e ∈ es, e.isEE = true

/-- State of a transfer that started from a fresh context with trace `tr0`,
after the bytes `D` have been delivered: the staging buffer holds the bytes
after the last full buffer, the flash holds the full buffers before them. -/
structure TransferInv (cfg : Config) (base : Nat) (tr0 : List Event) (D : List Nat)
    (w : World) : Prop where
  base_eq : w.OTA_client_info.ctx.base_address = base
  fill : w.OTA_client_info.write_info.firmware_buffer_current_offset
    = D.length % cfg.RAM_FIRMWARE_BUFFER_SIZE
  cursor : w.OTA_client_info.write_info.flash_current_offset
    = D.length / cfg.RAM_FIRMWARE_BUFFER_SIZE * cfg.RAM_FIRMWARE_BUFFER_SIZE
  notFull : w.OTA_client_info.write_info.buffer_full = false
  noResume : w.OTA_client_info.flags.OTA_CLIENT_RESUME_DOWNLOAD_FLAG = false
  noPause : w.OTA_client_info.flags.OTA_CLIENT_PAUSE_DOWNLOAD_FLAG = false
  buf : ∀ i, w.OTA_client_info.write_info.firmware_buffer i
    = if i < D.length % cfg.RAM_FIRMWARE_BUFFER_SIZE then
        D.getD (D.length / cfg.RAM_FIRMWARE_BUFFER_SIZE * cfg.RAM_FIRMWARE_BUFFER_SIZE + i) 0
      else 0
  flash : ∀ i, i < D.length / cfg.RAM_FIRMWARE_BUFFER_SIZE * cfg.RAM_FIRMWARE_BUFFER_SIZE →
    w.flash (base + i) = D.getD i 0
  cyc : w.trace.filter Event.isCycle
    = tr0.filter Event.isCycle
      ++ cycleEvents cfg.RAM_FIRMWARE_BUFFER_SIZE (D.length / cfg.RAM_FIRMWARE_BUFFER_SIZE)

/-- A configuration on which the functions are evaluated: the values of an
STM32WB55 build with a staging buffer of 1024 bytes and a budget of three
aborts. -/
def refConfig : Config where
  RAM_FIRMWARE_BUFFER_SIZE := 1024
  OTA_CLIENT_ABORT_MAX_RETRIES := 3
  OTA_PREVENT_DOWNGRADE := true
  ST_ZIGBEE_MANUFACTURER_CODE := 4660
  ZCL_OTA_NOTIFY_TYPE_FILE_VERSION := 3
  fileType_COPRO_WIRELESS := 1
  fileType_APP := 2
  CURRENT_FW_COPRO_WIRELESS_FILE_VERSION := 1
  CURRENT_FW_APP_FILE_VERSION := 1
  FUOTA_COPRO_FW_BINARY_ADDRESS := 134545408
  FUOTA_APP_FW_BINARY_ADDRESS := 134479872
  FUOTA_MAGIC_KEYWORD_COPRO_WIRELESS := 3550555230
  FUOTA_MAGIC_KEYWORD_APP := 2487519785
  CFG_APP_START_SECTOR_INDEX := 64
  CFG_REBOOT_ON_DOWNLOADED_FW := 1
  USER_DB_START_ADDR := 0
  OTA_HEADER_TAG_SIZE := 6
  DOWNLOADING_IMAGE := 2
  VERIFYING_IMAGE := 3

/-- A device just after `memset (&OTA_client_info, 0, ..)`: erased flash, empty
EEPROM, first free sector 64, 16 sectors announced, secure area from sector 200. -/
def refWorld : World where
  OTA_client_info := zeroed_client_info
  current_offset := 0
  flash := fun _ => 255
  ee := fun _ => none
  sram1 := fun i => if i = 1 then 64 else if i = 2 then 16 else 0
  sfsa_field := 200
  sbrv_field := 262143
  trace := []

/-- The state `refWorld` once the query callback has selected the application
image: the base address of the download area is set. -/
def refTransfer : World :=
  { refWorld with OTA_client_info := { zeroed_client_info with
      ctx := { zeroed_client_info.ctx with
        base_address := refConfig.FUOTA_APP_FW_BINARY_ADDRESS
        magic_keyword := refConfig.FUOTA_MAGIC_KEYWORD_APP
        file_type := refConfig.fileType_APP } } }

/-- The reference configuration with a staging buffer of 512 bytes. -/
def refConfig512 : Config :=
  { refConfig with RAM_FIRMWARE_BUFFER_SIZE := 512 }

/-- An image of 4096 zero bytes cut into sixteen chunks of 255 bytes and one
chunk of 16 bytes. -/
def chunks4096 : List (List Nat) :=
  List.replicate 16 (List.replicate 255 0) ++ [List.replicate 16 0]

/-- The running file version of an image type: the version of the table
entry that `APP_ZIGBEE_FindImageType` selects. -/
def currentFileVersion (cfg : Config) (image_type : Nat) : Nat :=
  ((OTA_currentFileVersionTab cfg).getD (APP_ZIGBEE_FindImageType cfg image_type).toNat (0, 0)).2

/-- The state after `k` consecutive calls of the abort callback. -/
def abortN (cfg : Config) : Nat → World → World
  | 0, w => w
  | k + 1, w => (APP_ZIGBEE_OTA_Client_AbortDownload_cb cfg (abortN cfg k w)).2

/-- Number of starts of the download-resume timer in a trace. -/
def retriesScheduled (tr : List Event) : Nat :=
  (tr.filter (fun e => decide (e = Event.tsStart Timer.TS_DOWNLOAD_RESUME))).length

/-- The reference device with a persistent record `[flash_offset, image_type,
file_version, state]` in its EEPROM. -/
def refWorldWithRecord (flash_offset image_type file_version state : Nat) : World :=
  { refWorld with ee := fun a =>
      if a = 0 then some flash_offset else if a = 1 then some image_type
      else if a = 2 then some file_version else if a = 3 then some state else none }

/-- The reference device with its first free sector (200) above the first
secure sector (100). -/
def refWorldNoSpace : World :=
  { refWorld with sram1 := fun i => if i = 1 then 200 else 0, sfsa_field := 100 }

/-- A query response that offers version 3 of the application image. -/
def offerApp3 : ZbZclOtaImageDefinition :=
  { manufacturer_code := 4660, image_type := 2, file_version := 3 }

/-- The first free sector that `APP_ZIGBEE_CheckDeviceCapabilities` uses: the
byte at `SRAM1_BASE + 1`, or `CFG_APP_START_SECTOR_INDEX` when that byte is 0. -/
def firstFreeSector (cfg : Config) (w : World) : Nat :=
  if w.sram1 1 % 256 = 0 then cfg.CFG_APP_START_SECTOR_INDEX else w.sram1 1 % 256

/-- The state in which the query callback runs its capacity check: the
requested size is the size of the offered image. -/
def withRequestedSize (w : World) (image_size : Nat) : World :=
  { w with OTA_client_info := { w.OTA_client_info with requested_image_size := image_size } }

/-- The cursor after `k` increments by eight in 32-bit arithmetic. -/
def cursorAfter : Nat → Nat → Nat
  | cur, 0 => cur
  | cur, k + 1 => cursorAfter ((cur + 8) % 4294967296) k

/-- The flash array after the first `k` units of the staging buffer `buf`, from
index `idx` on, have been handed to `HAL_FLASH_Program`, the cursor starting
at `cur`. -/
def flashAfter (hw : Hw) (buf : Nat → Nat) (base : Nat) : (Nat → Nat) → Nat → Nat → Nat → (Nat → Nat)
  | flash, _, _, 0 => flash
  | flash, cur, idx, k + 1 =>
    flashAfter hw buf base
      (hw.HAL_FLASH_Program flash ((base + cur) % 4294967296) (read64 buf idx)).2
      ((cur + 8) % 4294967296) (idx + 8) k

/-- Each of the first `k` units, programmed in order, returns `HAL_OK` and
reads back equal to the staged double word. -/
def UnitsVerified (hw : Hw) (buf : Nat → Nat) (base : Nat) : (Nat → Nat) → Nat → Nat → Nat → Prop
  | _, _, _, 0 => True
  | flash, cur, idx, k + 1 =>
    ((hw.HAL_FLASH_Program flash ((base + cur) % 4294967296) (read64 buf idx)).1 = true
      ∧ read64 (hw.HAL_FLASH_Program flash ((base + cur) % 4294967296) (read64 buf idx)).2
          ((base + cur) % 4294967296) = read64 buf idx)
    ∧ UnitsVerified hw buf base
        (hw.HAL_FLASH_Program flash ((base + cur) % 4294967296) (read64 buf idx)).2
        ((cur + 8) % 4294967296) (idx + 8) k

/-- The unit that follows `k` programmed units fails: its program does not
return `HAL_OK` or its read-back differs from the staged double word. -/
def UnitFails (hw : Hw) (buf : Nat → Nat) (base : Nat) (flash : Nat → Nat) (cur idx k : Nat) :
    Prop :=
  (hw.HAL_FLASH_Program (flashAfter hw buf base flash cur idx k)
      ((base + cursorAfter cur k) % 4294967296) (read64 buf (idx + 8 * k))).1 = false
  ∨ read64 (hw.HAL_FLASH_Program (flashAfter hw buf base flash cur idx k)
      ((base + cursorAfter cur k) % 4294967296) (read64 buf (idx + 8 * k))).2
        ((base + cursorAfter cur k) % 4294967296) ≠ read64 buf (idx + 8 * k)

/-- Events of `k` iterations of the programming loop that return `HAL_OK`, the
cursor starting at `cur` and the buffer index at `idx`. -/
def progEventsW (buf : Nat → Nat) (base : Nat) : Nat → Nat → Nat → List Event
  | _, _, 0 => []
  | cur, idx, k + 1 =>
    [.hsemLock, .flashUnlock, .flashProgram ((base + cur) % 4294967296) (read64 buf idx) true]
      ++ progEventsW buf base ((cur + 8) % 4294967296) (idx + 8) k

/-- Events of the iteration that fails after `k` programmed units. -/
def failEvents (hw : Hw) (buf : Nat → Nat) (base : Nat) (flash : Nat → Nat) (cur idx k : Nat) :
    List Event :=
  [.hsemLock, .flashUnlock,
    .flashProgram ((base + cursorAfter cur k) % 4294967296) (read64 buf (idx + 8 * k))
      (hw.HAL_FLASH_Program (flashAfter hw buf base flash cur idx k)
        ((base + cursorAfter cur k) % 4294967296) (read64 buf (idx + 8 * k))).1]

/-- The state with the cursor replaced. -/
def World.setCursor (w : World) (cur : Nat) : World :=
  w.setWriteInfo { w.OTA_client_info.write_info with flash_current_offset := cur }

/-- The 32-bit value `v` with its four bytes in the opposite order. -/
def bswap32 (v : Nat) : Nat :=
  v % 256 * 16777216 + v / 256 % 256 * 65536 + v / 65536 % 256 * 256 + v / 16777216 % 256

/-- The reference transfer with 1024 committed bytes whose last double word is
`marker` (little-endian), the staging buffer empty. -/
def refCommitted (marker : Nat) : World :=
  { refTransfer with
    flash := store64 refTransfer.flash (134479872 + 1016) marker
    OTA_client_info := { refTransfer.OTA_client_info with
      write_info := { refTransfer.OTA_client_info.write_info with flash_current_offset := 1024 } } }

/-- The state of `APP_ZIGBEE_OTA_Client_ImageValidate_cb` after its residual
flush, before the marker is looked up. -/
def ImageValidate_residual (cfg : Config) (hw : Hw) (w : World) : World :=
  if w.OTA_client_info.write_info.firmware_buffer_current_offset ≠ 0 then
    (APP_ZIGBEE_OTA_Client_WriteFirmwareData cfg hw
      ({ w.emit [.tsStop .TS_ID_LED] with OTA_client_info := { w.OTA_client_info with
        OTA_state := cfg.VERIFYING_IMAGE } } : World)).2.setWriteInfo
      { (APP_ZIGBEE_OTA_Client_WriteFirmwareData cfg hw
          ({ w.emit [.tsStop .TS_ID_LED] with OTA_client_info := { w.OTA_client_info with
            OTA_state := cfg.VERIFYING_IMAGE } } : World)).2.OTA_client_info.write_info with
        firmware_buffer_current_offset := 0 }
  else
    ({ w.emit [.tsStop .TS_ID_LED] with OTA_client_info := { w.OTA_client_info with
      OTA_state := cfg.VERIFYING_IMAGE } } : World)

/-- The committed size: the cursor that the validation callback finds after its
residual flush. -/
def committedSize (cfg : Config) (hw : Hw) (w : World) : Nat :=
  (ImageValidate_residual cfg hw w).OTA_client_info.write_info.flash_current_offset

/-- The double word that the validation callback reads as marker. -/
def markerRead (cfg : Config) (hw : Hw) (w : World) : Nat :=
  read64 (ImageValidate_residual cfg hw w).flash
    (((ImageValidate_residual cfg hw w).OTA_client_info.ctx.base_address
      + (committedSize cfg hw w + 4294967296 - 8) % 4294967296) % 4294967296)

/-- The state with other flags and other checksums: fields that the flash
writer and the checkpoint do not read. -/
def World.withFlagsCrc (w : World) (f : Flags) (s c : Nat) : World :=
  { w with OTA_client_info := { w.OTA_client_info with
      flags := f
      ctx := { w.OTA_client_info.ctx with binary_srv_crc := s, binary_calc_crc := c } } }

/-- The reference transfer with 1024 committed bytes that end with the
application keyword, the server having declared the checksum 305419896 while
the accumulated checksum is 0. -/
def refCrcMismatch : World :=
  (refCommitted 2487519785).withFlagsCrc (refCommitted 2487519785).OTA_client_info.flags
    305419896 0

/-- The reference configuration with a staging buffer of 8 bytes. -/
def refConfig8 : Config :=
  { refConfig with RAM_FIRMWARE_BUFFER_SIZE := 8 }

/-- The reference transfer after the chunk `[1, .., 8]` has been staged in the
buffer of 1024 bytes: the whole image waits for the residual flush. -/
def refShortImage : World :=
  (APP_ZIGBEE_OTA_Client_WriteImage_cb refConfig idealHw 0 [1, 2, 3, 4, 5, 6, 7, 8] refTransfer).2

/-- The checksum as the specification words it: the old value XOR the
`ceil (n / 4)` little-endian words of the first `n` staged bytes, the final
partial word zero-padded. -/
def Crc_Calc_spec (buf : Nat → Nat) (n old : Nat) : Nat :=
  (List.range ((n + 3) / 4)).foldl
    (fun crc index => Nat.xor crc (read32 (fun j => if j < n then buf j else 0) (4 * index))) old

/-- The reference transfer with one staged byte `0xAA`, the staging buffer
holding the bytes `0xBB 0xCC 0xDD 0x11 0x22 0x33 0x44` after it. -/
def refStaleBuffer : World :=
  refTransfer.setWriteInfo { refTransfer.OTA_client_info.write_info with
    firmware_buffer := fun i => [170, 187, 204, 221, 17, 34, 51, 68].getD i 0
    firmware_buffer_current_offset := 1 }

/-- Number of bytes of the chunk that `APP_ZIGBEE_OTA_Client_WriteImage_cb`
appends to the staging buffer (the local `size`). -/
def WriteImage_size (cfg : Config) (data : List Nat) (w : World) : Nat :=
  if (w.OTA_client_info.write_info.firmware_buffer_current_offset + data.length) % 4294967296
      > cfg.RAM_FIRMWARE_BUFFER_SIZE then
    (cfg.RAM_FIRMWARE_BUFFER_SIZE + 4294967296
      - w.OTA_client_info.write_info.firmware_buffer_current_offset) % 4294967296 % 256
  else data.length

/-- Number of bytes of the chunk that are kept for the next cycle (the local
`remaining_size`). -/
def WriteImage_remaining (cfg : Config) (data : List Nat) (w : World) : Nat :=
  if (w.OTA_client_info.write_info.firmware_buffer_current_offset + data.length) % 4294967296
      > cfg.RAM_FIRMWARE_BUFFER_SIZE then
    (data.length + 256 - WriteImage_size cfg data w) % 256
  else 0

/-- The value of `buffer_full` once the chunk has been measured against the
capacity. -/
def WriteImage_full (cfg : Config) (data : List Nat) (w : World) : Bool :=
  if (w.OTA_client_info.write_info.firmware_buffer_current_offset + data.length) % 4294967296
      > cfg.RAM_FIRMWARE_BUFFER_SIZE then true
  else if (w.OTA_client_info.write_info.firmware_buffer_current_offset + data.length)
      % 4294967296 = cfg.RAM_FIRMWARE_BUFFER_SIZE then true
  else w.OTA_client_info.write_info.buffer_full

/-- The state of `APP_ZIGBEE_OTA_Client_WriteImage_cb`, resume flag clear, once
the accepted bytes of the chunk have been copied to the staging buffer. -/
def WriteImage_staged (cfg : Config) (data : List Nat) (w : World) : World :=
  ({ w with current_offset := (w.current_offset + data.length) % 4294967296 } : World).setWriteInfo
    { w.OTA_client_info.write_info with
      firmware_buffer := memcpy w.OTA_client_info.write_info.firmware_buffer
        w.OTA_client_info.write_info.firmware_buffer_current_offset data
        (WriteImage_size cfg data w)
      firmware_buffer_current_offset :=
        (w.OTA_client_info.write_info.firmware_buffer_current_offset
          + WriteImage_size cfg data w) % 4294967296
      buffer_full := WriteImage_full cfg data w }

/-- The state after a flush once the staging buffer has been cleared and the
rest of the chunk copied to its start; `w` is the state at the call and `w2`
the state after the checksum update. -/
def WriteImage_refill (cfg : Config) (data : List Nat) (w w2 : World) : World :=
  w2.setWriteInfo { w2.OTA_client_info.write_info with
    firmware_buffer := memcpy
      (memset0 w2.OTA_client_info.write_info.firmware_buffer 0 cfg.RAM_FIRMWARE_BUFFER_SIZE)
      0 (data.drop (WriteImage_size cfg data w)) (WriteImage_remaining cfg data w)
    firmware_buffer_current_offset := WriteImage_remaining cfg data w
    buffer_full := false }

/-- The end of `APP_ZIGBEE_OTA_Client_WriteImage_cb`: the handling of a pause
request. -/
def WriteImage_pause (w : World) : ZclStatusCodeT × World :=
  if w.OTA_client_info.flags.OTA_CLIENT_PAUSE_DOWNLOAD_FLAG then
    (.ZCL_STATUS_WAIT_FOR_DATA,
      w.setFlags { w.OTA_client_info.flags with OTA_CLIENT_PAUSE_DOWNLOAD_FLAG := false })
  else (.ZCL_STATUS_SUCCESS, w)

/-- Hardware that is ideal except that `HAL_FLASH_Program` returns an error,
leaving the flash as it is, at the address `a`. -/
def failAtHw (a : Nat) : Hw :=
  { idealHw with HAL_FLASH_Program := fun m x d =>
      if x = a then (false, m) else idealHw.HAL_FLASH_Program m x d }

/-- The reference configuration with a staging buffer of 16 bytes. -/
def refConfig16 : Config :=
  { refConfig with RAM_FIRMWARE_BUFFER_SIZE := 16 }

/-- A chunk of sixteen bytes. -/
def chunk16 : List Nat :=
  [1, 2, 3, 4, 5, 6, 7, 8, 9, 10, 11, 12, 13, 14, 15, 16]

/-- The reference device with a download area that starts above the first
secure sector: start page 200, 16 pages announced, first secure sector 100,
and a flash that holds zeros. -/
def refWorldAboveSecure : World :=
  { refWorld with
    sram1 := fun i => if i = 1 then 200 else if i = 2 then 16 else 0
    sfsa_field := 100
    flash := fun _ => 0 }

/-- The page count `p_erase_init.NbPages` of the erase request of
`Delete_Sectors`. -/
def Delete_Sectors_NbPages (w : World) : Nat :=
  if (w.sram1 1 % 256 + w.sram1 2 % 256) % 4294967296 > GetFirstSecureSector w then
    (GetFirstSecureSector w + 4294967296 - w.sram1 1 % 256) % 4294967296
  else w.sram1 2 % 256

/-- The reference transfer with 1024 committed bytes that end with the
application keyword, once the chunk `[1, .., 8]` has been staged: eight
residual bytes wait for the flush of the validation callback. -/
def refResidual : World :=
  (APP_ZIGBEE_OTA_Client_WriteImage_cb refConfig idealHw 0 [1, 2, 3, 4, 5, 6, 7, 8]
    (refCommitted 2487519785)).2

/-- The semaphore `CFG_HW_FLASH_SEMID` and the flash lock as state: whether the
semaphore is held, whether the flash is unlocked, whether a flash program has
been made while the semaphore was not held, and whether the semaphore has been
released while it was not held. -/
structure LockState where
  held : Bool
  unlocked : Bool
  programOutside : Bool
  releaseUntaken : Bool
  deriving DecidableEq, Repr

/-- Effect of one event on the semaphore and the flash lock. -/
def LockState.step (s : LockState) : Event → LockState
  | .hsemLock => { s with held := true }
  | .hsemRelease => { s with held := false, releaseUntaken := s.releaseUntaken || !s.held }
  | .flashUnlock => { s with unlocked := true }
  | .flashLock => { s with unlocked := false }
  | .flashProgram _ _ _ => { s with programOutside := s.programOutside || !s.held }
  | _ => s

/-- The semaphore and the flash lock after the events `es`, from the state
`s`. -/
def LockState.run (s : LockState) (es : List Event) : LockState :=
  es.foldl LockState.step s

/-- The semaphore and the flash lock after a trace that starts with the
semaphore free and the flash locked. -/
def lockStateAfter (tr : List Event) : LockState :=
  LockState.run { held := false, unlocked := false, programOutside := false,
                  releaseUntaken := false } tr

/-- Events of a call of `HAL_FLASH_Program`. -/
def Event.isProgram : Event → Bool
  | .flashProgram _ _ _ => true
  | _ => false

/-- Number of calls of `HAL_FLASH_Program` in a trace. -/
def programCount (tr : List Event) : Nat :=
  (tr.filter Event.isProgram).length

/-- The reference transfer with the three bytes `[1, 2, 3]` staged. -/
def refThreeStaged : World :=
  (APP_ZIGBEE_OTA_Client_WriteImage_cb refConfig idealHw 0 [1, 2, 3] refTransfer).2

/-- Hardware that is ideal except that every `EE_Write` returns `EE_ERROR` and
stores nothing. -/
def eeFailHw : Hw :=
  { idealHw with EE_Write := fun e _ _ => (.EE_ERROR, e) }

/-- The operations of the engine that act on the flash cursor during a
transfer. -/
inductive EngineOp
  | writeImage (header_length : Nat) (data : List Nat)
  | writeFirmwareData
  | imageValidate
  | saveLoad
  deriving Repr

/-- The state after one operation: a call of the write-image callback, of the
flash writer, of the validation callback, or a checkpoint save followed by
`APP_ZIGBEE_OTA_ctx_load_nvm`. -/
def EngineOp.run (cfg : Config) (hw : Hw) : EngineOp → World → World
  | .writeImage header_length data, w =>
    (APP_ZIGBEE_OTA_Client_WriteImage_cb cfg hw header_length data w).2
  | .writeFirmwareData, w => (APP_ZIGBEE_OTA_Client_WriteFirmwareData cfg hw w).2
  | .imageValidate, w => (APP_ZIGBEE_OTA_Client_ImageValidate_cb cfg hw w).2
  | .saveLoad, w =>
    (APP_ZIGBEE_OTA_ctx_load_nvm cfg hw (APP_ZIGBEE_OTA_ctx_save_nvm cfg hw w).2).2

/-- The reference transfer with an empty staging buffer whose byte 5 holds 7. -/
def refStaleTail : World :=
  refTransfer.setWriteInfo { refTransfer.OTA_client_info.write_info with
    firmware_buffer := fun i => if i = 5 then 7 else 0 }

/-- The reference configuration with a staging buffer of 255 bytes. -/
def refConfig255 : Config :=
  { refConfig with RAM_FIRMWARE_BUFFER_SIZE := 255 }

/-- The reference transfer with 254 zero bytes staged, the byte at index 1020
of the buffer array, beyond a capacity of 255, holding 7. -/
def refBeyond : World :=
  refTransfer.setWriteInfo { refTransfer.OTA_client_info.write_info with
    firmware_buffer := fun i => if i = 1020 then 7 else 0
    firmware_buffer_current_offset := 254 }

/-- The reference configuration with the coprocessor running version 2 and
the application running version 5, downgrade prevention enabled. -/
def refConfigVersions : Config :=
  { refConfig with
    CURRENT_FW_COPRO_WIRELESS_FILE_VERSION := 2
    CURRENT_FW_APP_FILE_VERSION := 5 }

/-- The configuration `refConfigVersions` with downgrade prevention disabled. -/
def refConfigDowngrade : Config :=
  { refConfigVersions with OTA_PREVENT_DOWNGRADE := false }

/-- An image notify that offers version 3 of the application image. -/
def offerAppDowngrade : ZbZclOtaImageDefinition :=
  { manufacturer_code := 4660, image_type := 2, file_version := 3 }

/-- The state in which `APP_ZIGBEE_OTA_Client_WriteFirmwareData` calls
`APP_ZIGBEE_OTA_ctx_save_nvm`: the state after its programming loop. -/
def WriteFirmwareData_committed (hw : Hw) (w : World) : World :=
  (WriteFirmwareData_loop hw w.OTA_client_info.write_info.firmware_buffer_current_offset 0
    (w.emit [.enterWriteFirmwareData w.OTA_client_info.write_info.flash_current_offset
      w.OTA_client_info.write_info.firmware_buffer_current_offset])).2

/-! ## Memory lemmas -/

theorem store64_read64_byte (m buf : Nat → Nat) (a idx j : Nat) (hj : j < 8)
    (hb : ∀ t, t < 8 → buf (idx + t) < 256) :
    store64 m a (read64 buf idx) (a + j) = buf (idx + j) := by
  have h0 := hb 0 (by omega)
  have h1 := hb 1 (by omega)
  have h2 := hb 2 (by omega)
  have h3 := hb 3 (by omega)
  have h4 := hb 4 (by omega)
  have h5 := hb 5 (by omega)
  have h6 := hb 6 (by omega)
  have h7 := hb 7 (by omega)
  have hc : a ≤ a + j ∧ a + j < a + 8 := ⟨by omega, by omega⟩
  simp only [store64, hc, and_self, if_true, Nat.add_sub_cancel_left, read64]
  simp only [Nat.add_zero] at h0
  interval_cases j <;> norm_num <;> omega

theorem store64_other (m : Nat → Nat) (a v x : Nat) (hx : ¬ (a ≤ x ∧ x < a + 8)) :
    store64 m a v x = m x := by
  simp only [store64, hx, if_false]

theorem read64_congr (m n : Nat → Nat) (a b : Nat) (h : ∀ t, t < 8 → m (a + t) = n (b + t)) :
    read64 m a = read64 n b := by
  have h0 := h 0 (by omega)
  simp only [Nat.add_zero] at h0
  simp only [read64, h0, h 1 (by omega), h 2 (by omega), h 3 (by omega), h 4 (by omega),
    h 5 (by omega), h 6 (by omega), h 7 (by omega)]

theorem flushedFlash_zero (flash buf : Nat → Nat) (a idx : Nat) :
    flushedFlash flash buf a idx 0 = flash := by
  funext x
  simp only [flushedFlash]
  split
  · omega
  · rfl

theorem flushedFlash_succ (flash buf : Nat → Nat) (a idx cnt : Nat)
    (hb : ∀ t, t < 8 → buf (idx + t) < 256) :
    flushedFlash (store64 flash a (read64 buf idx)) buf (a + 8) (idx + 8) cnt
      = flushedFlash flash buf a idx (cnt + 1) := by
  funext x
  simp only [flushedFlash]
  by_cases h1 : a + 8 ≤ x ∧ x < a + 8 + 8 * cnt
  · have h2 : a ≤ x ∧ x < a + 8 * (cnt + 1) := by omega
    rw [if_pos h1, if_pos h2]
    congr 1
    omega
  · rw [if_neg h1]
    by_cases h3 : a ≤ x ∧ x < a + 8
    · have h2 : a ≤ x ∧ x < a + 8 * (cnt + 1) := by omega
      rw [if_pos h2]
      have hx : x = a + (x - a) := by omega
      rw [hx, store64_read64_byte flash buf a idx (x - a) (by omega) hb]
      congr 2
      omega
    · have h2 : ¬ (a ≤ x ∧ x < a + 8 * (cnt + 1)) := by omega
      rw [if_neg h2, store64_other _ _ _ _ h3]

theorem WriteFirmwareData_loop_ideal (hw : Hw)
    (hprog : ∀ m a v, hw.HAL_FLASH_Program m a v = (true, store64 m a v)) (cnt : Nat) :
    ∀ (fuel idx : Nat) (w : World), cnt ≤ fuel →
      w.OTA_client_info.write_info.firmware_buffer_current_offset ≤ idx + 8 * cnt →
      (cnt = 0 ∨ idx + 8 * cnt < w.OTA_client_info.write_info.firmware_buffer_current_offset + 8) →
      (∀ t, t < 8 * cnt → w.OTA_client_info.write_info.firmware_buffer (idx + t) < 256) →
      w.OTA_client_info.ctx.base_address + w.OTA_client_info.write_info.flash_current_offset
        + 8 * cnt < 4294967296 ∨ cnt = 0 →
      WriteFirmwareData_loop hw fuel idx w = (true, { w with
        flash := flushedFlash w.flash w.OTA_client_info.write_info.firmware_buffer
          (w.OTA_client_info.ctx.base_address + w.OTA_client_info.write_info.flash_current_offset)
          idx cnt
        OTA_client_info := { w.OTA_client_info with write_info := { w.OTA_client_info.write_info with
          flash_current_offset := w.OTA_client_info.write_info.flash_current_offset + 8 * cnt } }
        trace := w.trace ++ progEvents w.OTA_client_info.write_info.firmware_buffer
          (w.OTA_client_info.ctx.base_address + w.OTA_client_info.write_info.flash_current_offset)
          idx cnt }) := by
  induction cnt with
  | zero =>
    intro fuel idx w _ h1 _ _ _
    have hn : ¬ idx < w.OTA_client_info.write_info.firmware_buffer_current_offset := by omega
    cases fuel with
    | zero => simp [WriteFirmwareData_loop, flushedFlash_zero, progEvents]
    | succ f => simp [WriteFirmwareData_loop, hn, flushedFlash_zero, progEvents]
  | succ c ih =>
    intro fuel idx w hf h1 h2 hb hfit
    obtain ⟨f, rfl⟩ : ∃ f, fuel = f + 1 := ⟨fuel - 1, by omega⟩
    have hlt : idx < w.OTA_client_info.write_info.firmware_buffer_current_offset := by omega
    have hb8 : ∀ t, t < 8 → w.OTA_client_info.write_info.firmware_buffer (idx + t) < 256 :=
      fun t ht => hb t (by omega)
    have haddr : (w.OTA_client_info.ctx.base_address
        + w.OTA_client_info.write_info.flash_current_offset) % 4294967296
        = w.OTA_client_info.ctx.base_address
          + w.OTA_client_info.write_info.flash_current_offset := Nat.mod_eq_of_lt (by omega)
    have hoff : (w.OTA_client_info.write_info.flash_current_offset + 8) % 4294967296
        = w.OTA_client_info.write_info.flash_current_offset + 8 := Nat.mod_eq_of_lt (by omega)
    have hrb : read64 (store64 w.flash (w.OTA_client_info.ctx.base_address
        + w.OTA_client_info.write_info.flash_current_offset)
          (read64 w.OTA_client_info.write_info.firmware_buffer idx))
        (w.OTA_client_info.ctx.base_address + w.OTA_client_info.write_info.flash_current_offset)
        = read64 w.OTA_client_info.write_info.firmware_buffer idx :=
      read64_congr _ _ _ _ (fun t ht => store64_read64_byte _ _ _ _ t ht hb8)
    rw [WriteFirmwareData_loop]
    simp only [hlt, if_true, haddr, hprog, World.emit, hrb, ne_eq, not_true_eq_false, if_false,
      World.setWriteInfo, hoff]
    rw [ih]
    · simp only [Prod.mk.injEq, true_and, World.mk.injEq, Zigbee_OTA_client_info.mk.injEq,
        WriteInfo.mk.injEq, and_true, progEvents, List.append_assoc, ← Nat.add_assoc,
        flushedFlash_succ _ _ _ _ _ hb8]
      omega
    · omega
    · simp only; omega
    · simp only; omega
    · intro t ht
      have := hb (8 + t) (by omega)
      simpa [Nat.add_assoc] using this
    · simp only; omega

theorem EEFrame_refl (w : World) : EEFrame w w :=
  ⟨rfl, rfl, rfl, rfl, rfl, rfl, [], by simp, by simp⟩

theorem EEFrame_trans {w w1 w2 : World} (h1 : EEFrame w w1) (h2 : EEFrame w1 w2) :
    EEFrame w w2 := by
  obtain ⟨a1, a2, a3, a4, a5, a6, es, a7, a8⟩ := h1
  obtain ⟨b1, b2, b3, b4, b5, b6, fs, b7, b8⟩ := h2
  refine ⟨b1.trans a1, b2.trans a2, b3.trans a3, b4.trans a4, b5.trans a5, b6.trans a6,
    es ++ fs, ?_, ?_⟩
  · rw [b7, a7, List.append_assoc]
  · intro e he
    rcases List.mem_append.mp he with h | h
    · exact a8 e h
    · exact b8 e h

theorem ctx_save_loop_frame (cfg : Config) (hw : Hw) (ds : List Nat) :
    ∀ (i : Nat) (w : World), EEFrame w (ctx_save_loop cfg hw ds i w).2 := by
  induction ds with
  | nil => intro i w; exact EEFrame_refl w
  | cons d ds ih =>
    intro i w
    rw [ctx_save_loop]
    rcases h : hw.EE_Write w.ee (cfg.USER_DB_START_ADDR + i) d with ⟨st, e⟩
    cases st
    · simp only
      refine EEFrame_trans ?_ (ih _ _)
      exact ⟨rfl, rfl, rfl, rfl, rfl, rfl, _, rfl, by simp [Event.isEE]⟩
    · simp only
      refine EEFrame_trans ?_ (ih _ _)
      exact ⟨rfl, rfl, rfl, rfl, rfl, rfl, _, rfl, by simp [Event.isEE]⟩
    · simp only
      exact ⟨rfl, rfl, rfl, rfl, rfl, rfl, _, rfl, by simp [Event.isEE]⟩

/-- What `APP_ZIGBEE_OTA_ctx_save_nvm` changes: the persistent record in RAM
mirrors the cursor, the image type, the file version and the state; one
`enterCtxSave` event and events of the EEPROM emulation are appended; the
EEPROM may change. -/
theorem ctx_save_nvm_frame (cfg : Config) (hw : Hw) (w : World) :
    EEFrame
      (({ w with OTA_client_info := { w.OTA_client_info with zigbee_ota_ctx_nvm :=
          { flash_offset := w.OTA_client_info.write_info.flash_current_offset
            previous_image_type := w.OTA_client_info.ctx.file_type
            file_version := w.OTA_client_info.ctx.file_version
            OtaCurrentState := w.OTA_client_info.OTA_state } } } : World).emit
        [.enterCtxSave w.OTA_client_info.write_info.flash_current_offset])
      (APP_ZIGBEE_OTA_ctx_save_nvm cfg hw w).2 := by
  simp only [APP_ZIGBEE_OTA_ctx_save_nvm]
  exact ctx_save_loop_frame cfg hw _ 0 _

/-- A flush on a flash controller that programs every double word: the
function returns `APP_ZIGBEE_OK`, the `cnt = ceil (fill / 8)` double words of
the staging buffer are in flash from the cursor on, the cursor has advanced by
`8 * cnt`, and the record in RAM mirrors the new cursor. -/
theorem WriteFirmwareData_ideal (cfg : Config) (hw : Hw)
    (hprog : ∀ m a v, hw.HAL_FLASH_Program m a v = (true, store64 m a v))
    (w : World) (cnt : Nat)
    (hcnt : cnt = (w.OTA_client_info.write_info.firmware_buffer_current_offset + 7) / 8)
    (hb : ∀ t, t < 8 * cnt → w.OTA_client_info.write_info.firmware_buffer t < 256)
    (hfit : w.OTA_client_info.ctx.base_address + w.OTA_client_info.write_info.flash_current_offset
      + 8 * cnt < 4294967296 ∨ cnt = 0) :
    ∃ w1, APP_ZIGBEE_OTA_Client_WriteFirmwareData cfg hw w = (.APP_ZIGBEE_OK, w1)
      ∧ w1.flash = flushedFlash w.flash w.OTA_client_info.write_info.firmware_buffer
          (w.OTA_client_info.ctx.base_address + w.OTA_client_info.write_info.flash_current_offset)
          0 cnt
      ∧ w1.OTA_client_info = { w.OTA_client_info with
          write_info := { w.OTA_client_info.write_info with
            flash_current_offset := w.OTA_client_info.write_info.flash_current_offset + 8 * cnt }
          zigbee_ota_ctx_nvm :=
            { flash_offset := w.OTA_client_info.write_info.flash_current_offset + 8 * cnt
              previous_image_type := w.OTA_client_info.ctx.file_type
              file_version := w.OTA_client_info.ctx.file_version
              OtaCurrentState := w.OTA_client_info.OTA_state } }
      ∧ w1.current_offset = w.current_offset
      ∧ ∃ es, (∀ e ∈ es, e.isEE = true)
        ∧ w1.trace = w.trace
          ++ ([.enterWriteFirmwareData w.OTA_client_info.write_info.flash_current_offset
                w.OTA_client_info.write_info.firmware_buffer_current_offset]
            ++ progEvents w.OTA_client_info.write_info.firmware_buffer
                (w.OTA_client_info.ctx.base_address
                  + w.OTA_client_info.write_info.flash_current_offset) 0 cnt
            ++ [.enterCtxSave (w.OTA_client_info.write_info.flash_current_offset + 8 * cnt)]
            ++ es ++ [.flashLock, .hsemRelease]) := by
  have hloop := WriteFirmwareData_loop_ideal hw hprog cnt
    w.OTA_client_info.write_info.firmware_buffer_current_offset 0
    (w.emit [.enterWriteFirmwareData w.OTA_client_info.write_info.flash_current_offset
      w.OTA_client_info.write_info.firmware_buffer_current_offset])
    (by omega) (by simp only [World.emit]; omega) (by simp only [World.emit]; omega)
    (by intro t ht; simpa [World.emit] using hb t ht) (by simpa [World.emit] using hfit)
  simp only [APP_ZIGBEE_OTA_Client_WriteFirmwareData, hloop]
  obtain ⟨f1, f2, f3, f4, f5, f6, es, f7, f8⟩ := ctx_save_nvm_frame cfg hw
    ({ w.emit [.enterWriteFirmwareData w.OTA_client_info.write_info.flash_current_offset
        w.OTA_client_info.write_info.firmware_buffer_current_offset] with
      flash := flushedFlash w.flash w.OTA_client_info.write_info.firmware_buffer
        (w.OTA_client_info.ctx.base_address + w.OTA_client_info.write_info.flash_current_offset)
        0 cnt
      OTA_client_info := { w.OTA_client_info with write_info := { w.OTA_client_info.write_info with
        flash_current_offset := w.OTA_client_info.write_info.flash_current_offset + 8 * cnt } }
      trace := w.trace ++ [.enterWriteFirmwareData w.OTA_client_info.write_info.flash_current_offset
          w.OTA_client_info.write_info.firmware_buffer_current_offset]
        ++ progEvents w.OTA_client_info.write_info.firmware_buffer
          (w.OTA_client_info.ctx.base_address + w.OTA_client_info.write_info.flash_current_offset)
          0 cnt } : World)
  refine ⟨_, rfl, ?_, ?_, ?_, es, f8, ?_⟩
  · simpa [World.emit] using f3
  · simpa [World.emit] using f1
  · simpa [World.emit] using f2
  · simp only [World.emit] at f7 ⊢
    rw [f7]
    simp only [List.append_assoc]

theorem getD_lt_256 (D : List Nat) (h : ∀ b ∈ D, b < 256) (i : Nat) : D.getD i 0 < 256 := by
  by_cases hi : i < D.length
  · rw [List.getD_eq_getElem _ _ hi]
    exact h _ (List.getElem_mem hi)
  · rw [List.getD_eq_default _ _ (by omega)]
    omega

theorem getD_drop (c : List Nat) (s i : Nat) : (c.drop s).getD i 0 = c.getD (s + i) 0 := by
  simp [List.getD_eq_getElem?_getD, List.getElem?_drop]

theorem div_mod_stay (cap T len : Nat) (hcap : 0 < cap) (h : T % cap + len < cap) :
    (T + len) / cap = T / cap ∧ (T + len) % cap = T % cap + len := by
  rw [Nat.div_mod_unique hcap]
  have := Nat.div_add_mod T cap
  constructor
  · omega
  · exact h

theorem div_mod_next (cap T len : Nat) (hcap : 0 < cap) (h1 : cap ≤ T % cap + len)
    (h2 : T % cap + len < 2 * cap) :
    (T + len) / cap = T / cap + 1 ∧ (T + len) % cap = T % cap + len - cap := by
  rw [Nat.div_mod_unique hcap]
  have := Nat.div_add_mod T cap
  constructor
  · rw [Nat.mul_add, Nat.mul_one]; omega
  · omega

theorem Crc_Calc_frame (w : World)
    (h : w.OTA_client_info.write_info.firmware_buffer_current_offset % 65536 % 4 = 0) :
    (APP_ZIGBEE_OTA_Client_Crc_Calc w).flash = w.flash
    ∧ (APP_ZIGBEE_OTA_Client_Crc_Calc w).trace = w.trace
    ∧ (APP_ZIGBEE_OTA_Client_Crc_Calc w).current_offset = w.current_offset
    ∧ (APP_ZIGBEE_OTA_Client_Crc_Calc w).OTA_client_info.write_info = w.OTA_client_info.write_info
    ∧ (APP_ZIGBEE_OTA_Client_Crc_Calc w).OTA_client_info.flags = w.OTA_client_info.flags
    ∧ (APP_ZIGBEE_OTA_Client_Crc_Calc w).OTA_client_info.ctx.base_address
        = w.OTA_client_info.ctx.base_address := by
  simp [APP_ZIGBEE_OTA_Client_Crc_Calc, h]

theorem filter_isCycle_progEvents (buf : Nat → Nat) (cnt : Nat) :
    ∀ a idx, (progEvents buf a idx cnt).filter Event.isCycle = [] := by
  induction cnt with
  | zero => intro a idx; simp [progEvents]
  | succ c ih => intro a idx; simp [progEvents, ih, Event.isCycle]

theorem filter_isCycle_isEE (es : List Event) (h : ∀ e ∈ es, e.isEE = true) :
    es.filter Event.isCycle = [] := by
  rw [List.filter_eq_nil_iff]
  intro e he
  have := h e he
  cases e <;> simp_all [Event.isEE, Event.isCycle]

/-- A chunk that leaves the staging buffer below its capacity is appended to
it; nothing else happens. -/
theorem WriteImage_cb_stage (cfg : Config) (hw : Hw) (hl : Nat) (c : List Nat) (w : World)
    (hres : w.OTA_client_info.flags.OTA_CLIENT_RESUME_DOWNLOAD_FLAG = false)
    (hpause : w.OTA_client_info.flags.OTA_CLIENT_PAUSE_DOWNLOAD_FLAG = false)
    (hfull : w.OTA_client_info.write_info.buffer_full = false)
    (hlt : w.OTA_client_info.write_info.firmware_buffer_current_offset + c.length
      < cfg.RAM_FIRMWARE_BUFFER_SIZE)
    (h32 : w.OTA_client_info.write_info.firmware_buffer_current_offset + c.length < 4294967296) :
    APP_ZIGBEE_OTA_Client_WriteImage_cb cfg hw hl c w
      = (.ZCL_STATUS_SUCCESS,
          ({ w with current_offset := (w.current_offset + c.length) % 4294967296 } : World).setWriteInfo
            { w.OTA_client_info.write_info with
              firmware_buffer := memcpy w.OTA_client_info.write_info.firmware_buffer
                w.OTA_client_info.write_info.firmware_buffer_current_offset c c.length
              firmware_buffer_current_offset :=
                w.OTA_client_info.write_info.firmware_buffer_current_offset + c.length
              buffer_full := false }) := by
  have hm : (w.OTA_client_info.write_info.firmware_buffer_current_offset + c.length) % 4294967296
      = w.OTA_client_info.write_info.firmware_buffer_current_offset + c.length :=
    Nat.mod_eq_of_lt h32
  have h1 : ¬ (w.OTA_client_info.write_info.firmware_buffer_current_offset + c.length
      > cfg.RAM_FIRMWARE_BUFFER_SIZE) := by omega
  have h2 : ¬ (w.OTA_client_info.write_info.firmware_buffer_current_offset + c.length
      = cfg.RAM_FIRMWARE_BUFFER_SIZE) := by omega
  simp [APP_ZIGBEE_OTA_Client_WriteImage_cb, hres, hpause, hfull, hm, h1, h2, World.setWriteInfo]

/-- A chunk that fills the staging buffer: the prefix that fits is appended and
the full buffer is handed to the flash writer. -/
theorem WriteImage_cb_flush (cfg : Config) (hw : Hw) (hl : Nat) (c : List Nat) (w : World)
    (hres : w.OTA_client_info.flags.OTA_CLIENT_RESUME_DOWNLOAD_FLAG = false)
    (hge : cfg.RAM_FIRMWARE_BUFFER_SIZE
      ≤ w.OTA_client_info.write_info.firmware_buffer_current_offset + c.length)
    (hfb : w.OTA_client_info.write_info.firmware_buffer_current_offset
      ≤ cfg.RAM_FIRMWARE_BUFFER_SIZE)
    (hlen : c.length ≤ 255)
    (h32 : w.OTA_client_info.write_info.firmware_buffer_current_offset + c.length < 4294967296) :
    APP_ZIGBEE_OTA_Client_WriteImage_cb cfg hw hl c w
      = match APP_ZIGBEE_OTA_Client_WriteFirmwareData cfg hw
          (({ w with current_offset := (w.current_offset + c.length) % 4294967296 } : World).setWriteInfo
            { w.OTA_client_info.write_info with
              firmware_buffer := memcpy w.OTA_client_info.write_info.firmware_buffer
                w.OTA_client_info.write_info.firmware_buffer_current_offset c
                (cfg.RAM_FIRMWARE_BUFFER_SIZE
                  - w.OTA_client_info.write_info.firmware_buffer_current_offset)
              firmware_buffer_current_offset := cfg.RAM_FIRMWARE_BUFFER_SIZE
              buffer_full := true }) with
        | (.APP_ZIGBEE_ERROR, w1) => (.ZCL_STATUS_FAILURE, w1)
        | (.APP_ZIGBEE_OK, w1) =>
          let w2 := APP_ZIGBEE_OTA_Client_Crc_Calc w1
          let w3 := w2.setWriteInfo { w2.OTA_client_info.write_info with
            firmware_buffer := memcpy
              (memset0 w2.OTA_client_info.write_info.firmware_buffer 0 cfg.RAM_FIRMWARE_BUFFER_SIZE)
              0 (c.drop (cfg.RAM_FIRMWARE_BUFFER_SIZE
                  - w.OTA_client_info.write_info.firmware_buffer_current_offset))
              (w.OTA_client_info.write_info.firmware_buffer_current_offset + c.length
                - cfg.RAM_FIRMWARE_BUFFER_SIZE)
            firmware_buffer_current_offset :=
              w.OTA_client_info.write_info.firmware_buffer_current_offset + c.length
                - cfg.RAM_FIRMWARE_BUFFER_SIZE
            buffer_full := false }
          if w3.OTA_client_info.flags.OTA_CLIENT_PAUSE_DOWNLOAD_FLAG then
            (.ZCL_STATUS_WAIT_FOR_DATA,
              w3.setFlags { w3.OTA_client_info.flags with OTA_CLIENT_PAUSE_DOWNLOAD_FLAG := false })
          else (.ZCL_STATUS_SUCCESS, w3) := by
  have hm : (w.OTA_client_info.write_info.firmware_buffer_current_offset + c.length) % 4294967296
      = w.OTA_client_info.write_info.firmware_buffer_current_offset + c.length :=
    Nat.mod_eq_of_lt h32
  rcases Nat.lt_or_ge cfg.RAM_FIRMWARE_BUFFER_SIZE
      (w.OTA_client_info.write_info.firmware_buffer_current_offset + c.length) with hov | heq
  · have hsize : (cfg.RAM_FIRMWARE_BUFFER_SIZE + 4294967296
        - w.OTA_client_info.write_info.firmware_buffer_current_offset) % 4294967296 % 256
        = cfg.RAM_FIRMWARE_BUFFER_SIZE
          - w.OTA_client_info.write_info.firmware_buffer_current_offset := by omega
    have hrem : (c.length + 256 - (cfg.RAM_FIRMWARE_BUFFER_SIZE
          - w.OTA_client_info.write_info.firmware_buffer_current_offset)) % 256
        = w.OTA_client_info.write_info.firmware_buffer_current_offset + c.length
          - cfg.RAM_FIRMWARE_BUFFER_SIZE := by omega
    have hfill : (w.OTA_client_info.write_info.firmware_buffer_current_offset
        + (cfg.RAM_FIRMWARE_BUFFER_SIZE
          - w.OTA_client_info.write_info.firmware_buffer_current_offset)) % 4294967296
        = cfg.RAM_FIRMWARE_BUFFER_SIZE := by omega
    simp only [APP_ZIGBEE_OTA_Client_WriteImage_cb, hres, hm, hov, hsize, hrem, hfill,
      World.setWriteInfo, if_true, gt_iff_lt, Bool.false_eq_true, if_false]
  · have he : w.OTA_client_info.write_info.firmware_buffer_current_offset + c.length
        = cfg.RAM_FIRMWARE_BUFFER_SIZE := by omega
    have hno : ¬ (w.OTA_client_info.write_info.firmware_buffer_current_offset + c.length
        > cfg.RAM_FIRMWARE_BUFFER_SIZE) := by omega
    have hsz : cfg.RAM_FIRMWARE_BUFFER_SIZE
        - w.OTA_client_info.write_info.firmware_buffer_current_offset = c.length := by omega
    have hcm : cfg.RAM_FIRMWARE_BUFFER_SIZE % 4294967296 = cfg.RAM_FIRMWARE_BUFFER_SIZE :=
      Nat.mod_eq_of_lt (by omega)
    simp only [APP_ZIGBEE_OTA_Client_WriteImage_cb, hres, he, hsz, hcm, gt_iff_lt, lt_self_iff_false,
      World.setWriteInfo, if_true, Bool.false_eq_true, if_false, Nat.sub_self]

theorem TransferInv_stage (cfg : Config) (hw : Hw) (hl base : Nat) (tr0 : List Event)
    (D c : List Nat) (w : World)
    (hcap : 255 ≤ cfg.RAM_FIRMWARE_BUFFER_SIZE)
    (hfit : base + (D ++ c).length + 8 ≤ 4294967296)
    (inv : TransferInv cfg base tr0 D w)
    (hlt : D.length % cfg.RAM_FIRMWARE_BUFFER_SIZE + c.length < cfg.RAM_FIRMWARE_BUFFER_SIZE) :
    ∃ w1, APP_ZIGBEE_OTA_Client_WriteImage_cb cfg hw hl c w = (.ZCL_STATUS_SUCCESS, w1)
      ∧ TransferInv cfg base tr0 (D ++ c) w1 := by
  have hpos : 0 < cfg.RAM_FIRMWARE_BUFFER_SIZE := by omega
  have hdm := Nat.div_add_mod D.length cfg.RAM_FIRMWARE_BUFFER_SIZE
  rw [Nat.mul_comm] at hdm
  obtain ⟨hq, hm⟩ := div_mod_stay cfg.RAM_FIRMWARE_BUFFER_SIZE D.length c.length hpos hlt
  have hlen : (D ++ c).length = D.length + c.length := List.length_append D c
  refine ⟨_, WriteImage_cb_stage cfg hw hl c w inv.noResume inv.noPause inv.notFull
    (by rw [inv.fill]; exact hlt) (by rw [inv.fill]; omega), ?_⟩
  constructor
  · exact inv.base_eq
  · simp only [World.setWriteInfo, hlen, hm, inv.fill]
  · simp only [World.setWriteInfo, hlen, hq, inv.cursor]
  · rfl
  · exact inv.noResume
  · exact inv.noPause
  · intro i
    simp only [World.setWriteInfo, hlen, hm, hq, memcpy, inv.fill, inv.buf]
    by_cases h1 : D.length % cfg.RAM_FIRMWARE_BUFFER_SIZE ≤ i
        ∧ i < D.length % cfg.RAM_FIRMWARE_BUFFER_SIZE + c.length
    · rw [if_pos h1, if_pos h1.2, List.getD_append_right _ _ _ _ (by omega)]
      congr 1
      omega
    · rw [if_neg h1]
      by_cases h2 : i < D.length % cfg.RAM_FIRMWARE_BUFFER_SIZE
      · rw [if_pos h2, if_pos (by omega), List.getD_append _ _ _ _ (by omega)]
      · rw [if_neg h2, if_neg (by omega)]
  · intro i hi
    rw [hlen, hq] at hi
    have := inv.flash i hi
    simp only [World.setWriteInfo] at this ⊢
    rw [this, List.getD_append _ _ _ _ (by omega)]
  · simp only [World.setWriteInfo, hlen, hq]
    exact inv.cyc

theorem TransferInv_flush (cfg : Config) (hw : Hw)
    (hprog : ∀ m a v, hw.HAL_FLASH_Program m a v = (true, store64 m a v))
    (hl base : Nat) (tr0 : List Event) (D c : List Nat) (w : World)
    (hcap8 : cfg.RAM_FIRMWARE_BUFFER_SIZE % 8 = 0) (hcap : 255 ≤ cfg.RAM_FIRMWARE_BUFFER_SIZE)
    (hD : ∀ b ∈ D, b < 256) (hc : ∀ b ∈ c, b < 256) (hlen : c.length ≤ 255)
    (hfit : base + (D ++ c).length + 8 ≤ 4294967296)
    (inv : TransferInv cfg base tr0 D w)
    (hge : cfg.RAM_FIRMWARE_BUFFER_SIZE ≤ D.length % cfg.RAM_FIRMWARE_BUFFER_SIZE + c.length) :
    ∃ w1, APP_ZIGBEE_OTA_Client_WriteImage_cb cfg hw hl c w = (.ZCL_STATUS_SUCCESS, w1)
      ∧ TransferInv cfg base tr0 (D ++ c) w1 := by
  have hpos : 0 < cfg.RAM_FIRMWARE_BUFFER_SIZE := by omega
  have hr : D.length % cfg.RAM_FIRMWARE_BUFFER_SIZE < cfg.RAM_FIRMWARE_BUFFER_SIZE :=
    Nat.mod_lt _ hpos
  have hdm := Nat.div_add_mod D.length cfg.RAM_FIRMWARE_BUFFER_SIZE
  rw [Nat.mul_comm] at hdm
  obtain ⟨hq, hm⟩ := div_mod_next cfg.RAM_FIRMWARE_BUFFER_SIZE D.length c.length hpos hge
    (by omega)
  have hlenDc : (D ++ c).length = D.length + c.length := List.length_append D c
  have hfill := inv.fill
  have hcur := inv.cursor
  have hbase := inv.base_eq
  have hbuf := inv.buf
  have key := WriteImage_cb_flush cfg hw hl c w inv.noResume (by rw [hfill]; exact hge)
    (by rw [hfill]; omega) hlen (by rw [hfill]; omega)
  obtain ⟨w1, hw1, hflash, hinfo, -, es, hes, htr⟩ := WriteFirmwareData_ideal cfg hw hprog
    (({ w with current_offset := (w.current_offset + c.length) % 4294967296 } : World).setWriteInfo
      { w.OTA_client_info.write_info with
        firmware_buffer := memcpy w.OTA_client_info.write_info.firmware_buffer
          w.OTA_client_info.write_info.firmware_buffer_current_offset c
          (cfg.RAM_FIRMWARE_BUFFER_SIZE
            - w.OTA_client_info.write_info.firmware_buffer_current_offset)
        firmware_buffer_current_offset := cfg.RAM_FIRMWARE_BUFFER_SIZE
        buffer_full := true })
    (cfg.RAM_FIRMWARE_BUFFER_SIZE / 8)
    (by simp only [World.setWriteInfo]; omega)
    (by
      intro t _
      simp only [World.setWriteInfo, memcpy, hbuf]
      split
      · exact getD_lt_256 c hc _
      · split
        · exact getD_lt_256 D hD _
        · omega)
    (by simp only [World.setWriteInfo, hcur, hbase]; omega)
  rw [hw1] at key
  have h8 : 8 * (cfg.RAM_FIRMWARE_BUFFER_SIZE / 8) = cfg.RAM_FIRMWARE_BUFFER_SIZE := by omega
  simp only [World.setWriteInfo, h8, hcur, hbase, hfill] at hflash hinfo htr
  obtain ⟨c1, c2, -, c4, c5, c6⟩ := Crc_Calc_frame w1 (by rw [hinfo]; simp only; omega)
  have hp : (APP_ZIGBEE_OTA_Client_Crc_Calc w1).OTA_client_info.flags.OTA_CLIENT_PAUSE_DOWNLOAD_FLAG
      = false := by rw [c5, hinfo]; exact inv.noPause
  simp only [World.setWriteInfo, hp, Bool.false_eq_true, if_false] at key
  refine ⟨_, key, ?_⟩
  constructor
  · simp only [c6, hinfo, hbase]
  · simp only [hlenDc, hm, hfill]
  · simp only [c4, hinfo, hlenDc, hq, Nat.add_mul, Nat.one_mul]
  · rfl
  · simp only [c5, hinfo]; exact inv.noResume
  · simp only [c5, hinfo]; exact inv.noPause
  · intro i
    simp only [c4, hinfo, hlenDc, hm, hq, hfill, memcpy, memset0, hbuf, Nat.zero_le, true_and,
      Nat.zero_add, Nat.sub_zero, getD_drop]
    by_cases h1 : i < D.length % cfg.RAM_FIRMWARE_BUFFER_SIZE + c.length
        - cfg.RAM_FIRMWARE_BUFFER_SIZE
    · rw [if_pos h1, if_pos h1, List.getD_append_right _ _ _ _ (by rw [Nat.add_mul]; omega)]
      congr 1
      rw [Nat.add_mul]
      omega
    · rw [if_neg h1, if_neg h1]
      split
      · rfl
      · split
        · omega
        · split
          · omega
          · rfl
  · intro i hi
    rw [hlenDc, hq, Nat.add_mul, Nat.one_mul] at hi
    simp only [c1, hflash, flushedFlash, memcpy, hbuf, Nat.zero_add]
    by_cases h1 : i < D.length / cfg.RAM_FIRMWARE_BUFFER_SIZE * cfg.RAM_FIRMWARE_BUFFER_SIZE
    · rw [if_neg (by omega), inv.flash i h1, List.getD_append _ _ _ _ (by omega)]
    · rw [if_pos (by omega)]
      by_cases h2 : i < D.length
      · rw [if_neg (by omega), if_pos (by omega), List.getD_append _ _ _ _ h2]
        congr 1
        omega
      · rw [if_pos (by omega), List.getD_append_right _ _ _ _ (by omega)]
        congr 1
        omega
  · simp only [c2, htr, hlenDc, hq, cycleEvents, List.filter_append, inv.cyc,
      filter_isCycle_progEvents, filter_isCycle_isEE es hes, List.append_nil, List.append_assoc]
    simp [Event.isCycle, Nat.add_mul]

theorem TransferInv_step (cfg : Config) (hw : Hw)
    (hprog : ∀ m a v, hw.HAL_FLASH_Program m a v = (true, store64 m a v))
    (hl base : Nat) (tr0 : List Event) (D c : List Nat) (w : World)
    (hcap8 : cfg.RAM_FIRMWARE_BUFFER_SIZE % 8 = 0) (hcap : 255 ≤ cfg.RAM_FIRMWARE_BUFFER_SIZE)
    (hD : ∀ b ∈ D, b < 256) (hc : ∀ b ∈ c, b < 256) (hlen : c.length ≤ 255)
    (hfit : base + (D ++ c).length + 8 ≤ 4294967296)
    (inv : TransferInv cfg base tr0 D w) :
    ∃ w1, APP_ZIGBEE_OTA_Client_WriteImage_cb cfg hw hl c w = (.ZCL_STATUS_SUCCESS, w1)
      ∧ TransferInv cfg base tr0 (D ++ c) w1 := by
  rcases Nat.lt_or_ge (D.length % cfg.RAM_FIRMWARE_BUFFER_SIZE + c.length)
      cfg.RAM_FIRMWARE_BUFFER_SIZE with h | h
  · exact TransferInv_stage cfg hw hl base tr0 D c w hcap hfit inv h
  · exact TransferInv_flush cfg hw hprog hl base tr0 D c w hcap8 hcap hD hc hlen hfit inv h

theorem deliverChunks_inv (cfg : Config) (hw : Hw)
    (hprog : ∀ m a v, hw.HAL_FLASH_Program m a v = (true, store64 m a v))
    (hl base : Nat) (tr0 : List Event)
    (hcap8 : cfg.RAM_FIRMWARE_BUFFER_SIZE % 8 = 0) (hcap : 255 ≤ cfg.RAM_FIRMWARE_BUFFER_SIZE) :
    ∀ (chunks : List (List Nat)) (D : List Nat) (w : World),
      (∀ b ∈ D, b < 256) → (∀ c ∈ chunks, c.length ≤ 255) → (∀ c ∈ chunks, ∀ b ∈ c, b < 256) →
      base + (D ++ chunks.flatten).length + 8 ≤ 4294967296 →
      TransferInv cfg base tr0 D w →
      (∀ s ∈ (deliverChunks cfg hw hl chunks w).1, s = ZclStatusCodeT.ZCL_STATUS_SUCCESS)
      ∧ TransferInv cfg base tr0 (D ++ chunks.flatten) (deliverChunks cfg hw hl chunks w).2 := by
  intro chunks
  induction chunks with
  | nil =>
    intro D w _ _ _ _ inv
    simp only [deliverChunks, List.flatten_nil, List.append_nil]
    exact ⟨by simp, inv⟩
  | cons c cs ih =>
    intro D w hD hlen hby hfit inv
    have hfit1 : base + (D ++ c).length + 8 ≤ 4294967296 := by
      simp only [List.flatten_cons, List.length_append] at hfit ⊢
      omega
    obtain ⟨w1, e1, inv1⟩ := TransferInv_step cfg hw hprog hl base tr0 D c w hcap8 hcap hD
      (hby c (List.mem_cons_self c cs)) (hlen c (List.mem_cons_self c cs)) hfit1 inv
    have hD1 : ∀ b ∈ D ++ c, b < 256 := by
      intro b hb
      rcases List.mem_append.mp hb with h | h
      · exact hD b h
      · exact hby c (List.mem_cons_self c cs) b h
    obtain ⟨s2, inv2⟩ := ih (D ++ c) w1 hD1 (fun x hx => hlen x (List.mem_cons_of_mem c hx))
      (fun x hx => hby x (List.mem_cons_of_mem c hx))
      (by simpa only [List.flatten_cons, List.append_assoc] using hfit) inv1
    simp only [deliverChunks, e1, List.flatten_cons, ← List.append_assoc]
    refine ⟨?_, inv2⟩
    intro s hs
    rcases List.mem_cons.mp hs with h | h
    · exact h
    · exact s2 s h

theorem FreshTransfer_inv (cfg : Config) (w : World) (hf : FreshTransfer w) :
    TransferInv cfg w.OTA_client_info.ctx.base_address w.trace [] w := by
  obtain ⟨h1, h2, h3, h4, h5, h6⟩ := hf
  constructor
  · rfl
  · simpa using h2
  · simpa using h1
  · exact h4
  · exact h5
  · exact h6
  · intro i; simp [h3]
  · intro i hi; simp at hi
  · simp [cycleEvents]

/-- The flash array left by the validation callback is the one left by its
residual flush. -/
theorem ImageValidate_flash_eq (cfg : Config) (hw : Hw) (w : World) :
    (APP_ZIGBEE_OTA_Client_ImageValidate_cb cfg hw w).2.flash
      = if w.OTA_client_info.write_info.firmware_buffer_current_offset ≠ 0 then
          (APP_ZIGBEE_OTA_Client_WriteFirmwareData cfg hw
            ({ w.emit [.tsStop .TS_ID_LED] with OTA_client_info := { w.OTA_client_info with
              OTA_state := cfg.VERIFYING_IMAGE } } : World)).2.flash
        else w.flash := by
  unfold APP_ZIGBEE_OTA_Client_ImageValidate_cb
  by_cases h0 : w.OTA_client_info.write_info.firmware_buffer_current_offset = 0
  · simp only [World.emit, World.setWriteInfo, h0, ne_eq, not_true_eq_false, if_false]
    split <;> rfl
  · simp only [World.emit, World.setWriteInfo, h0, ne_eq, not_false_eq_true, if_true]
    split <;> rfl

theorem ImageValidate_flash (cfg : Config) (hw : Hw)
    (hprog : ∀ m a v, hw.HAL_FLASH_Program m a v = (true, store64 m a v))
    (base : Nat) (tr0 : List Event) (D : List Nat) (w : World)
    (hcap : 255 ≤ cfg.RAM_FIRMWARE_BUFFER_SIZE)
    (hD : ∀ b ∈ D, b < 256)
    (hfit : base + D.length + 8 ≤ 4294967296)
    (inv : TransferInv cfg base tr0 D w) :
    ∀ i, i < D.length →
      (APP_ZIGBEE_OTA_Client_ImageValidate_cb cfg hw w).2.flash (base + i) = D.getD i 0 := by
  intro i hi
  have hpos : 0 < cfg.RAM_FIRMWARE_BUFFER_SIZE := by omega
  have hdm := Nat.div_add_mod D.length cfg.RAM_FIRMWARE_BUFFER_SIZE
  rw [Nat.mul_comm] at hdm
  have hfill := inv.fill
  have hcur := inv.cursor
  have hbase := inv.base_eq
  have hbuf := inv.buf
  rw [ImageValidate_flash_eq]
  by_cases h0 : w.OTA_client_info.write_info.firmware_buffer_current_offset = 0
  · rw [if_neg (by simpa using h0)]
    exact inv.flash i (by rw [hfill] at h0; omega)
  · rw [if_pos h0]
    obtain ⟨w1, hw1, hflash, -, -, -⟩ := WriteFirmwareData_ideal cfg hw hprog
      ({ w.emit [.tsStop .TS_ID_LED] with OTA_client_info := { w.OTA_client_info with
        OTA_state := cfg.VERIFYING_IMAGE } } : World)
      ((w.OTA_client_info.write_info.firmware_buffer_current_offset + 7) / 8)
      rfl
      (by
        intro t _
        simp only [World.emit, hbuf]
        split
        · exact getD_lt_256 D hD _
        · omega)
      (by simp only [World.emit, hcur, hbase, hfill]; omega)
    rw [hw1]
    simp only [hflash, World.emit, flushedFlash, hbuf, hcur, hbase, hfill, Nat.zero_add]
    by_cases h1 : i < D.length / cfg.RAM_FIRMWARE_BUFFER_SIZE * cfg.RAM_FIRMWARE_BUFFER_SIZE
    · rw [if_neg (by omega)]
      exact inv.flash i h1
    · rw [if_pos (by omega), if_pos (by omega)]
      congr 1
      omega

/-! ## C1: committed flash content -/

/-- C1: on a flash controller that programs every double word, for every
sequence of chunks of at most 255 bytes delivered in order to the write-image
callback from a fresh transfer context and followed by the validation callback,
with a staging capacity that is a multiple of 8 and at least 255, every call
returns success and the flash holds, from `base_address` on, exactly the
concatenation of the chunks.  The image region, rounded up to a double word,
is assumed to lie inside the 32-bit address space. -/
theorem C1_flash_is_concatenation (cfg : Config) (hw : Hw) (header_length : Nat)
    (chunks : List (List Nat)) (w : World)
    (hprog : ∀ m a v, hw.HAL_FLASH_Program m a v = (true, store64 m a v))
    (hcap8 : cfg.RAM_FIRMWARE_BUFFER_SIZE % 8 = 0) (hcap : 255 ≤ cfg.RAM_FIRMWARE_BUFFER_SIZE)
    (hfresh : FreshTransfer w)
    (hlen : ∀ c ∈ chunks, c.length ≤ 255) (hbytes : ∀ c ∈ chunks, ∀ b ∈ c, b < 256)
    (hfit : w.OTA_client_info.ctx.base_address + chunks.flatten.length + 8 ≤ 4294967296) :
    (∀ s ∈ (deliverChunks cfg hw header_length chunks w).1, s = ZclStatusCodeT.ZCL_STATUS_SUCCESS)
    ∧ ∀ i, i < chunks.flatten.length →
        (APP_ZIGBEE_OTA_Client_ImageValidate_cb cfg hw
          (deliverChunks cfg hw header_length chunks w).2).2.flash
            (w.OTA_client_info.ctx.base_address + i) = chunks.flatten.getD i 0 := by
  obtain ⟨hs, inv⟩ := deliverChunks_inv cfg hw hprog header_length
    w.OTA_client_info.ctx.base_address w.trace hcap8 hcap chunks [] w (by simp) hlen hbytes
    (by simpa using hfit) (FreshTransfer_inv cfg w hfresh)
  rw [List.nil_append] at inv
  have hall : ∀ b ∈ chunks.flatten, b < 256 := by
    intro b hb
    obtain ⟨c, hc, hbc⟩ := List.mem_flatten.mp hb
    exact hbytes c hc b hbc
  exact ⟨hs, ImageValidate_flash cfg hw hprog _ _ _ _ hcap hall hfit inv⟩

/-- The hypotheses of C1 hold for two chunks delivered to the reference device. -/
theorem C1_flash_is_concatenation_witness :
    refConfig.RAM_FIRMWARE_BUFFER_SIZE % 8 = 0 ∧ 255 ≤ refConfig.RAM_FIRMWARE_BUFFER_SIZE
    ∧ FreshTransfer refTransfer
    ∧ ((∀ s ∈ (deliverChunks refConfig idealHw 56 [[1, 2, 3], [4, 5]] refTransfer).1,
          s = ZclStatusCodeT.ZCL_STATUS_SUCCESS)
      ∧ ∀ i, i < [[1, 2, 3], [4, 5]].flatten.length →
          (APP_ZIGBEE_OTA_Client_ImageValidate_cb refConfig idealHw
            (deliverChunks refConfig idealHw 56 [[1, 2, 3], [4, 5]] refTransfer).2).2.flash
              (refTransfer.OTA_client_info.ctx.base_address + i)
            = [[1, 2, 3], [4, 5]].flatten.getD i 0) :=
  ⟨by decide, by decide, ⟨rfl, rfl, fun _ => rfl, rfl, rfl, rfl⟩,
    C1_flash_is_concatenation refConfig idealHw 56 [[1, 2, 3], [4, 5]] refTransfer
      (fun _ _ _ => rfl) (by decide) (by decide) ⟨rfl, rfl, fun _ => rfl, rfl, rfl, rfl⟩
      (by decide) (by decide) (by decide)⟩

/-! ## C10: end-to-end transfer of 4096 bytes through a buffer of 512 bytes -/

/-- The validation callback on an empty staging buffer: no flush; the cursor
steps back by eight and the marker is read there. -/
theorem ImageValidate_empty (cfg : Config) (hw : Hw) (w : World)
    (h0 : w.OTA_client_info.write_info.firmware_buffer_current_offset = 0) :
    (APP_ZIGBEE_OTA_Client_ImageValidate_cb cfg hw w).2.trace
        = w.trace ++ [.tsStop .TS_ID_LED, .magicRead ((w.OTA_client_info.ctx.base_address
            + (w.OTA_client_info.write_info.flash_current_offset + 4294967296 - 8) % 4294967296)
            % 4294967296)]
    ∧ (APP_ZIGBEE_OTA_Client_ImageValidate_cb cfg hw w).2.OTA_client_info.write_info.flash_current_offset
        = (w.OTA_client_info.write_info.flash_current_offset + 4294967296 - 8) % 4294967296
    ∧ (APP_ZIGBEE_OTA_Client_ImageValidate_cb cfg hw w).2.flash = w.flash := by
  unfold APP_ZIGBEE_OTA_Client_ImageValidate_cb
  simp only [World.emit, World.setWriteInfo, h0, ne_eq, not_true_eq_false, if_false,
    List.append_assoc, List.singleton_append]
  split <;> exact ⟨rfl, rfl, rfl⟩

/-- C10: with a staging capacity of 512 bytes, an image of 4096 bytes delivered
in any chunking (chunks of 1 to 255 bytes) from a fresh context on a flash
controller that programs every double word, followed by the validation
callback: every call returns success; there are exactly eight flushes, entered
with the cursor at 0, 512, .., 3584 and a full buffer of 512 bytes, each
followed by one checkpoint save with the cursor advanced by 512; the marker is
read at offset 4088, the cursor is left there, and the flash holds the image. -/
theorem C10_end_to_end_4096_by_512 (cfg : Config) (hw : Hw) (header_length : Nat)
    (chunks : List (List Nat)) (w : World)
    (hprog : ∀ m a v, hw.HAL_FLASH_Program m a v = (true, store64 m a v))
    (hcap : cfg.RAM_FIRMWARE_BUFFER_SIZE = 512)
    (hfresh : FreshTransfer w)
    (hlen : ∀ c ∈ chunks, 1 ≤ c.length ∧ c.length ≤ 255)
    (hbytes : ∀ c ∈ chunks, ∀ b ∈ c, b < 256)
    (hsum : chunks.flatten.length = 4096)
    (hfit : w.OTA_client_info.ctx.base_address + 4096 + 8 ≤ 4294967296) :
    (∀ s ∈ (deliverChunks cfg hw header_length chunks w).1, s = ZclStatusCodeT.ZCL_STATUS_SUCCESS)
    ∧ (APP_ZIGBEE_OTA_Client_ImageValidate_cb cfg hw
        (deliverChunks cfg hw header_length chunks w).2).2.trace.filter Event.isCycle
      = w.trace.filter Event.isCycle ++
        [.enterWriteFirmwareData 0 512, .enterCtxSave 512,
         .enterWriteFirmwareData 512 512, .enterCtxSave 1024,
         .enterWriteFirmwareData 1024 512, .enterCtxSave 1536,
         .enterWriteFirmwareData 1536 512, .enterCtxSave 2048,
         .enterWriteFirmwareData 2048 512, .enterCtxSave 2560,
         .enterWriteFirmwareData 2560 512, .enterCtxSave 3072,
         .enterWriteFirmwareData 3072 512, .enterCtxSave 3584,
         .enterWriteFirmwareData 3584 512, .enterCtxSave 4096,
         .magicRead (w.OTA_client_info.ctx.base_address + 4088)]
    ∧ (APP_ZIGBEE_OTA_Client_ImageValidate_cb cfg hw
        (deliverChunks cfg hw header_length chunks w).2).2.OTA_client_info.write_info.flash_current_offset
      = 4088
    ∧ ∀ i, i < 4096 →
        (APP_ZIGBEE_OTA_Client_ImageValidate_cb cfg hw
          (deliverChunks cfg hw header_length chunks w).2).2.flash
            (w.OTA_client_info.ctx.base_address + i) = chunks.flatten.getD i 0 := by
  obtain ⟨hs, inv⟩ := deliverChunks_inv cfg hw hprog header_length
    w.OTA_client_info.ctx.base_address w.trace (by omega) (by omega) chunks [] w (by simp)
    (fun c hc => (hlen c hc).2) hbytes (by simp only [List.nil_append, hsum]; exact hfit)
    (FreshTransfer_inv cfg w hfresh)
  rw [List.nil_append] at inv
  have hfill := inv.fill
  have hcur := inv.cursor
  have hcyc := inv.cyc
  have hbase := inv.base_eq
  rw [hsum, hcap] at hfill hcur hcyc
  obtain ⟨e1, e2, e3⟩ := ImageValidate_empty cfg hw _ hfill
  refine ⟨hs, ?_, ?_, ?_⟩
  · rw [e1, List.filter_append, hcyc, hcur, hbase]
    have ha : (w.OTA_client_info.ctx.base_address + (4096 / 512 * 512 + 4294967296 - 8) % 4294967296)
        % 4294967296 = w.OTA_client_info.ctx.base_address + 4088 := by omega
    rw [ha]
    simp [cycleEvents, Event.isCycle]
  · rw [e2, hcur]
  · intro i hi
    rw [e3]
    exact inv.flash i (by rw [hsum, hcap]; omega)

/-- The hypotheses of C10 hold for the image `chunks4096` on the reference
device with a buffer of 512 bytes. -/
theorem C10_end_to_end_4096_by_512_witness :
    refConfig512.RAM_FIRMWARE_BUFFER_SIZE = 512 ∧ FreshTransfer refTransfer
    ∧ (∀ c ∈ chunks4096, 1 ≤ c.length ∧ c.length ≤ 255)
    ∧ chunks4096.flatten.length = 4096
    ∧ (APP_ZIGBEE_OTA_Client_ImageValidate_cb refConfig512 idealHw
        (deliverChunks refConfig512 idealHw 56 chunks4096
          refTransfer).2).2.OTA_client_info.write_info.flash_current_offset = 4088 :=
  have hlen : ∀ c ∈ chunks4096, 1 ≤ c.length ∧ c.length ≤ 255 := by
    intro c hc
    simp only [chunks4096, List.mem_append, List.mem_replicate, List.mem_singleton] at hc
    rcases hc with ⟨_, rfl⟩ | rfl <;> simp only [List.length_replicate] <;> omega
  have hbytes : ∀ c ∈ chunks4096, ∀ b ∈ c, b < 256 := by
    intro c hc b hb
    simp only [chunks4096, List.mem_append, List.mem_replicate, List.mem_singleton] at hc
    rcases hc with ⟨_, rfl⟩ | rfl <;> simp only [List.mem_replicate] at hb <;> omega
  have hsum : chunks4096.flatten.length = 4096 := by
    show chunks4096.flatten.length = 16 * 255 + (16 + 0)
    simp only [chunks4096, List.flatten_append, List.length_append, List.length_flatten,
      List.map_replicate, List.length_replicate, List.sum_replicate, List.map_cons, List.map_nil,
      List.sum_cons, List.sum_nil, smul_eq_mul]
  ⟨rfl, ⟨rfl, rfl, fun _ => rfl, rfl, rfl, rfl⟩, hlen, hsum,
    (C10_end_to_end_4096_by_512 refConfig512 idealHw 56 chunks4096 refTransfer
      (fun _ _ _ => rfl) rfl ⟨rfl, rfl, fun _ => rfl, rfl, rfl, rfl⟩ hlen hbytes hsum
      (by decide)).2.2.1⟩

/-! ## C5, C6: the image-notify policy -/

/-- The search of the two-entry table, unfolded. -/
theorem FindImageType_eq (cfg : Config) (t : Nat) :
    APP_ZIGBEE_FindImageType cfg t
      = if cfg.fileType_COPRO_WIRELESS = t then 0
        else if cfg.fileType_APP = t then 1 else -1 := by
  simp [APP_ZIGBEE_FindImageType, FindImageType_loop, OTA_currentFileVersionTab]

/-- The search fails exactly for the image types that are not in the table. -/
theorem FindImageType_neg_iff (cfg : Config) (t : Nat) :
    APP_ZIGBEE_FindImageType cfg t < 0 ↔ ∀ e ∈ OTA_currentFileVersionTab cfg, e.1 ≠ t := by
  rw [FindImageType_eq]
  simp only [OTA_currentFileVersionTab, List.mem_cons, List.mem_singleton, List.not_mem_nil,
    or_false, forall_eq_or_imp, forall_eq]
  split
  · simp_all
  · split
    · simp_all
    · simp_all

/-- C6: the image-notify callback returns `ZCL_STATUS_FAILURE` and leaves the
whole state unchanged (`OTA_client_info` as it was, no task set) for every
offer whose manufacturer code is not `ST_ZIGBEE_MANUFACTURER_CODE`, whose
image type is not in `OTA_currentFileVersionTab`, or whose file version equals
the running version of its image type, and for every payload type other than
the file-version notify. -/
theorem C6_notify_rejections (cfg : Config) (payload_type jitter : Nat)
    (d : ZbZclOtaImageDefinition) (w : World)
    (h : d.manufacturer_code ≠ cfg.ST_ZIGBEE_MANUFACTURER_CODE
      ∨ (∀ e ∈ OTA_currentFileVersionTab cfg, e.1 ≠ d.image_type)
      ∨ d.file_version = currentFileVersion cfg d.image_type
      ∨ payload_type ≠ cfg.ZCL_OTA_NOTIFY_TYPE_FILE_VERSION) :
    APP_ZIGBEE_OTA_Client_ImageNotify_cb cfg payload_type jitter d w
      = (ZclStatusCodeT.ZCL_STATUS_FAILURE, w) := by
  unfold APP_ZIGBEE_OTA_Client_ImageNotify_cb
  by_cases hpt : payload_type = cfg.ZCL_OTA_NOTIFY_TYPE_FILE_VERSION
  · rw [if_pos hpt]
    by_cases hman : d.manufacturer_code = cfg.ST_ZIGBEE_MANUFACTURER_CODE
    · rw [if_neg (by simpa using hman)]
      by_cases hpos : APP_ZIGBEE_FindImageType cfg d.image_type < 0
      · simp only [hpos, if_true]
      · simp only [hpos, if_false]
        have hv : d.file_version = currentFileVersion cfg d.image_type := by
          rcases h with h | h | h | h
          · exact absurd hman h
          · exact absurd ((FindImageType_neg_iff cfg d.image_type).mpr h) hpos
          · exact h
          · exact absurd hpt h
        unfold currentFileVersion at hv
        rw [if_pos hv.symm]
    · rw [if_pos hman]
  · rw [if_neg hpt]

/-- C6 on the reference configuration: an offer of the running version. -/
theorem C6_notify_rejections_witness :
    (1 : Nat) = currentFileVersion refConfig 2
    ∧ APP_ZIGBEE_OTA_Client_ImageNotify_cb refConfig 3 0
        { manufacturer_code := 4660, image_type := 2, file_version := 1 } refWorld
      = (ZclStatusCodeT.ZCL_STATUS_FAILURE, refWorld) :=
  ⟨by decide, C6_notify_rejections refConfig 3 0
    { manufacturer_code := 4660, image_type := 2, file_version := 1 } refWorld
    (Or.inr (Or.inr (Or.inl (by decide))))⟩

/-! ## C8, C9: the abort budget -/

/-- One abort below the budget: the counter is incremented, the resume timer
is started and the callback returns `ZCL_STATUS_ABORT`. -/
theorem AbortDownload_retry (cfg : Config) (w : World)
    (h : w.OTA_client_info.OTA_abort_retries + 1 < cfg.OTA_CLIENT_ABORT_MAX_RETRIES) :
    APP_ZIGBEE_OTA_Client_AbortDownload_cb cfg w
      = (.ZCL_STATUS_ABORT,
          { w with
            OTA_client_info := { w.OTA_client_info with
              OTA_abort_retries := w.OTA_client_info.OTA_abort_retries + 1 }
            trace := w.trace ++ [.tsStop .TS_ID_LED] ++ [.tsStart .TS_DOWNLOAD_RESUME] }) := by
  simp [APP_ZIGBEE_OTA_Client_AbortDownload_cb, World.emit, h]

/-- One abort that reaches the budget: no timer is started, the counter is
reset and the callback returns `ZCL_STATUS_SUCCESS`. -/
theorem AbortDownload_terminal (cfg : Config) (w : World)
    (h : cfg.OTA_CLIENT_ABORT_MAX_RETRIES ≤ w.OTA_client_info.OTA_abort_retries + 1) :
    APP_ZIGBEE_OTA_Client_AbortDownload_cb cfg w
      = (.ZCL_STATUS_SUCCESS,
          { w with
            OTA_client_info := { w.OTA_client_info with OTA_abort_retries := 0 }
            trace := w.trace ++ [.tsStop .TS_ID_LED] }) := by
  have h1 : ¬ w.OTA_client_info.OTA_abort_retries + 1 < cfg.OTA_CLIENT_ABORT_MAX_RETRIES := by
    omega
  simp [APP_ZIGBEE_OTA_Client_AbortDownload_cb, World.emit, h1]

/-- From a zeroed counter, after `k` aborts the counter is `k` modulo the
budget and `k - k / budget` retries have been scheduled. -/
theorem abortN_count (cfg : Config) (w : World)
    (h0 : w.OTA_client_info.OTA_abort_retries = 0)
    (hN : 0 < cfg.OTA_CLIENT_ABORT_MAX_RETRIES) (k : Nat) :
    (abortN cfg k w).OTA_client_info.OTA_abort_retries = k % cfg.OTA_CLIENT_ABORT_MAX_RETRIES
    ∧ retriesScheduled (abortN cfg k w).trace
        = retriesScheduled w.trace + (k - k / cfg.OTA_CLIENT_ABORT_MAX_RETRIES) := by
  induction k with
  | zero => simp [abortN, h0]
  | succ k ih =>
    obtain ⟨ih1, ih2⟩ := ih
    have hle : k / cfg.OTA_CLIENT_ABORT_MAX_RETRIES ≤ k := Nat.div_le_self _ _
    have hr : k % cfg.OTA_CLIENT_ABORT_MAX_RETRIES < cfg.OTA_CLIENT_ABORT_MAX_RETRIES :=
      Nat.mod_lt _ hN
    rcases Nat.lt_or_ge (k % cfg.OTA_CLIENT_ABORT_MAX_RETRIES + 1)
        cfg.OTA_CLIENT_ABORT_MAX_RETRIES with h | h
    · obtain ⟨hq, hm⟩ := div_mod_stay cfg.OTA_CLIENT_ABORT_MAX_RETRIES k 1 hN h
      rw [abortN, AbortDownload_retry cfg _ (by rw [ih1]; exact h)]
      simp only [ih1, hm, hq, retriesScheduled, List.filter_append, List.length_append] at ih2 ⊢
      simp only [ih2, true_and]
      simp
      omega
    · obtain ⟨hq, hm⟩ := div_mod_next cfg.OTA_CLIENT_ABORT_MAX_RETRIES k 1 hN h (by omega)
      rw [abortN, AbortDownload_terminal cfg _ (by rw [ih1]; exact h)]
      simp only [hm, hq, retriesScheduled, List.filter_append, List.length_append] at ih2 ⊢
      simp only [ih2]
      simp
      omega

/-- C8, as stated, fails: with a budget of three and a zeroed counter the
third abort is already terminal (it returns `ZCL_STATUS_SUCCESS` and starts no
timer), and the fourth abort starts the resume timer again. -/
theorem C8_counterexample :
    refConfig.OTA_CLIENT_ABORT_MAX_RETRIES = 3
    ∧ refWorld.OTA_client_info.OTA_abort_retries = 0
    ∧ (APP_ZIGBEE_OTA_Client_AbortDownload_cb refConfig (abortN refConfig 2 refWorld)).1
        = ZclStatusCodeT.ZCL_STATUS_SUCCESS
    ∧ (APP_ZIGBEE_OTA_Client_AbortDownload_cb refConfig (abortN refConfig 2 refWorld)).2.trace
        = (abortN refConfig 2 refWorld).trace ++ [.tsStop .TS_ID_LED]
    ∧ (APP_ZIGBEE_OTA_Client_AbortDownload_cb refConfig (abortN refConfig 3 refWorld)).2.trace
        = (abortN refConfig 3 refWorld).trace
          ++ [.tsStop .TS_ID_LED, .tsStart .TS_DOWNLOAD_RESUME] := by
  decide

/-- C8, amended: with a budget `N = OTA_CLIENT_ABORT_MAX_RETRIES` of at least
one and a zeroed counter, each of the first `N - 1` aborts returns
`ZCL_STATUS_ABORT` and starts the resume timer, and the `N`-th abort is
terminal: it returns `ZCL_STATUS_SUCCESS`, starts no timer and resets the
counter. -/
theorem C8_abort_budget (cfg : Config) (w : World)
    (h0 : w.OTA_client_info.OTA_abort_retries = 0)
    (hN : 0 < cfg.OTA_CLIENT_ABORT_MAX_RETRIES) :
    (∀ k, k + 1 < cfg.OTA_CLIENT_ABORT_MAX_RETRIES →
      (APP_ZIGBEE_OTA_Client_AbortDownload_cb cfg (abortN cfg k w)).1
        = ZclStatusCodeT.ZCL_STATUS_ABORT
      ∧ (APP_ZIGBEE_OTA_Client_AbortDownload_cb cfg (abortN cfg k w)).2.trace
        = (abortN cfg k w).trace ++ [.tsStop .TS_ID_LED, .tsStart .TS_DOWNLOAD_RESUME])
    ∧ (APP_ZIGBEE_OTA_Client_AbortDownload_cb cfg
        (abortN cfg (cfg.OTA_CLIENT_ABORT_MAX_RETRIES - 1) w)).1
        = ZclStatusCodeT.ZCL_STATUS_SUCCESS
    ∧ (APP_ZIGBEE_OTA_Client_AbortDownload_cb cfg
        (abortN cfg (cfg.OTA_CLIENT_ABORT_MAX_RETRIES - 1) w)).2.trace
        = (abortN cfg (cfg.OTA_CLIENT_ABORT_MAX_RETRIES - 1) w).trace ++ [.tsStop .TS_ID_LED]
    ∧ (APP_ZIGBEE_OTA_Client_AbortDownload_cb cfg
        (abortN cfg (cfg.OTA_CLIENT_ABORT_MAX_RETRIES - 1) w)).2.OTA_client_info.OTA_abort_retries
        = 0 := by
  have hcnt : ∀ k, k < cfg.OTA_CLIENT_ABORT_MAX_RETRIES →
      (abortN cfg k w).OTA_client_info.OTA_abort_retries = k := by
    intro k hk
    rw [(abortN_count cfg w h0 hN k).1, Nat.mod_eq_of_lt hk]
  refine ⟨?_, ?_⟩
  · intro k hk
    rw [AbortDownload_retry cfg _ (by rw [hcnt k (by omega)]; exact hk)]
    exact ⟨rfl, by simp⟩
  · rw [AbortDownload_terminal cfg _ (by rw [hcnt _ (by omega)]; omega)]
    exact ⟨rfl, rfl, rfl⟩

/-- The hypotheses of the amended C8 hold on the reference device. -/
theorem C8_abort_budget_witness :
    refWorld.OTA_client_info.OTA_abort_retries = 0
    ∧ 0 < refConfig.OTA_CLIENT_ABORT_MAX_RETRIES
    ∧ (APP_ZIGBEE_OTA_Client_AbortDownload_cb refConfig
        (abortN refConfig (refConfig.OTA_CLIENT_ABORT_MAX_RETRIES - 1) refWorld)).1
        = ZclStatusCodeT.ZCL_STATUS_SUCCESS :=
  ⟨rfl, by decide, (C8_abort_budget refConfig refWorld rfl (by decide)).2.1⟩

/-- C9, as stated, fails: with a budget of three, the third abort reaches
terminal failure and resets the counter, the fourth abort of the same sequence
starts the resume timer, and eight aborts schedule six retries. -/
theorem C9_counterexample :
    (abortN refConfig 3 refWorld).OTA_client_info.OTA_abort_retries = 0
    ∧ (APP_ZIGBEE_OTA_Client_AbortDownload_cb refConfig (abortN refConfig 3 refWorld)).1
        = ZclStatusCodeT.ZCL_STATUS_ABORT
    ∧ retriesScheduled (abortN refConfig 3 refWorld).trace = 2
    ∧ retriesScheduled (abortN refConfig 4 refWorld).trace = 3
    ∧ retriesScheduled (abortN refConfig 8 refWorld).trace = 6 := by
  decide

/-- C9, amended: a call of the abort callback that reaches terminal failure
starts no timer and resets the counter to zero, so that the next abort opens a
new budget: over `k` aborts from a zeroed counter exactly `k - k / N` retries
are scheduled (`N = OTA_CLIENT_ABORT_MAX_RETRIES`, at least one), that is
`N - 1` between two terminal failures. -/
theorem C9_retries_per_budget (cfg : Config) (w : World)
    (h0 : w.OTA_client_info.OTA_abort_retries = 0)
    (hN : 0 < cfg.OTA_CLIENT_ABORT_MAX_RETRIES) (k : Nat) :
    retriesScheduled (abortN cfg k w).trace
      = retriesScheduled w.trace + (k - k / cfg.OTA_CLIENT_ABORT_MAX_RETRIES)
    ∧ ∀ w1 : World, cfg.OTA_CLIENT_ABORT_MAX_RETRIES ≤ w1.OTA_client_info.OTA_abort_retries + 1 →
        (APP_ZIGBEE_OTA_Client_AbortDownload_cb cfg w1).2.trace = w1.trace ++ [.tsStop .TS_ID_LED]
        ∧ (APP_ZIGBEE_OTA_Client_AbortDownload_cb cfg w1).2.OTA_client_info.OTA_abort_retries = 0 := by
  refine ⟨(abortN_count cfg w h0 hN k).2, ?_⟩
  intro w1 h1
  rw [AbortDownload_terminal cfg w1 h1]
  exact ⟨rfl, rfl⟩

/-- The hypotheses of the amended C9 hold on the reference device. -/
theorem C9_retries_per_budget_witness :
    refWorld.OTA_client_info.OTA_abort_retries = 0
    ∧ 0 < refConfig.OTA_CLIENT_ABORT_MAX_RETRIES
    ∧ retriesScheduled (abortN refConfig 8 refWorld).trace
        = retriesScheduled refWorld.trace + (8 - 8 / refConfig.OTA_CLIENT_ABORT_MAX_RETRIES) :=
  ⟨rfl, by decide, (C9_retries_per_budget refConfig refWorld rfl (by decide) 8).1⟩

/-! ## C2, C3: resume and stale record -/

/-- C2, evaluated at a failing input.  The record `[1024, application, 3,
VERIFYING_IMAGE]` was persisted by the residual flush of a download whose
marker check failed.  After a restart and a query response for the same image
type and version the resume flag is set, the validation is run again and steps
the cursor back to 1016; the first write-image call tells the transport to
skip 1024 bytes (attribute value 1024 + 56 + 6) and stores nothing; the data of
the next chunk is programmed from flash offset 1016, over the last committed
double word. -/
theorem C2_resume_after_failed_validation :
    (APP_ZIGBEE_OTA_Client_QueryNextImage_cb refConfig idealHw .ZCL_STATUS_SUCCESS offerApp3 4096
        (APP_ZIGBEE_OTA_Client_Init refConfig idealHw
          (refWorldWithRecord 1024 2 3 3))).OTA_client_info.flags.OTA_CLIENT_RESUME_DOWNLOAD_FLAG
        = true
    ∧ (APP_ZIGBEE_OTA_Client_QueryNextImage_cb refConfig idealHw .ZCL_STATUS_SUCCESS offerApp3 4096
        (APP_ZIGBEE_OTA_Client_Init refConfig idealHw
          (refWorldWithRecord 1024 2 3 3))).OTA_client_info.zigbee_ota_ctx_nvm.flash_offset = 1024
    ∧ (APP_ZIGBEE_OTA_Client_QueryNextImage_cb refConfig idealHw .ZCL_STATUS_SUCCESS offerApp3 4096
        (APP_ZIGBEE_OTA_Client_Init refConfig idealHw
          (refWorldWithRecord 1024 2 3 3))).OTA_client_info.write_info.flash_current_offset = 1016
    ∧ (APP_ZIGBEE_OTA_Client_QueryNextImage_cb refConfig idealHw .ZCL_STATUS_SUCCESS offerApp3 4096
        (APP_ZIGBEE_OTA_Client_Init refConfig idealHw (refWorldWithRecord 1024 2 3 3))).trace
        = [.flashUnlock, .flashLock, .tsStop .TS_ID_LED, .magicRead (134479872 + 1016),
           .setTask .CFG_TASK_ZIGBEE_OTA_START_DOWNLOAD]
    ∧ (APP_ZIGBEE_OTA_Client_WriteImage_cb refConfig idealHw 56 [1, 2, 3, 4, 5, 6, 7, 8]
        (APP_ZIGBEE_OTA_Client_QueryNextImage_cb refConfig idealHw .ZCL_STATUS_SUCCESS offerApp3
          4096 (APP_ZIGBEE_OTA_Client_Init refConfig idealHw (refWorldWithRecord 1024 2 3 3)))).1
        = ZclStatusCodeT.ZCL_STATUS_SUCCESS
    ∧ (APP_ZIGBEE_OTA_Client_WriteImage_cb refConfig idealHw 56 [1, 2, 3, 4, 5, 6, 7, 8]
        (APP_ZIGBEE_OTA_Client_QueryNextImage_cb refConfig idealHw .ZCL_STATUS_SUCCESS offerApp3
          4096 (APP_ZIGBEE_OTA_Client_Init refConfig idealHw
            (refWorldWithRecord 1024 2 3 3)))).2.trace.filter
              (fun e => decide (e = Event.attrWrite (1024 + 56 + 6)))
        = [.attrWrite 1086]
    ∧ (APP_ZIGBEE_OTA_Client_WriteImage_cb refConfig idealHw 56 [1, 2, 3, 4, 5, 6, 7, 8]
        (APP_ZIGBEE_OTA_Client_QueryNextImage_cb refConfig idealHw .ZCL_STATUS_SUCCESS offerApp3
          4096 (APP_ZIGBEE_OTA_Client_Init refConfig idealHw
            (refWorldWithRecord 1024 2 3 3)))).2.OTA_client_info.write_info.firmware_buffer_current_offset
        = 0
    ∧ Event.flashProgram (134479872 + 1016) 1157159078456920585 true
        ∈ (APP_ZIGBEE_OTA_Client_ImageValidate_cb refConfig idealHw
            (APP_ZIGBEE_OTA_Client_WriteImage_cb refConfig idealHw 56 [9, 10, 11, 12, 13, 14, 15, 16]
              (APP_ZIGBEE_OTA_Client_WriteImage_cb refConfig idealHw 56 [1, 2, 3, 4, 5, 6, 7, 8]
                (APP_ZIGBEE_OTA_Client_QueryNextImage_cb refConfig idealHw .ZCL_STATUS_SUCCESS
                  offerApp3 4096 (APP_ZIGBEE_OTA_Client_Init refConfig idealHw
                    (refWorldWithRecord 1024 2 3 3)))).2).2).2.trace
    ∧ (APP_ZIGBEE_OTA_Client_ImageValidate_cb refConfig idealHw
        (APP_ZIGBEE_OTA_Client_WriteImage_cb refConfig idealHw 56 [9, 10, 11, 12, 13, 14, 15, 16]
          (APP_ZIGBEE_OTA_Client_WriteImage_cb refConfig idealHw 56 [1, 2, 3, 4, 5, 6, 7, 8]
            (APP_ZIGBEE_OTA_Client_QueryNextImage_cb refConfig idealHw .ZCL_STATUS_SUCCESS
              offerApp3 4096 (APP_ZIGBEE_OTA_Client_Init refConfig idealHw
                (refWorldWithRecord 1024 2 3 3)))).2).2).2.trace.filter Event.isCycle
        = [.magicRead (134479872 + 1016), .enterWriteFirmwareData 1016 8, .enterCtxSave 1024,
           .magicRead (134479872 + 1016)] := by
  decide

/-- C3, evaluated at a failing input.  The record `[1024, application, 2,
DOWNLOADING_IMAGE]` is loaded at start and version 3 is offered: the
context-found flag is cleared, the resume flag is not set and the download
area is erased, but the cursor keeps the stale offset 1024, and the first
flush of the new download is entered with the cursor at 1024 and programs
flash from offset 1024. -/
theorem C3_stale_record_keeps_cursor :
    (APP_ZIGBEE_OTA_Client_Init refConfig idealHw
        (refWorldWithRecord 1024 2 2 2)).OTA_client_info.flags.OTA_CLIENT_CTX_FOUND_FLAG = true
    ∧ (APP_ZIGBEE_OTA_Client_QueryNextImage_cb refConfig idealHw .ZCL_STATUS_SUCCESS offerApp3 4096
        (APP_ZIGBEE_OTA_Client_Init refConfig idealHw
          (refWorldWithRecord 1024 2 2 2))).OTA_client_info.flags.OTA_CLIENT_CTX_FOUND_FLAG = false
    ∧ (APP_ZIGBEE_OTA_Client_QueryNextImage_cb refConfig idealHw .ZCL_STATUS_SUCCESS offerApp3 4096
        (APP_ZIGBEE_OTA_Client_Init refConfig idealHw
          (refWorldWithRecord 1024 2 2 2))).OTA_client_info.flags.OTA_CLIENT_RESUME_DOWNLOAD_FLAG
        = false
    ∧ (APP_ZIGBEE_OTA_Client_QueryNextImage_cb refConfig idealHw .ZCL_STATUS_SUCCESS offerApp3 4096
        (APP_ZIGBEE_OTA_Client_Init refConfig idealHw (refWorldWithRecord 1024 2 2 2))).trace
        = [.flashUnlock, .flashLock, .flashUnlock, .flashErase 64 16, .flashLock,
           .setTask .CFG_TASK_ZIGBEE_OTA_START_DOWNLOAD]
    ∧ (APP_ZIGBEE_OTA_Client_QueryNextImage_cb refConfig idealHw .ZCL_STATUS_SUCCESS offerApp3 4096
        (APP_ZIGBEE_OTA_Client_Init refConfig idealHw
          (refWorldWithRecord 1024 2 2 2))).OTA_client_info.write_info.flash_current_offset = 1024
    ∧ Event.flashProgram (134479872 + 1024) 578437695752307201 true
        ∈ (APP_ZIGBEE_OTA_Client_ImageValidate_cb refConfig idealHw
            (APP_ZIGBEE_OTA_Client_WriteImage_cb refConfig idealHw 56 [1, 2, 3, 4, 5, 6, 7, 8]
              (APP_ZIGBEE_OTA_Client_QueryNextImage_cb refConfig idealHw .ZCL_STATUS_SUCCESS
                offerApp3 4096 (APP_ZIGBEE_OTA_Client_Init refConfig idealHw
                  (refWorldWithRecord 1024 2 2 2)))).2).2.trace
    ∧ (APP_ZIGBEE_OTA_Client_ImageValidate_cb refConfig idealHw
        (APP_ZIGBEE_OTA_Client_WriteImage_cb refConfig idealHw 56 [1, 2, 3, 4, 5, 6, 7, 8]
          (APP_ZIGBEE_OTA_Client_QueryNextImage_cb refConfig idealHw .ZCL_STATUS_SUCCESS offerApp3
            4096 (APP_ZIGBEE_OTA_Client_Init refConfig idealHw
              (refWorldWithRecord 1024 2 2 2)))).2).2.trace.filter Event.isCycle
        = [.enterWriteFirmwareData 1024 8, .enterCtxSave 1032, .magicRead (134479872 + 1024)] := by
  decide

/-! ## C4, C7: capacity check and query step -/

/-- With the first free sector at or below the first secure sector, and sector
indices below `2 ^ 20`, the capacity check fails exactly when the requested
size exceeds the free sectors times 4096 bytes. -/
theorem CheckDeviceCapabilities_nominal (cfg : Config) (w : World)
    (hle : firstFreeSector cfg w ≤ GetFirstSecureSector w)
    (hfs : GetFirstSecureSector w < 1048576) :
    APP_ZIGBEE_CheckDeviceCapabilities cfg w = .APP_ZIGBEE_ERROR
      ↔ (GetFirstSecureSector w - firstFreeSector cfg w) * 4096
          < w.OTA_client_info.requested_image_size := by
  unfold firstFreeSector at hle ⊢
  unfold APP_ZIGBEE_CheckDeviceCapabilities
  dsimp only
  generalize GetFirstSecureSector w = fs at hle hfs ⊢
  generalize (if w.sram1 1 % 256 = 0 then cfg.CFG_APP_START_SECTOR_INDEX else w.sram1 1 % 256)
    = ff at hle ⊢
  have h1 : (fs + 4294967296 - ff) % 4294967296 = fs - ff := by omega
  have h2 : (fs - ff) * 4096 % 4294967296 = (fs - ff) * 4096 := by omega
  rw [h1, h2]
  split <;> simp_all

/-- The capacity check reads the requested size and the sector bytes only. -/
theorem CheckDeviceCapabilities_prepare (cfg : Config) (c : OtaContext)
    (d : ZbZclOtaImageDefinition) (image_size : Nat) (w : World) :
    APP_ZIGBEE_CheckDeviceCapabilities cfg (QueryNextImage_prepare c d image_size w)
      = APP_ZIGBEE_CheckDeviceCapabilities cfg (withRequestedSize w image_size) := rfl

/-- A query response that fails the capacity check changes only the selected
context: the state of the download, the flash and the trace stay as they
were. -/
theorem QueryNextImage_capacity_reject (cfg : Config) (hw : Hw) (d : ZbZclOtaImageDefinition)
    (image_size : Nat) (w : World)
    (h : APP_ZIGBEE_CheckDeviceCapabilities cfg (withRequestedSize w image_size)
      = .APP_ZIGBEE_ERROR) :
    (APP_ZIGBEE_OTA_Client_QueryNextImage_cb cfg hw .ZCL_STATUS_SUCCESS d image_size w).trace
        = w.trace
    ∧ (APP_ZIGBEE_OTA_Client_QueryNextImage_cb cfg hw .ZCL_STATUS_SUCCESS d image_size
        w).OTA_client_info.OTA_state = w.OTA_client_info.OTA_state
    ∧ (APP_ZIGBEE_OTA_Client_QueryNextImage_cb cfg hw .ZCL_STATUS_SUCCESS d image_size w).flash
        = w.flash := by
  unfold APP_ZIGBEE_OTA_Client_QueryNextImage_cb
  rw [if_neg (by simp)]
  cases QueryNextImage_select cfg w.OTA_client_info.ctx d.image_type with
  | none => exact ⟨rfl, rfl, rfl⟩
  | some c =>
    dsimp only
    rw [CheckDeviceCapabilities_prepare, h, if_pos (by simp)]
    exact ⟨rfl, rfl, rfl⟩

/-- C4, evaluated at a failing input.  The first secure sector is 100 and the
first free sector is 200: there is no free sector, yet the 32-bit difference
wraps, the capacity check returns `APP_ZIGBEE_OK` for an image of 4096 bytes
and the query callback starts the download. -/
theorem C4_capacity_wraps :
    GetFirstSecureSector refWorldNoSpace = 100
    ∧ firstFreeSector refConfig refWorldNoSpace = 200
    ∧ APP_ZIGBEE_CheckDeviceCapabilities refConfig (withRequestedSize refWorldNoSpace 4096)
        = APP_ZIGBEE_StatusTypeDef.APP_ZIGBEE_OK
    ∧ (APP_ZIGBEE_OTA_Client_QueryNextImage_cb refConfig idealHw .ZCL_STATUS_SUCCESS offerApp3 4096
        refWorldNoSpace).OTA_client_info.OTA_state = refConfig.DOWNLOADING_IMAGE
    ∧ (APP_ZIGBEE_OTA_Client_QueryNextImage_cb refConfig idealHw .ZCL_STATUS_SUCCESS offerApp3 4096
        refWorldNoSpace).trace = [.setTask .CFG_TASK_ZIGBEE_OTA_START_DOWNLOAD] := by
  decide

/-- Outcome of the programming loop on any flash controller: a number `k` of
units are programmed and verified in order; the loop then either ends because
the staged bytes are exhausted, or returns at once from the unit that fails,
which has been programmed exactly once. -/
theorem WriteFirmwareData_loop_outcome (hw : Hw) :
    ∀ (fuel idx : Nat) (w : World),
      w.OTA_client_info.write_info.firmware_buffer_current_offset ≤ idx + 8 * fuel →
      ∃ k, UnitsVerified hw w.OTA_client_info.write_info.firmware_buffer
            w.OTA_client_info.ctx.base_address w.flash
            w.OTA_client_info.write_info.flash_current_offset idx k
        ∧ ((WriteFirmwareData_loop hw fuel idx w).1 = true →
            w.OTA_client_info.write_info.firmware_buffer_current_offset ≤ idx + 8 * k
            ∧ (k = 0 ∨ idx + 8 * k
                < w.OTA_client_info.write_info.firmware_buffer_current_offset + 8)
            ∧ (WriteFirmwareData_loop hw fuel idx w).2
              = { w.setCursor (cursorAfter w.OTA_client_info.write_info.flash_current_offset k) with
                  flash := flashAfter hw w.OTA_client_info.write_info.firmware_buffer
                    w.OTA_client_info.ctx.base_address w.flash
                    w.OTA_client_info.write_info.flash_current_offset idx k
                  trace := w.trace ++ progEventsW w.OTA_client_info.write_info.firmware_buffer
                    w.OTA_client_info.ctx.base_address
                    w.OTA_client_info.write_info.flash_current_offset idx k })
        ∧ ((WriteFirmwareData_loop hw fuel idx w).1 = false →
            idx + 8 * k < w.OTA_client_info.write_info.firmware_buffer_current_offset
            ∧ UnitFails hw w.OTA_client_info.write_info.firmware_buffer
                w.OTA_client_info.ctx.base_address w.flash
                w.OTA_client_info.write_info.flash_current_offset idx k
            ∧ (WriteFirmwareData_loop hw fuel idx w).2
              = { w.setCursor (cursorAfter w.OTA_client_info.write_info.flash_current_offset k) with
                  flash := (hw.HAL_FLASH_Program
                    (flashAfter hw w.OTA_client_info.write_info.firmware_buffer
                      w.OTA_client_info.ctx.base_address w.flash
                      w.OTA_client_info.write_info.flash_current_offset idx k)
                    ((w.OTA_client_info.ctx.base_address
                      + cursorAfter w.OTA_client_info.write_info.flash_current_offset k)
                      % 4294967296)
                    (read64 w.OTA_client_info.write_info.firmware_buffer (idx + 8 * k))).2
                  trace := w.trace ++ progEventsW w.OTA_client_info.write_info.firmware_buffer
                    w.OTA_client_info.ctx.base_address
                    w.OTA_client_info.write_info.flash_current_offset idx k
                    ++ failEvents hw w.OTA_client_info.write_info.firmware_buffer
                      w.OTA_client_info.ctx.base_address w.flash
                      w.OTA_client_info.write_info.flash_current_offset idx k }) := by
  intro fuel
  induction fuel with
  | zero =>
    intro idx w h
    refine ⟨0, trivial, ?_, ?_⟩
    · intro _
      refine ⟨by omega, Or.inl rfl, ?_⟩
      simp [WriteFirmwareData_loop, World.setCursor, World.setWriteInfo, cursorAfter, flashAfter,
        progEventsW]
    · intro hf
      simp [WriteFirmwareData_loop] at hf
  | succ f ih =>
    intro idx w h
    by_cases hlt : idx < w.OTA_client_info.write_info.firmware_buffer_current_offset
    · by_cases hok : (hw.HAL_FLASH_Program w.flash
          ((w.OTA_client_info.ctx.base_address + w.OTA_client_info.write_info.flash_current_offset)
            % 4294967296) (read64 w.OTA_client_info.write_info.firmware_buffer idx)).1 = true
        ∧ read64 (hw.HAL_FLASH_Program w.flash
          ((w.OTA_client_info.ctx.base_address + w.OTA_client_info.write_info.flash_current_offset)
            % 4294967296) (read64 w.OTA_client_info.write_info.firmware_buffer idx)).2
          ((w.OTA_client_info.ctx.base_address + w.OTA_client_info.write_info.flash_current_offset)
            % 4294967296) = read64 w.OTA_client_info.write_info.firmware_buffer idx
      · obtain ⟨k, hv, hT, hF⟩ := ih (idx + 8)
          ((({ w with flash := (hw.HAL_FLASH_Program w.flash
              ((w.OTA_client_info.ctx.base_address
                + w.OTA_client_info.write_info.flash_current_offset) % 4294967296)
              (read64 w.OTA_client_info.write_info.firmware_buffer idx)).2 } : World).emit
            [.hsemLock, .flashUnlock, .flashProgram
              ((w.OTA_client_info.ctx.base_address
                + w.OTA_client_info.write_info.flash_current_offset) % 4294967296)
              (read64 w.OTA_client_info.write_info.firmware_buffer idx)
              (hw.HAL_FLASH_Program w.flash
                ((w.OTA_client_info.ctx.base_address
                  + w.OTA_client_info.write_info.flash_current_offset) % 4294967296)
                (read64 w.OTA_client_info.write_info.firmware_buffer idx)).1]).setWriteInfo
            { w.OTA_client_info.write_info with flash_current_offset :=
                (w.OTA_client_info.write_info.flash_current_offset + 8) % 4294967296 })
          (by simp only [World.setWriteInfo, World.emit]; omega)
        have hstep : WriteFirmwareData_loop hw (f + 1) idx w = WriteFirmwareData_loop hw f (idx + 8)
            ((({ w with flash := (hw.HAL_FLASH_Program w.flash
              ((w.OTA_client_info.ctx.base_address
                + w.OTA_client_info.write_info.flash_current_offset) % 4294967296)
              (read64 w.OTA_client_info.write_info.firmware_buffer idx)).2 } : World).emit
            [.hsemLock, .flashUnlock, .flashProgram
              ((w.OTA_client_info.ctx.base_address
                + w.OTA_client_info.write_info.flash_current_offset) % 4294967296)
              (read64 w.OTA_client_info.write_info.firmware_buffer idx)
              (hw.HAL_FLASH_Program w.flash
                ((w.OTA_client_info.ctx.base_address
                  + w.OTA_client_info.write_info.flash_current_offset) % 4294967296)
                (read64 w.OTA_client_info.write_info.firmware_buffer idx)).1]).setWriteInfo
            { w.OTA_client_info.write_info with flash_current_offset :=
                (w.OTA_client_info.write_info.flash_current_offset + 8) % 4294967296 }) := by
          rw [WriteFirmwareData_loop]
          simp only [hlt, if_true, hok.1, World.emit, hok.2, ne_eq, not_true_eq_false, if_false]
        rw [hstep]
        simp only [World.setWriteInfo, World.emit] at hv
        have e8 : ∀ k, idx + 8 + 8 * k = idx + 8 * (k + 1) := fun k => by omega
        refine ⟨k + 1, ⟨hok, hv⟩, ?_, ?_⟩
        · intro hb
          obtain ⟨a1, a2, a3⟩ := hT hb
          simp only [World.setWriteInfo, World.emit] at a1 a2
          refine ⟨by omega, Or.inr (by omega), ?_⟩
          rw [a3]
          simp [World.setCursor, World.setWriteInfo, World.emit, cursorAfter, flashAfter,
            progEventsW, hok.1]
        · intro hb
          obtain ⟨a1, a2, a3⟩ := hF hb
          simp only [World.setWriteInfo, World.emit] at a1 a2
          refine ⟨by omega, ?_, ?_⟩
          · simpa only [UnitFails, cursorAfter, flashAfter, e8] using a2
          · rw [a3]
            simp [World.setCursor, World.setWriteInfo, World.emit, cursorAfter, flashAfter,
              progEventsW, failEvents, hok.1, e8]
      · have hstep : WriteFirmwareData_loop hw (f + 1) idx w
            = (false, ({ w with flash := (hw.HAL_FLASH_Program w.flash
              ((w.OTA_client_info.ctx.base_address
                + w.OTA_client_info.write_info.flash_current_offset) % 4294967296)
              (read64 w.OTA_client_info.write_info.firmware_buffer idx)).2 } : World).emit
            [.hsemLock, .flashUnlock, .flashProgram
              ((w.OTA_client_info.ctx.base_address
                + w.OTA_client_info.write_info.flash_current_offset) % 4294967296)
              (read64 w.OTA_client_info.write_info.firmware_buffer idx)
              (hw.HAL_FLASH_Program w.flash
                ((w.OTA_client_info.ctx.base_address
                  + w.OTA_client_info.write_info.flash_current_offset) % 4294967296)
                (read64 w.OTA_client_info.write_info.firmware_buffer idx)).1]) := by
          rw [WriteFirmwareData_loop]
          simp only [hlt, if_true, World.emit]
          by_cases h1 : (hw.HAL_FLASH_Program w.flash
              ((w.OTA_client_info.ctx.base_address
                + w.OTA_client_info.write_info.flash_current_offset) % 4294967296)
              (read64 w.OTA_client_info.write_info.firmware_buffer idx)).1 = true
          · simp only [h1, if_true]
            rw [if_pos (fun hh => hok ⟨h1, hh⟩)]
          · simp only [h1, Bool.false_eq_true, if_false]
        rw [hstep]
        refine ⟨0, trivial, ?_, ?_⟩
        · intro hb
          simp at hb
        · intro _
          refine ⟨by omega, ?_, ?_⟩
          · simp only [UnitFails, cursorAfter, flashAfter, Nat.mul_zero, Nat.add_zero]
            by_cases h1 : (hw.HAL_FLASH_Program w.flash
                ((w.OTA_client_info.ctx.base_address
                  + w.OTA_client_info.write_info.flash_current_offset) % 4294967296)
                (read64 w.OTA_client_info.write_info.firmware_buffer idx)).1 = true
            · exact Or.inr (fun hh => hok ⟨h1, hh⟩)
            · exact Or.inl (by simpa using h1)
          · simp [World.setCursor, World.setWriteInfo, World.emit, cursorAfter, flashAfter,
              progEventsW, failEvents]
    · refine ⟨0, trivial, ?_, ?_⟩
      · intro _
        refine ⟨by omega, Or.inl rfl, ?_⟩
        rw [WriteFirmwareData_loop]
        simp [hlt, World.setCursor, World.setWriteInfo, cursorAfter, flashAfter, progEventsW]
      · intro hf
        rw [WriteFirmwareData_loop] at hf
        simp [hlt] at hf

/-- Outcome of `APP_ZIGBEE_OTA_Client_WriteFirmwareData` on any flash controller
and any EEPROM library.  Either all `k = ceil (fill / 8)` units are programmed
and verified, the cursor has advanced over them, the record in RAM mirrors the
cursor and the checkpoint is written after the last unit; or the function
returns `APP_ZIGBEE_ERROR` from the first failing unit `k`, with no checkpoint,
the cursor left at that unit, and neither flash lock nor semaphore release. -/
theorem WriteFirmwareData_outcome (cfg : Config) (hw : Hw) (w : World) :
    ∃ k, UnitsVerified hw w.OTA_client_info.write_info.firmware_buffer
          w.OTA_client_info.ctx.base_address w.flash
          w.OTA_client_info.write_info.flash_current_offset 0 k
      ∧ ((APP_ZIGBEE_OTA_Client_WriteFirmwareData cfg hw w).1 = .APP_ZIGBEE_OK →
          w.OTA_client_info.write_info.firmware_buffer_current_offset ≤ 8 * k
          ∧ (k = 0 ∨ 8 * k < w.OTA_client_info.write_info.firmware_buffer_current_offset + 8)
          ∧ (APP_ZIGBEE_OTA_Client_WriteFirmwareData cfg hw w).2.flash
            = flashAfter hw w.OTA_client_info.write_info.firmware_buffer
                w.OTA_client_info.ctx.base_address w.flash
                w.OTA_client_info.write_info.flash_current_offset 0 k
          ∧ (APP_ZIGBEE_OTA_Client_WriteFirmwareData cfg hw w).2.OTA_client_info
            = { w.OTA_client_info with
                write_info := { w.OTA_client_info.write_info with
                  flash_current_offset :=
                    cursorAfter w.OTA_client_info.write_info.flash_current_offset k }
                zigbee_ota_ctx_nvm :=
                  { flash_offset := cursorAfter w.OTA_client_info.write_info.flash_current_offset k
                    previous_image_type := w.OTA_client_info.ctx.file_type
                    file_version := w.OTA_client_info.ctx.file_version
                    OtaCurrentState := w.OTA_client_info.OTA_state } }
          ∧ (APP_ZIGBEE_OTA_Client_WriteFirmwareData cfg hw w).2.current_offset = w.current_offset
          ∧ ∃ es, (∀ e ∈ es, e.isEE = true)
            ∧ (APP_ZIGBEE_OTA_Client_WriteFirmwareData cfg hw w).2.trace = w.trace
              ++ ([.enterWriteFirmwareData w.OTA_client_info.write_info.flash_current_offset
                    w.OTA_client_info.write_info.firmware_buffer_current_offset]
                ++ progEventsW w.OTA_client_info.write_info.firmware_buffer
                    w.OTA_client_info.ctx.base_address
                    w.OTA_client_info.write_info.flash_current_offset 0 k
                ++ [.enterCtxSave
                    (cursorAfter w.OTA_client_info.write_info.flash_current_offset k)]
                ++ es ++ [.flashLock, .hsemRelease]))
      ∧ ((APP_ZIGBEE_OTA_Client_WriteFirmwareData cfg hw w).1 = .APP_ZIGBEE_ERROR →
          8 * k < w.OTA_client_info.write_info.firmware_buffer_current_offset
          ∧ UnitFails hw w.OTA_client_info.write_info.firmware_buffer
              w.OTA_client_info.ctx.base_address w.flash
              w.OTA_client_info.write_info.flash_current_offset 0 k
          ∧ (APP_ZIGBEE_OTA_Client_WriteFirmwareData cfg hw w).2
            = { w.setCursor (cursorAfter w.OTA_client_info.write_info.flash_current_offset k) with
                flash := (hw.HAL_FLASH_Program
                  (flashAfter hw w.OTA_client_info.write_info.firmware_buffer
                    w.OTA_client_info.ctx.base_address w.flash
                    w.OTA_client_info.write_info.flash_current_offset 0 k)
                  ((w.OTA_client_info.ctx.base_address
                    + cursorAfter w.OTA_client_info.write_info.flash_current_offset k)
                    % 4294967296)
                  (read64 w.OTA_client_info.write_info.firmware_buffer (0 + 8 * k))).2
                trace := w.trace
                  ++ ([.enterWriteFirmwareData w.OTA_client_info.write_info.flash_current_offset
                        w.OTA_client_info.write_info.firmware_buffer_current_offset]
                    ++ progEventsW w.OTA_client_info.write_info.firmware_buffer
                        w.OTA_client_info.ctx.base_address
                        w.OTA_client_info.write_info.flash_current_offset 0 k
                    ++ failEvents hw w.OTA_client_info.write_info.firmware_buffer
                        w.OTA_client_info.ctx.base_address w.flash
                        w.OTA_client_info.write_info.flash_current_offset 0 k) }) := by
  obtain ⟨k, hv, hT, hF⟩ := WriteFirmwareData_loop_outcome hw
    w.OTA_client_info.write_info.firmware_buffer_current_offset 0
    (w.emit [.enterWriteFirmwareData w.OTA_client_info.write_info.flash_current_offset
      w.OTA_client_info.write_info.firmware_buffer_current_offset])
    (by simp only [World.emit]; omega)
  refine ⟨k, hv, ?_, ?_⟩
  · intro hok
    rcases hl : WriteFirmwareData_loop hw
        w.OTA_client_info.write_info.firmware_buffer_current_offset 0
        (w.emit [.enterWriteFirmwareData w.OTA_client_info.write_info.flash_current_offset
          w.OTA_client_info.write_info.firmware_buffer_current_offset]) with ⟨b, w1⟩
    cases b with
    | false =>
      simp only [APP_ZIGBEE_OTA_Client_WriteFirmwareData, hl] at hok
      exact absurd hok (by simp)
    | true =>
      rw [hl] at hT
      obtain ⟨a1, a2, a3⟩ := hT rfl
      simp only [World.emit, Nat.zero_add] at a1 a2 a3
      obtain ⟨f1, f2, f3, -, -, -, es, f7, f8⟩ := ctx_save_nvm_frame cfg hw w1
      simp only [APP_ZIGBEE_OTA_Client_WriteFirmwareData, hl]
      simp only [World.emit]
      refine ⟨a1, a2, ?_, ?_, ?_, es, f8, ?_⟩
      · rw [f3]; simp only [World.emit, a3]
      · rw [f1]; simp only [World.emit, a3, World.setCursor, World.setWriteInfo]
      · rw [f2]; simp only [World.emit, a3, World.setCursor, World.setWriteInfo]
      · rw [f7]
        simp only [World.emit, a3, World.setCursor, World.setWriteInfo, List.append_assoc]
  · intro herr
    rcases hl : WriteFirmwareData_loop hw
        w.OTA_client_info.write_info.firmware_buffer_current_offset 0
        (w.emit [.enterWriteFirmwareData w.OTA_client_info.write_info.flash_current_offset
          w.OTA_client_info.write_info.firmware_buffer_current_offset]) with ⟨b, w1⟩
    cases b with
    | true =>
      simp only [APP_ZIGBEE_OTA_Client_WriteFirmwareData, hl] at herr
      exact absurd herr (by simp)
    | false =>
      rw [hl] at hF
      obtain ⟨a1, a2, a3⟩ := hF rfl
      simp only [World.emit, Nat.zero_add] at a1 a2
      refine ⟨a1, a2, ?_⟩
      simp only [APP_ZIGBEE_OTA_Client_WriteFirmwareData, hl]
      refine a3.trans ?_
      simp only [World.emit, World.setCursor, World.setWriteInfo, List.append_assoc]

/-- The validation callback, after its residual flush: the cursor steps back by
eight, the marker is read there and decides the status. -/
theorem ImageValidate_cb_eq (cfg : Config) (hw : Hw) (w : World) :
    APP_ZIGBEE_OTA_Client_ImageValidate_cb cfg hw w
      = (if markerRead cfg hw w % 4294967296
              ≠ (ImageValidate_residual cfg hw w).OTA_client_info.ctx.magic_keyword
            ∧ markerRead cfg hw w / 4294967296 % 4294967296
              ≠ (ImageValidate_residual cfg hw w).OTA_client_info.ctx.magic_keyword
          then .ZCL_STATUS_INVALID_IMAGE else .ZCL_STATUS_SUCCESS,
        ((ImageValidate_residual cfg hw w).setCursor
          ((committedSize cfg hw w + 4294967296 - 8) % 4294967296)).emit
          [.magicRead (((ImageValidate_residual cfg hw w).OTA_client_info.ctx.base_address
            + (committedSize cfg hw w + 4294967296 - 8) % 4294967296) % 4294967296)]) := by
  unfold APP_ZIGBEE_OTA_Client_ImageValidate_cb markerRead committedSize ImageValidate_residual
  by_cases h0 : w.OTA_client_info.write_info.firmware_buffer_current_offset = 0
  · simp only [h0, ne_eq, not_true_eq_false, if_false, World.emit, World.setWriteInfo,
      World.setCursor]
    split <;> rfl
  · simp only [h0, ne_eq, not_false_eq_true, if_true, World.emit, World.setWriteInfo,
      World.setCursor]
    split <;> rfl

/-! ## Projections of the state updates -/

theorem emit_info (w : World) (es : List Event) :
    (w.emit es).OTA_client_info = w.OTA_client_info := rfl

theorem emit_flash (w : World) (es : List Event) : (w.emit es).flash = w.flash := rfl

theorem emit_ee (w : World) (es : List Event) : (w.emit es).ee = w.ee := rfl

theorem emit_trace (w : World) (es : List Event) : (w.emit es).trace = w.trace ++ es := rfl

theorem emit_current_offset (w : World) (es : List Event) :
    (w.emit es).current_offset = w.current_offset := rfl

theorem setCursor_flash (w : World) (c : Nat) : (w.setCursor c).flash = w.flash := rfl

theorem setCursor_ee (w : World) (c : Nat) : (w.setCursor c).ee = w.ee := rfl

theorem setCursor_trace (w : World) (c : Nat) : (w.setCursor c).trace = w.trace := rfl

theorem setCursor_ctx (w : World) (c : Nat) :
    (w.setCursor c).OTA_client_info.ctx = w.OTA_client_info.ctx := rfl

theorem setCursor_nvm (w : World) (c : Nat) :
    (w.setCursor c).OTA_client_info.zigbee_ota_ctx_nvm = w.OTA_client_info.zigbee_ota_ctx_nvm :=
  rfl

theorem setCursor_cursor (w : World) (c : Nat) :
    (w.setCursor c).OTA_client_info.write_info.flash_current_offset = c := rfl

theorem setCursor_fill (w : World) (c : Nat) :
    (w.setCursor c).OTA_client_info.write_info.firmware_buffer_current_offset
      = w.OTA_client_info.write_info.firmware_buffer_current_offset := rfl

theorem setCursor_buffer (w : World) (c : Nat) :
    (w.setCursor c).OTA_client_info.write_info.firmware_buffer
      = w.OTA_client_info.write_info.firmware_buffer := rfl

/-- C14, as stated, fails: the last eight committed bytes hold the magic keyword
of the application image with its bytes in the opposite order in both words,
and the validation callback returns `ZCL_STATUS_INVALID_IMAGE`: the keyword is
compared as a little-endian word only. -/
theorem C14_counterexample :
    bswap32 refConfig.FUOTA_MAGIC_KEYWORD_APP = 696927380
    ∧ (refCommitted (696927380 + 4294967296 * 696927380)).OTA_client_info.ctx.magic_keyword
        = refConfig.FUOTA_MAGIC_KEYWORD_APP
    ∧ read32 (refCommitted (696927380 + 4294967296 * 696927380)).flash (134479872 + 1016)
        = bswap32 refConfig.FUOTA_MAGIC_KEYWORD_APP
    ∧ read32 (refCommitted (696927380 + 4294967296 * 696927380)).flash (134479872 + 1020)
        = bswap32 refConfig.FUOTA_MAGIC_KEYWORD_APP
    ∧ (APP_ZIGBEE_OTA_Client_ImageValidate_cb refConfig idealHw
        (refCommitted (696927380 + 4294967296 * 696927380))).1
        = ZclStatusCodeT.ZCL_STATUS_INVALID_IMAGE := by
  decide

/-- C14, amended: with `W` the committed size (the cursor after the residual
flush), the validation callback steps the cursor back by eight (to `W - 8` when
`8 ≤ W < 2 ^ 32`), reads the double word at `base_address` plus that offset, and
returns `ZCL_STATUS_INVALID_IMAGE` exactly when neither the low nor the high
32-bit word of that little-endian double word equals `ctx.magic_keyword`;
otherwise it returns `ZCL_STATUS_SUCCESS`. -/
theorem C14_validation_protocol (cfg : Config) (hw : Hw) (w : World) :
    (APP_ZIGBEE_OTA_Client_ImageValidate_cb cfg hw w).2.OTA_client_info.write_info.flash_current_offset
        = (committedSize cfg hw w + 4294967296 - 8) % 4294967296
    ∧ (8 ≤ committedSize cfg hw w → committedSize cfg hw w < 4294967296 →
        (APP_ZIGBEE_OTA_Client_ImageValidate_cb cfg hw
          w).2.OTA_client_info.write_info.flash_current_offset = committedSize cfg hw w - 8)
    ∧ (APP_ZIGBEE_OTA_Client_ImageValidate_cb cfg hw w).2.flash
        = (ImageValidate_residual cfg hw w).flash
    ∧ markerRead cfg hw w
        = read64 (APP_ZIGBEE_OTA_Client_ImageValidate_cb cfg hw w).2.flash
            (((APP_ZIGBEE_OTA_Client_ImageValidate_cb cfg hw w).2.OTA_client_info.ctx.base_address
              + (APP_ZIGBEE_OTA_Client_ImageValidate_cb cfg hw
                  w).2.OTA_client_info.write_info.flash_current_offset) % 4294967296)
    ∧ ((APP_ZIGBEE_OTA_Client_ImageValidate_cb cfg hw w).1 = .ZCL_STATUS_INVALID_IMAGE ↔
        (markerRead cfg hw w % 4294967296
          ≠ (APP_ZIGBEE_OTA_Client_ImageValidate_cb cfg hw w).2.OTA_client_info.ctx.magic_keyword
        ∧ markerRead cfg hw w / 4294967296 % 4294967296
          ≠ (APP_ZIGBEE_OTA_Client_ImageValidate_cb cfg hw w).2.OTA_client_info.ctx.magic_keyword))
    ∧ ((APP_ZIGBEE_OTA_Client_ImageValidate_cb cfg hw w).1 ≠ .ZCL_STATUS_INVALID_IMAGE →
        (APP_ZIGBEE_OTA_Client_ImageValidate_cb cfg hw w).1 = .ZCL_STATUS_SUCCESS) := by
  have e1 := congrArg (fun r => r.1) (ImageValidate_cb_eq cfg hw w)
  have c1 := congrArg (fun r => r.2.OTA_client_info.write_info.flash_current_offset)
    (ImageValidate_cb_eq cfg hw w)
  have c2 := congrArg (fun r => r.2.flash) (ImageValidate_cb_eq cfg hw w)
  have c3 := congrArg (fun r => r.2.OTA_client_info.ctx) (ImageValidate_cb_eq cfg hw w)
  dsimp only at e1 c1 c2 c3
  rw [emit_info, setCursor_cursor] at c1
  rw [emit_flash, setCursor_flash] at c2
  rw [emit_info, setCursor_ctx] at c3
  refine ⟨c1, ?_, c2, ?_, ?_, ?_⟩
  · intro h1 h2
    rw [c1]
    omega
  · rw [c1, c2, c3]
    simp only [markerRead]
  · rw [e1, c3]
    by_cases hc : markerRead cfg hw w % 4294967296
          ≠ (ImageValidate_residual cfg hw w).OTA_client_info.ctx.magic_keyword
        ∧ markerRead cfg hw w / 4294967296 % 4294967296
          ≠ (ImageValidate_residual cfg hw w).OTA_client_info.ctx.magic_keyword
    · rw [if_pos hc]
      exact ⟨fun _ => hc, fun _ => rfl⟩
    · rw [if_neg hc]
      exact ⟨fun h => by simp at h, fun h => absurd h hc⟩
  · rw [e1]
    by_cases hc : markerRead cfg hw w % 4294967296
          ≠ (ImageValidate_residual cfg hw w).OTA_client_info.ctx.magic_keyword
        ∧ markerRead cfg hw w / 4294967296 % 4294967296
          ≠ (ImageValidate_residual cfg hw w).OTA_client_info.ctx.magic_keyword
    · rw [if_pos hc]
      intro h; exact absurd rfl h
    · rw [if_neg hc]
      intro _; rfl

/-! ## Fields that the flash writer does not read -/

theorem loop_withFlagsCrc (hw : Hw) (f : Flags) (s c : Nat) :
    ∀ (fuel idx : Nat) (w : World),
      WriteFirmwareData_loop hw fuel idx (w.withFlagsCrc f s c)
        = ((WriteFirmwareData_loop hw fuel idx w).1,
            (WriteFirmwareData_loop hw fuel idx w).2.withFlagsCrc f s c) := by
  intro fuel
  induction fuel with
  | zero => intro idx w; rfl
  | succ n ih =>
    intro idx w
    rw [WriteFirmwareData_loop, WriteFirmwareData_loop]
    by_cases hlt : idx < w.OTA_client_info.write_info.firmware_buffer_current_offset
    · have hlt' : idx < (w.withFlagsCrc f s c).OTA_client_info.write_info.firmware_buffer_current_offset :=
        hlt
      simp only [hlt, hlt', if_true]
      by_cases h1 : (hw.HAL_FLASH_Program w.flash
          ((w.OTA_client_info.ctx.base_address
            + w.OTA_client_info.write_info.flash_current_offset) % 4294967296)
          (read64 w.OTA_client_info.write_info.firmware_buffer idx)).1 = true
      · by_cases h2 : read64 (hw.HAL_FLASH_Program w.flash
            ((w.OTA_client_info.ctx.base_address
              + w.OTA_client_info.write_info.flash_current_offset) % 4294967296)
            (read64 w.OTA_client_info.write_info.firmware_buffer idx)).2
            ((w.OTA_client_info.ctx.base_address
              + w.OTA_client_info.write_info.flash_current_offset) % 4294967296)
            = read64 w.OTA_client_info.write_info.firmware_buffer idx
        · simp only [World.withFlagsCrc, World.emit, World.setWriteInfo, h1, h2, if_true, ne_eq,
            not_true_eq_false, if_false]
          have key := ih (idx + 8)
            ((({ w with flash := (hw.HAL_FLASH_Program w.flash
                ((w.OTA_client_info.ctx.base_address
                  + w.OTA_client_info.write_info.flash_current_offset) % 4294967296)
                (read64 w.OTA_client_info.write_info.firmware_buffer idx)).2 } : World).emit
              [.hsemLock, .flashUnlock, .flashProgram
                ((w.OTA_client_info.ctx.base_address
                  + w.OTA_client_info.write_info.flash_current_offset) % 4294967296)
                (read64 w.OTA_client_info.write_info.firmware_buffer idx)
                (hw.HAL_FLASH_Program w.flash
                  ((w.OTA_client_info.ctx.base_address
                    + w.OTA_client_info.write_info.flash_current_offset) % 4294967296)
                  (read64 w.OTA_client_info.write_info.firmware_buffer idx)).1]).setWriteInfo
              { w.OTA_client_info.write_info with
                flash_current_offset :=
                  (w.OTA_client_info.write_info.flash_current_offset + 8) % 4294967296 })
          simp only [World.withFlagsCrc, World.emit, World.setWriteInfo, h1] at key
          exact key
        · simp only [World.withFlagsCrc, World.emit, World.setWriteInfo, h1, h2, if_true, ne_eq,
            not_false_eq_true]
      · simp only [World.withFlagsCrc, World.emit, World.setWriteInfo, h1, Bool.false_eq_true,
          if_false]
    · have hlt' : ¬ idx < (w.withFlagsCrc f s c).OTA_client_info.write_info.firmware_buffer_current_offset :=
        hlt
      simp only [hlt, hlt', if_false]

theorem ctx_save_loop_withFlagsCrc (cfg : Config) (hw : Hw) (f : Flags) (s c : Nat)
    (ds : List Nat) :
    ∀ (i : Nat) (w : World),
      ctx_save_loop cfg hw ds i (w.withFlagsCrc f s c)
        = ((ctx_save_loop cfg hw ds i w).1, (ctx_save_loop cfg hw ds i w).2.withFlagsCrc f s c) := by
  induction ds with
  | nil => intro i w; rfl
  | cons d ds ih =>
    intro i w
    rw [ctx_save_loop, ctx_save_loop]
    have he : (w.withFlagsCrc f s c).ee = w.ee := rfl
    rw [he]
    rcases hh : hw.EE_Write w.ee (cfg.USER_DB_START_ADDR + i) d with ⟨st, e⟩
    cases st
    · exact ih (i + 1)
        (({ w with ee := e } : World).emit [.eeWrite (cfg.USER_DB_START_ADDR + i) d .EE_OK])
    · exact ih (i + 1)
        (({ w with ee := hw.EE_Clean e } : World).emit
          [.eeWrite (cfg.USER_DB_START_ADDR + i) d .EE_CLEAN_NEEDED, .eeClean])
    · rfl

theorem WriteFirmwareData_withFlagsCrc (cfg : Config) (hw : Hw) (f : Flags) (s c : Nat)
    (w : World) :
    APP_ZIGBEE_OTA_Client_WriteFirmwareData cfg hw (w.withFlagsCrc f s c)
      = ((APP_ZIGBEE_OTA_Client_WriteFirmwareData cfg hw w).1,
          (APP_ZIGBEE_OTA_Client_WriteFirmwareData cfg hw w).2.withFlagsCrc f s c) := by
  unfold APP_ZIGBEE_OTA_Client_WriteFirmwareData
  have h1 : (w.withFlagsCrc f s c).emit
      [.enterWriteFirmwareData (w.withFlagsCrc f s c).OTA_client_info.write_info.flash_current_offset
        (w.withFlagsCrc f s c).OTA_client_info.write_info.firmware_buffer_current_offset]
      = (w.emit [.enterWriteFirmwareData w.OTA_client_info.write_info.flash_current_offset
        w.OTA_client_info.write_info.firmware_buffer_current_offset]).withFlagsCrc f s c := rfl
  have h2 : (w.withFlagsCrc f s c).OTA_client_info.write_info.firmware_buffer_current_offset
      = w.OTA_client_info.write_info.firmware_buffer_current_offset := rfl
  dsimp only
  rw [h1, h2, loop_withFlagsCrc]
  rcases hl : WriteFirmwareData_loop hw
      w.OTA_client_info.write_info.firmware_buffer_current_offset 0
      (w.emit [.enterWriteFirmwareData w.OTA_client_info.write_info.flash_current_offset
        w.OTA_client_info.write_info.firmware_buffer_current_offset]) with ⟨b, w1⟩
  cases b with
  | false => rfl
  | true =>
    dsimp only
    have h3 : APP_ZIGBEE_OTA_ctx_save_nvm cfg hw (w1.withFlagsCrc f s c)
        = ((APP_ZIGBEE_OTA_ctx_save_nvm cfg hw w1).1,
            (APP_ZIGBEE_OTA_ctx_save_nvm cfg hw w1).2.withFlagsCrc f s c) := by
      unfold APP_ZIGBEE_OTA_ctx_save_nvm
      exact ctx_save_loop_withFlagsCrc cfg hw f s c
        [w1.OTA_client_info.write_info.flash_current_offset, w1.OTA_client_info.ctx.file_type,
          w1.OTA_client_info.ctx.file_version, w1.OTA_client_info.OTA_state] 0
        (({ w1 with OTA_client_info := { w1.OTA_client_info with
            zigbee_ota_ctx_nvm :=
              { flash_offset := w1.OTA_client_info.write_info.flash_current_offset
                previous_image_type := w1.OTA_client_info.ctx.file_type
                file_version := w1.OTA_client_info.ctx.file_version
                OtaCurrentState := w1.OTA_client_info.OTA_state } } } : World).emit
          [.enterCtxSave w1.OTA_client_info.write_info.flash_current_offset])
    rw [h3]
    rfl

theorem ImageValidate_residual_withFlagsCrc (cfg : Config) (hw : Hw) (f : Flags) (s c : Nat)
    (w : World) :
    ImageValidate_residual cfg hw (w.withFlagsCrc f s c)
      = (ImageValidate_residual cfg hw w).withFlagsCrc f s c := by
  unfold ImageValidate_residual
  have hfb : (w.withFlagsCrc f s c).OTA_client_info.write_info.firmware_buffer_current_offset
      = w.OTA_client_info.write_info.firmware_buffer_current_offset := rfl
  have hpre : ({ (w.withFlagsCrc f s c).emit [.tsStop .TS_ID_LED] with
      OTA_client_info := { (w.withFlagsCrc f s c).OTA_client_info with
        OTA_state := cfg.VERIFYING_IMAGE } } : World)
      = ({ w.emit [.tsStop .TS_ID_LED] with OTA_client_info := { w.OTA_client_info with
        OTA_state := cfg.VERIFYING_IMAGE } } : World).withFlagsCrc f s c := rfl
  rw [hfb, hpre, WriteFirmwareData_withFlagsCrc]
  by_cases h0 : w.OTA_client_info.write_info.firmware_buffer_current_offset = 0
  · rw [if_neg (by simpa using h0), if_neg (by simpa using h0)]
  · rw [if_pos (by simpa using h0), if_pos (by simpa using h0)]
    rfl

theorem markerRead_withFlagsCrc (cfg : Config) (hw : Hw) (f : Flags) (s c : Nat) (w : World) :
    markerRead cfg hw (w.withFlagsCrc f s c) = markerRead cfg hw w := by
  unfold markerRead committedSize
  rw [ImageValidate_residual_withFlagsCrc]
  rfl

/-- C15, counterexample: the declared checksum 305419896 differs from the
accumulated checksum 0, and the validation callback returns
`ZCL_STATUS_SUCCESS`. -/
theorem C15_counterexample :
    refCrcMismatch.OTA_client_info.ctx.binary_srv_crc
        ≠ refCrcMismatch.OTA_client_info.ctx.binary_calc_crc
      ∧ (APP_ZIGBEE_OTA_Client_ImageValidate_cb refConfig idealHw refCrcMismatch).1
        = .ZCL_STATUS_SUCCESS := by
  decide

/-- C15, amended: the status of `APP_ZIGBEE_OTA_Client_ImageValidate_cb` does
not depend on `ctx.binary_srv_crc` or `ctx.binary_calc_crc`: with any other
pair of checksums the callback returns the same status, and neither checksum is
changed by the call. -/
theorem C15_status_ignores_checksums (cfg : Config) (hw : Hw) (w : World) (s c : Nat) :
    (APP_ZIGBEE_OTA_Client_ImageValidate_cb cfg hw
        (w.withFlagsCrc w.OTA_client_info.flags s c)).1
      = (APP_ZIGBEE_OTA_Client_ImageValidate_cb cfg hw w).1
    ∧ (APP_ZIGBEE_OTA_Client_ImageValidate_cb cfg hw
        (w.withFlagsCrc w.OTA_client_info.flags s c)).2.OTA_client_info.ctx.binary_srv_crc = s
    ∧ (APP_ZIGBEE_OTA_Client_ImageValidate_cb cfg hw
        (w.withFlagsCrc w.OTA_client_info.flags s c)).2.OTA_client_info.ctx.binary_calc_crc = c := by
  have e1 := ImageValidate_cb_eq cfg hw (w.withFlagsCrc w.OTA_client_info.flags s c)
  have e2 := ImageValidate_cb_eq cfg hw w
  have hr := ImageValidate_residual_withFlagsCrc cfg hw w.OTA_client_info.flags s c w
  have hm := markerRead_withFlagsCrc cfg hw w.OTA_client_info.flags s c w
  have s1 := congrArg (fun r => r.1) e1
  have s2 := congrArg (fun r => r.1) e2
  have c1 := congrArg (fun r => r.2.OTA_client_info.ctx.binary_srv_crc) e1
  have c2 := congrArg (fun r => r.2.OTA_client_info.ctx.binary_calc_crc) e1
  dsimp only at s1 s2 c1 c2
  rw [hm, hr] at s1
  have hk : ((ImageValidate_residual cfg hw w).withFlagsCrc w.OTA_client_info.flags s
      c).OTA_client_info.ctx.magic_keyword
      = (ImageValidate_residual cfg hw w).OTA_client_info.ctx.magic_keyword := rfl
  rw [hk] at s1
  rw [hr] at c1 c2
  refine ⟨s1.trans s2.symm, c1.trans ?_, c2.trans ?_⟩
  · rfl
  · rfl

theorem withFlagsCrc_self (w : World) :
    w.withFlagsCrc w.OTA_client_info.flags w.OTA_client_info.ctx.binary_srv_crc
      w.OTA_client_info.ctx.binary_calc_crc = w := rfl

theorem ImageValidate_cb_keeps_checksum (cfg : Config) (hw : Hw) (w : World) :
    (APP_ZIGBEE_OTA_Client_ImageValidate_cb cfg hw w).2.OTA_client_info.ctx.binary_calc_crc
      = w.OTA_client_info.ctx.binary_calc_crc := by
  have e1 := congrArg (fun r => r.2.OTA_client_info.ctx.binary_calc_crc)
    (ImageValidate_cb_eq cfg hw w)
  dsimp only at e1
  have hr := ImageValidate_residual_withFlagsCrc cfg hw w.OTA_client_info.flags
    w.OTA_client_info.ctx.binary_srv_crc w.OTA_client_info.ctx.binary_calc_crc w
  rw [withFlagsCrc_self] at hr
  rw [hr] at e1
  exact e1

/-- C16: the residual flush of `APP_ZIGBEE_OTA_Client_ImageValidate_cb` is not
accompanied by a checksum update.  For every state the callback leaves
`ctx.binary_calc_crc` as it was.  For the image `[1, .., 8]` staged in the
buffer of 1024 bytes, the callback flushes once and commits the eight bytes,
and the checksum is still 0; the same image delivered with a buffer of 8 bytes
is flushed by the write-image callback, which leaves the checksum 201589764. -/
theorem C16_residual_flush_skips_checksum :
    (∀ (cfg : Config) (hw : Hw) (w : World),
      (APP_ZIGBEE_OTA_Client_ImageValidate_cb cfg hw w).2.OTA_client_info.ctx.binary_calc_crc
        = w.OTA_client_info.ctx.binary_calc_crc)
    ∧ (APP_ZIGBEE_OTA_Client_ImageValidate_cb refConfig idealHw refShortImage).2.trace.filter
        Event.isCycle
      = [.enterWriteFirmwareData 0 8, .enterCtxSave 8, .magicRead 134479872]
    ∧ (List.range 8).map (fun i =>
        (APP_ZIGBEE_OTA_Client_ImageValidate_cb refConfig idealHw refShortImage).2.flash
          (134479872 + i))
      = [1, 2, 3, 4, 5, 6, 7, 8]
    ∧ (APP_ZIGBEE_OTA_Client_ImageValidate_cb refConfig idealHw
        refShortImage).2.OTA_client_info.ctx.binary_calc_crc = 0
    ∧ Crc_Calc_spec (fun i => [1, 2, 3, 4, 5, 6, 7, 8].getD i 0) 8 0 = 201589764
    ∧ (APP_ZIGBEE_OTA_Client_WriteImage_cb refConfig8 idealHw 0 [1, 2, 3, 4, 5, 6, 7, 8]
        refTransfer).2.OTA_client_info.ctx.binary_calc_crc = 201589764 := by
  refine ⟨ImageValidate_cb_keeps_checksum, ?_, ?_, ?_, ?_, ?_⟩
  · decide
  · decide
  · decide
  · decide
  · decide

/-- C17: with one staged byte `0xAA` followed in the buffer by the bytes
`0xBB 0xCC 0xDD`, `APP_ZIGBEE_OTA_Client_Crc_Calc` clears the bytes 4 to 6 of
the buffer instead of the bytes 1 to 3 and leaves the checksum `0xDDCCBBAA`,
where the zero-padded word of the one staged byte is `0xAA`. -/
theorem C17_padding_misplaced :
    (APP_ZIGBEE_OTA_Client_Crc_Calc refStaleBuffer).OTA_client_info.ctx.binary_calc_crc
      = 3721182122
    ∧ Crc_Calc_spec refStaleBuffer.OTA_client_info.write_info.firmware_buffer
        refStaleBuffer.OTA_client_info.write_info.firmware_buffer_current_offset
        refStaleBuffer.OTA_client_info.ctx.binary_calc_crc = 170
    ∧ (List.range 8).map
        (APP_ZIGBEE_OTA_Client_Crc_Calc refStaleBuffer).OTA_client_info.write_info.firmware_buffer
      = [170, 187, 204, 221, 0, 0, 0, 68] := by
  refine ⟨?_, ?_, ?_⟩
  · decide
  · decide
  · decide

/-! ## The write-image callback in stages -/

theorem WriteImage_cb_unfold (cfg : Config) (hw : Hw) (hl : Nat) (c : List Nat) (w : World)
    (hres : w.OTA_client_info.flags.OTA_CLIENT_RESUME_DOWNLOAD_FLAG = false) :
    APP_ZIGBEE_OTA_Client_WriteImage_cb cfg hw hl c w
      = if WriteImage_full cfg c w = true then
          match APP_ZIGBEE_OTA_Client_WriteFirmwareData cfg hw (WriteImage_staged cfg c w) with
          | (.APP_ZIGBEE_ERROR, w1) => (.ZCL_STATUS_FAILURE, w1)
          | (.APP_ZIGBEE_OK, w1) =>
            WriteImage_pause (WriteImage_refill cfg c w (APP_ZIGBEE_OTA_Client_Crc_Calc w1))
        else WriteImage_pause (WriteImage_staged cfg c w) := by
  unfold APP_ZIGBEE_OTA_Client_WriteImage_cb
  simp only [hres, Bool.false_eq_true, if_false]
  rfl

/-! ## The cursor -/

theorem cursorAfter_eq : ∀ (k cur : Nat), cur + 8 * k < 4294967296 →
    cursorAfter cur k = cur + 8 * k := by
  intro k
  induction k with
  | zero => intro cur _; rfl
  | succ n ih =>
    intro cur h
    have h1 : (cur + 8) % 4294967296 = cur + 8 := Nat.mod_eq_of_lt (by omega)
    rw [cursorAfter, h1, ih (cur + 8) (by omega)]
    omega

theorem WriteFirmwareData_cursor (cfg : Config) (hw : Hw) (w : World) :
    ∃ k, 8 * k < w.OTA_client_info.write_info.firmware_buffer_current_offset + 8
      ∧ (APP_ZIGBEE_OTA_Client_WriteFirmwareData cfg hw w).2.OTA_client_info.write_info.flash_current_offset
        = cursorAfter w.OTA_client_info.write_info.flash_current_offset k := by
  obtain ⟨k, _, hok, herr⟩ := WriteFirmwareData_outcome cfg hw w
  refine ⟨k, ?_⟩
  rcases hs : (APP_ZIGBEE_OTA_Client_WriteFirmwareData cfg hw w).1 with _ | _
  · obtain ⟨_, h2, _, h4, _⟩ := hok hs
    refine ⟨by omega, ?_⟩
    rw [h4]
  · obtain ⟨h1, _, h3⟩ := herr hs
    refine ⟨by omega, ?_⟩
    rw [h3]
    rfl

theorem WriteFirmwareData_cursor_le (cfg : Config) (hw : Hw) (w : World)
    (h32 : w.OTA_client_info.write_info.flash_current_offset
      + w.OTA_client_info.write_info.firmware_buffer_current_offset + 8 ≤ 4294967296) :
    w.OTA_client_info.write_info.flash_current_offset
      ≤ (APP_ZIGBEE_OTA_Client_WriteFirmwareData cfg hw w).2.OTA_client_info.write_info.flash_current_offset := by
  obtain ⟨k, hk, he⟩ := WriteFirmwareData_cursor cfg hw w
  rw [he, cursorAfter_eq k _ (by omega)]
  omega

theorem WriteImage_size_le (cfg : Config) (c : List Nat) (w : World) (hlen : c.length ≤ 255) :
    WriteImage_size cfg c w ≤ 255 := by
  unfold WriteImage_size
  by_cases h : (w.OTA_client_info.write_info.firmware_buffer_current_offset + c.length)
      % 4294967296 > cfg.RAM_FIRMWARE_BUFFER_SIZE
  · rw [if_pos h]; omega
  · rw [if_neg h]; exact hlen

theorem WriteImage_pause_write_info (w : World) :
    (WriteImage_pause w).2.OTA_client_info.write_info = w.OTA_client_info.write_info := by
  unfold WriteImage_pause
  by_cases h : w.OTA_client_info.flags.OTA_CLIENT_PAUSE_DOWNLOAD_FLAG = true
  · rw [if_pos h]; rfl
  · rw [if_neg h]

theorem WriteImage_cb_resume_write_info (cfg : Config) (hw : Hw) (hl : Nat) (c : List Nat)
    (w : World) (hres : w.OTA_client_info.flags.OTA_CLIENT_RESUME_DOWNLOAD_FLAG = true) :
    (APP_ZIGBEE_OTA_Client_WriteImage_cb cfg hw hl c w).2.OTA_client_info.write_info
      = w.OTA_client_info.write_info := by
  unfold APP_ZIGBEE_OTA_Client_WriteImage_cb
  simp only [hres, if_true]
  by_cases h : hw.ZbZclAttrIntegerWrite ((w.OTA_client_info.zigbee_ota_ctx_nvm.flash_offset + hl
      + cfg.OTA_HEADER_TAG_SIZE) % 4294967296) ≠ .ZCL_STATUS_SUCCESS
  · rw [if_pos h]; rfl
  · rw [if_neg h]; rfl

theorem WriteImage_cb_cursor_le (cfg : Config) (hw : Hw) (hl : Nat) (c : List Nat) (w : World)
    (hlen : c.length ≤ 255)
    (h32 : w.OTA_client_info.write_info.flash_current_offset
      + w.OTA_client_info.write_info.firmware_buffer_current_offset + 263 ≤ 4294967296) :
    w.OTA_client_info.write_info.flash_current_offset
      ≤ (APP_ZIGBEE_OTA_Client_WriteImage_cb cfg hw hl c w).2.OTA_client_info.write_info.flash_current_offset := by
  by_cases hres : w.OTA_client_info.flags.OTA_CLIENT_RESUME_DOWNLOAD_FLAG = true
  · rw [WriteImage_cb_resume_write_info cfg hw hl c w hres]
  · have hres' : w.OTA_client_info.flags.OTA_CLIENT_RESUME_DOWNLOAD_FLAG = false := by
      simpa using hres
    rw [WriteImage_cb_unfold cfg hw hl c w hres']
    have hsz := WriteImage_size_le cfg c w hlen
    have hcur : (WriteImage_staged cfg c w).OTA_client_info.write_info.flash_current_offset
        = w.OTA_client_info.write_info.flash_current_offset := rfl
    have hfill : (WriteImage_staged cfg c w).OTA_client_info.write_info.firmware_buffer_current_offset
        = (w.OTA_client_info.write_info.firmware_buffer_current_offset
          + WriteImage_size cfg c w) % 4294967296 := rfl
    have hle := WriteFirmwareData_cursor_le cfg hw (WriteImage_staged cfg c w)
      (by rw [hcur, hfill]; omega)
    rw [hcur] at hle
    by_cases hf : WriteImage_full cfg c w = true
    · rw [if_pos hf]
      rcases hW : APP_ZIGBEE_OTA_Client_WriteFirmwareData cfg hw (WriteImage_staged cfg c w)
        with ⟨st, w1⟩
      rw [hW] at hle
      cases st
      · dsimp only
        rw [WriteImage_pause_write_info]
        exact hle
      · exact hle
    · rw [if_neg hf, WriteImage_pause_write_info]
      exact Nat.le_of_eq hcur.symm

theorem committedSize_ge (cfg : Config) (hw : Hw) (w : World)
    (h32 : w.OTA_client_info.write_info.flash_current_offset
      + w.OTA_client_info.write_info.firmware_buffer_current_offset + 8 ≤ 4294967296) :
    w.OTA_client_info.write_info.flash_current_offset ≤ committedSize cfg hw w := by
  unfold committedSize ImageValidate_residual
  by_cases h0 : w.OTA_client_info.write_info.firmware_buffer_current_offset ≠ 0
  · rw [if_pos h0]
    exact WriteFirmwareData_cursor_le cfg hw
      ({ w.emit [.tsStop .TS_ID_LED] with OTA_client_info := { w.OTA_client_info with
        OTA_state := cfg.VERIFYING_IMAGE } } : World) h32
  · rw [if_neg h0]

theorem committedSize_empty (cfg : Config) (hw : Hw) (w : World)
    (h0 : w.OTA_client_info.write_info.firmware_buffer_current_offset = 0) :
    committedSize cfg hw w = w.OTA_client_info.write_info.flash_current_offset := by
  unfold committedSize ImageValidate_residual
  rw [if_neg (by simpa using h0)]

theorem ImageValidate_cb_cursor (cfg : Config) (hw : Hw) (w : World) :
    (APP_ZIGBEE_OTA_Client_ImageValidate_cb cfg hw w).2.OTA_client_info.write_info.flash_current_offset
      = (committedSize cfg hw w + 4294967296 - 8) % 4294967296 := by
  have e := congrArg (fun r => r.2.OTA_client_info.write_info.flash_current_offset)
    (ImageValidate_cb_eq cfg hw w)
  dsimp only at e
  rw [emit_info, setCursor_cursor] at e
  exact e

/-- C20, counterexample: with 1024 committed bytes and an empty staging buffer
the validation callback leaves the cursor at 1016. -/
theorem C20_counterexample :
    (refCommitted 2487519785).OTA_client_info.write_info.flash_current_offset = 1024
      ∧ (APP_ZIGBEE_OTA_Client_ImageValidate_cb refConfig idealHw
          (refCommitted 2487519785)).2.OTA_client_info.write_info.flash_current_offset
        = 1016 := by
  decide

/-- C20, amended: while the cursor stays below the 32-bit limit, the flash
writer and the write-image callback never leave the cursor smaller than it was,
and the residual flush of the validation callback does not either; the
validation callback then steps the cursor back by eight, so that it ends eight
below the cursor of the call when the staging buffer was empty. -/
theorem C20_cursor_monotone_until_validation (cfg : Config) (hw : Hw) (hl : Nat) (c : List Nat)
    (w : World) (hlen : c.length ≤ 255)
    (h32 : w.OTA_client_info.write_info.flash_current_offset
      + w.OTA_client_info.write_info.firmware_buffer_current_offset + 263 ≤ 4294967296) :
    w.OTA_client_info.write_info.flash_current_offset
        ≤ (APP_ZIGBEE_OTA_Client_WriteFirmwareData cfg hw
            w).2.OTA_client_info.write_info.flash_current_offset
      ∧ w.OTA_client_info.write_info.flash_current_offset
        ≤ (APP_ZIGBEE_OTA_Client_WriteImage_cb cfg hw hl c
            w).2.OTA_client_info.write_info.flash_current_offset
      ∧ w.OTA_client_info.write_info.flash_current_offset ≤ committedSize cfg hw w
      ∧ (APP_ZIGBEE_OTA_Client_ImageValidate_cb cfg hw
            w).2.OTA_client_info.write_info.flash_current_offset
          = (committedSize cfg hw w + 4294967296 - 8) % 4294967296
      ∧ (w.OTA_client_info.write_info.firmware_buffer_current_offset = 0 →
          8 ≤ w.OTA_client_info.write_info.flash_current_offset →
          (APP_ZIGBEE_OTA_Client_ImageValidate_cb cfg hw
              w).2.OTA_client_info.write_info.flash_current_offset + 8
            = w.OTA_client_info.write_info.flash_current_offset) := by
  refine ⟨WriteFirmwareData_cursor_le cfg hw w (by omega),
    WriteImage_cb_cursor_le cfg hw hl c w hlen h32,
    committedSize_ge cfg hw w (by omega), ImageValidate_cb_cursor cfg hw w, ?_⟩
  intro h0 h8
  rw [ImageValidate_cb_cursor, committedSize_empty cfg hw w h0]
  omega

theorem C20_cursor_monotone_until_validation_witness :
    [1, 2, 3].length ≤ 255
      ∧ refShortImage.OTA_client_info.write_info.flash_current_offset
        + refShortImage.OTA_client_info.write_info.firmware_buffer_current_offset + 263
          ≤ 4294967296
      ∧ refShortImage.OTA_client_info.write_info.flash_current_offset
        ≤ (APP_ZIGBEE_OTA_Client_WriteFirmwareData refConfig idealHw
            refShortImage).2.OTA_client_info.write_info.flash_current_offset :=
  ⟨by decide, by decide,
    (C20_cursor_monotone_until_validation refConfig idealHw 0 [1, 2, 3] refShortImage
      (by decide) (by decide)).1⟩

/-! ## The first failing unit -/

theorem UnitsVerified_snoc (hw : Hw) (buf : Nat → Nat) (base : Nat) :
    ∀ (k : Nat) (flash : Nat → Nat) (cur idx : Nat),
      UnitsVerified hw buf base flash cur idx (k + 1)
        ↔ UnitsVerified hw buf base flash cur idx k
          ∧ ((hw.HAL_FLASH_Program (flashAfter hw buf base flash cur idx k)
                ((base + cursorAfter cur k) % 4294967296) (read64 buf (idx + 8 * k))).1 = true
            ∧ read64 (hw.HAL_FLASH_Program (flashAfter hw buf base flash cur idx k)
                ((base + cursorAfter cur k) % 4294967296) (read64 buf (idx + 8 * k))).2
                ((base + cursorAfter cur k) % 4294967296) = read64 buf (idx + 8 * k)) := by
  intro k
  induction k with
  | zero =>
    intro flash cur idx
    simp only [UnitsVerified, flashAfter, cursorAfter, Nat.mul_zero, Nat.add_zero, and_true,
      true_and]
  | succ n ih =>
    intro flash cur idx
    have e : idx + 8 * (n + 1) = idx + 8 + 8 * n := by omega
    rw [UnitsVerified, ih, e]
    simp only [UnitsVerified, flashAfter, cursorAfter, and_assoc]

theorem UnitsVerified_mono (hw : Hw) (buf : Nat → Nat) (base : Nat) (flash : Nat → Nat)
    (cur idx : Nat) : ∀ (n k : Nat), k ≤ n → UnitsVerified hw buf base flash cur idx n →
      UnitsVerified hw buf base flash cur idx k := by
  intro n
  induction n with
  | zero =>
    intro k hk h
    have : k = 0 := by omega
    subst this
    exact h
  | succ m ih =>
    intro k hk h
    rcases Nat.lt_or_ge k (m + 1) with hlt | hge
    · exact ih k (by omega) ((UnitsVerified_snoc hw buf base m flash cur idx).1 h).1
    · have : k = m + 1 := by omega
      subst this
      exact h

theorem UnitsVerified_not_fails (hw : Hw) (buf : Nat → Nat) (base : Nat) (flash : Nat → Nat)
    (cur idx n k : Nat) (hv : UnitsVerified hw buf base flash cur idx n) (hk : k < n) :
    ¬ UnitFails hw buf base flash cur idx k := by
  have h1 := UnitsVerified_mono hw buf base flash cur idx n (k + 1) (by omega) hv
  have h2 := ((UnitsVerified_snoc hw buf base k flash cur idx).1 h1).2
  intro hf
  rcases hf with hf | hf
  · rw [h2.1] at hf
    exact Bool.noConfusion hf
  · exact hf h2.2

theorem WriteFirmwareData_error_at (cfg : Config) (hw : Hw) (w : World) (k : Nat)
    (hk : 8 * k < w.OTA_client_info.write_info.firmware_buffer_current_offset)
    (hv : UnitsVerified hw w.OTA_client_info.write_info.firmware_buffer
      w.OTA_client_info.ctx.base_address w.flash
      w.OTA_client_info.write_info.flash_current_offset 0 k)
    (hf : UnitFails hw w.OTA_client_info.write_info.firmware_buffer
      w.OTA_client_info.ctx.base_address w.flash
      w.OTA_client_info.write_info.flash_current_offset 0 k) :
    (APP_ZIGBEE_OTA_Client_WriteFirmwareData cfg hw w).1 = .APP_ZIGBEE_ERROR
      ∧ (APP_ZIGBEE_OTA_Client_WriteFirmwareData cfg hw w).2
        = { w.setCursor (cursorAfter w.OTA_client_info.write_info.flash_current_offset k) with
            flash := (hw.HAL_FLASH_Program
              (flashAfter hw w.OTA_client_info.write_info.firmware_buffer
                w.OTA_client_info.ctx.base_address w.flash
                w.OTA_client_info.write_info.flash_current_offset 0 k)
              ((w.OTA_client_info.ctx.base_address
                + cursorAfter w.OTA_client_info.write_info.flash_current_offset k)
                % 4294967296)
              (read64 w.OTA_client_info.write_info.firmware_buffer (0 + 8 * k))).2
            trace := w.trace
              ++ ([.enterWriteFirmwareData w.OTA_client_info.write_info.flash_current_offset
                    w.OTA_client_info.write_info.firmware_buffer_current_offset]
                ++ progEventsW w.OTA_client_info.write_info.firmware_buffer
                    w.OTA_client_info.ctx.base_address
                    w.OTA_client_info.write_info.flash_current_offset 0 k
                ++ failEvents hw w.OTA_client_info.write_info.firmware_buffer
                    w.OTA_client_info.ctx.base_address w.flash
                    w.OTA_client_info.write_info.flash_current_offset 0 k) } := by
  obtain ⟨n, hvn, hok, herr⟩ := WriteFirmwareData_outcome cfg hw w
  have hs : (APP_ZIGBEE_OTA_Client_WriteFirmwareData cfg hw w).1 = .APP_ZIGBEE_ERROR := by
    rcases hst : (APP_ZIGBEE_OTA_Client_WriteFirmwareData cfg hw w).1 with _ | _
    · obtain ⟨h1, _⟩ := hok hst
      exact absurd hf (UnitsVerified_not_fails hw _ _ _ _ _ n k hvn (by omega))
    · rfl
  obtain ⟨_, hfn, hwn⟩ := herr hs
  have hkk : n = k := by
    rcases Nat.lt_trichotomy n k with h | h | h
    · exact absurd hfn (UnitsVerified_not_fails hw _ _ _ _ _ k n hv h)
    · exact h
    · exact absurd hf (UnitsVerified_not_fails hw _ _ _ _ _ n k hvn h)
  subst hkk
  exact ⟨hs, hwn⟩

/-- C12: when the first `k` units of the staged bytes program and read back
equal and unit `k`, inside the staged length, does not program or does not read
back equal, `APP_ZIGBEE_OTA_Client_WriteFirmwareData` returns
`APP_ZIGBEE_ERROR`; it has programmed the units `0 .. k` once each, in order,
and nothing after the failing unit; the cursor stands at the failing unit; the
EEPROM and the persistent record are untouched (no checkpoint); and a
write-image callback whose flush this is returns `ZCL_STATUS_FAILURE` in the
state the flash writer left. -/
theorem C12_error_at_first_failing_unit (cfg : Config) (hw : Hw) (w : World) (k : Nat)
    (hk : 8 * k < w.OTA_client_info.write_info.firmware_buffer_current_offset)
    (hv : UnitsVerified hw w.OTA_client_info.write_info.firmware_buffer
      w.OTA_client_info.ctx.base_address w.flash
      w.OTA_client_info.write_info.flash_current_offset 0 k)
    (hf : UnitFails hw w.OTA_client_info.write_info.firmware_buffer
      w.OTA_client_info.ctx.base_address w.flash
      w.OTA_client_info.write_info.flash_current_offset 0 k) :
    (APP_ZIGBEE_OTA_Client_WriteFirmwareData cfg hw w).1 = .APP_ZIGBEE_ERROR
      ∧ (APP_ZIGBEE_OTA_Client_WriteFirmwareData cfg hw w).2.trace
        = w.trace
          ++ ([.enterWriteFirmwareData w.OTA_client_info.write_info.flash_current_offset
                w.OTA_client_info.write_info.firmware_buffer_current_offset]
            ++ progEventsW w.OTA_client_info.write_info.firmware_buffer
                w.OTA_client_info.ctx.base_address
                w.OTA_client_info.write_info.flash_current_offset 0 k
            ++ failEvents hw w.OTA_client_info.write_info.firmware_buffer
                w.OTA_client_info.ctx.base_address w.flash
                w.OTA_client_info.write_info.flash_current_offset 0 k)
      ∧ (APP_ZIGBEE_OTA_Client_WriteFirmwareData cfg hw
            w).2.OTA_client_info.write_info.flash_current_offset
          = cursorAfter w.OTA_client_info.write_info.flash_current_offset k
      ∧ (APP_ZIGBEE_OTA_Client_WriteFirmwareData cfg hw w).2.ee = w.ee
      ∧ (APP_ZIGBEE_OTA_Client_WriteFirmwareData cfg hw w).2.OTA_client_info.zigbee_ota_ctx_nvm
          = w.OTA_client_info.zigbee_ota_ctx_nvm
      ∧ (∀ (hl : Nat) (c : List Nat) (w0 : World),
          w0.OTA_client_info.flags.OTA_CLIENT_RESUME_DOWNLOAD_FLAG = false →
          WriteImage_full cfg c w0 = true →
          WriteImage_staged cfg c w0 = w →
          APP_ZIGBEE_OTA_Client_WriteImage_cb cfg hw hl c w0
            = (.ZCL_STATUS_FAILURE, (APP_ZIGBEE_OTA_Client_WriteFirmwareData cfg hw w).2)) := by
  obtain ⟨hs, hw1⟩ := WriteFirmwareData_error_at cfg hw w k hk hv hf
  have t1 := congrArg (fun x => x.trace) hw1
  have t2 := congrArg (fun x => x.OTA_client_info.write_info.flash_current_offset) hw1
  have t3 := congrArg (fun x => x.ee) hw1
  have t4 := congrArg (fun x => x.OTA_client_info.zigbee_ota_ctx_nvm) hw1
  dsimp only at t1 t2 t3 t4
  refine ⟨hs, t1, t2.trans (setCursor_cursor _ _), t3.trans (setCursor_ee _ _),
    t4.trans (setCursor_nvm _ _), ?_⟩
  intro hl c w0 hres hfull hst
  rw [WriteImage_cb_unfold cfg hw hl c w0 hres, if_pos hfull, hst]
  rcases hW : APP_ZIGBEE_OTA_Client_WriteFirmwareData cfg hw w with ⟨st, w1⟩
  rw [hW] at hs
  dsimp only at hs
  subst hs
  rfl

theorem C12_error_at_first_failing_unit_witness :
    8 * 1 < (WriteImage_staged refConfig16 chunk16
        refTransfer).OTA_client_info.write_info.firmware_buffer_current_offset
      ∧ (APP_ZIGBEE_OTA_Client_WriteFirmwareData refConfig16 (failAtHw 134479880)
          (WriteImage_staged refConfig16 chunk16 refTransfer)).1 = .APP_ZIGBEE_ERROR
      ∧ (APP_ZIGBEE_OTA_Client_WriteImage_cb refConfig16 (failAtHw 134479880) 0 chunk16
          refTransfer).1 = .ZCL_STATUS_FAILURE :=
  have h := C12_error_at_first_failing_unit refConfig16 (failAtHw 134479880)
    (WriteImage_staged refConfig16 chunk16 refTransfer) 1 (by decide)
    ⟨⟨by decide, by decide⟩, trivial⟩ (Or.inl (by decide))
  ⟨by decide, h.1, congrArg Prod.fst (h.2.2.2.2.2 0 chunk16 refTransfer rfl (by decide) rfl)⟩

/-! ## The checkpoint -/

theorem ctx_save_nvm_persists (cfg : Config) (hw : Hw) (w : World)
    (hee : hw.EE_Write = idealHw.EE_Write) :
    (APP_ZIGBEE_OTA_ctx_save_nvm cfg hw w).2.ee (cfg.USER_DB_START_ADDR + 0)
        = some w.OTA_client_info.write_info.flash_current_offset
      ∧ (APP_ZIGBEE_OTA_ctx_save_nvm cfg hw w).2.OTA_client_info.write_info
        = w.OTA_client_info.write_info := by
  simp [APP_ZIGBEE_OTA_ctx_save_nvm, ctx_save_loop, hee, idealHw, World.emit]

theorem WriteFirmwareData_ok_ee (cfg : Config) (hw : Hw) (w : World)
    (hee : hw.EE_Write = idealHw.EE_Write)
    (hs : (APP_ZIGBEE_OTA_Client_WriteFirmwareData cfg hw w).1 = .APP_ZIGBEE_OK) :
    (APP_ZIGBEE_OTA_Client_WriteFirmwareData cfg hw w).2.ee (cfg.USER_DB_START_ADDR + 0)
      = some (APP_ZIGBEE_OTA_Client_WriteFirmwareData cfg hw
          w).2.OTA_client_info.write_info.flash_current_offset := by
  unfold APP_ZIGBEE_OTA_Client_WriteFirmwareData at hs ⊢
  dsimp only at hs ⊢
  rcases hl : WriteFirmwareData_loop hw
      w.OTA_client_info.write_info.firmware_buffer_current_offset 0
      (w.emit [.enterWriteFirmwareData w.OTA_client_info.write_info.flash_current_offset
        w.OTA_client_info.write_info.firmware_buffer_current_offset]) with ⟨b, w1⟩
  rw [hl] at hs
  cases b with
  | false => exact absurd hs (by simp)
  | true =>
    dsimp only
    rw [emit_ee, emit_info]
    obtain ⟨p1, p2⟩ := ctx_save_nvm_persists cfg hw w1 hee
    rw [p1, p2]

/-! ## Staging of a chunk -/

theorem WriteImage_full_iff (cfg : Config) (c : List Nat) (w : World)
    (hfull : w.OTA_client_info.write_info.buffer_full = false)
    (h32 : w.OTA_client_info.write_info.firmware_buffer_current_offset + c.length < 4294967296) :
    WriteImage_full cfg c w = true
      ↔ cfg.RAM_FIRMWARE_BUFFER_SIZE
        ≤ w.OTA_client_info.write_info.firmware_buffer_current_offset + c.length := by
  have hm := Nat.mod_eq_of_lt h32
  unfold WriteImage_full
  rw [hm, hfull]
  by_cases h1 : w.OTA_client_info.write_info.firmware_buffer_current_offset + c.length
      > cfg.RAM_FIRMWARE_BUFFER_SIZE
  · rw [if_pos h1]
    exact ⟨fun _ => by omega, fun _ => rfl⟩
  · rw [if_neg h1]
    by_cases h2 : w.OTA_client_info.write_info.firmware_buffer_current_offset + c.length
        = cfg.RAM_FIRMWARE_BUFFER_SIZE
    · rw [if_pos h2]
      exact ⟨fun _ => by omega, fun _ => rfl⟩
    · rw [if_neg h2]
      exact ⟨fun h => absurd h (by simp), fun h => by omega⟩

theorem WriteImage_size_flush (cfg : Config) (c : List Nat) (w : World)
    (hge : cfg.RAM_FIRMWARE_BUFFER_SIZE
      ≤ w.OTA_client_info.write_info.firmware_buffer_current_offset + c.length)
    (hfb : w.OTA_client_info.write_info.firmware_buffer_current_offset
      ≤ cfg.RAM_FIRMWARE_BUFFER_SIZE)
    (hlen : c.length ≤ 255)
    (h32 : w.OTA_client_info.write_info.firmware_buffer_current_offset + c.length < 4294967296) :
    WriteImage_size cfg c w
        = cfg.RAM_FIRMWARE_BUFFER_SIZE
          - w.OTA_client_info.write_info.firmware_buffer_current_offset
      ∧ WriteImage_remaining cfg c w
        = w.OTA_client_info.write_info.firmware_buffer_current_offset + c.length
          - cfg.RAM_FIRMWARE_BUFFER_SIZE := by
  have hm := Nat.mod_eq_of_lt h32
  unfold WriteImage_remaining WriteImage_size
  rw [hm]
  by_cases h1 : w.OTA_client_info.write_info.firmware_buffer_current_offset + c.length
      > cfg.RAM_FIRMWARE_BUFFER_SIZE
  · rw [if_pos h1, if_pos h1]
    omega
  · rw [if_neg h1, if_neg h1]
    omega

theorem WriteImage_size_stage (cfg : Config) (c : List Nat) (w : World)
    (hlt : w.OTA_client_info.write_info.firmware_buffer_current_offset + c.length
      < cfg.RAM_FIRMWARE_BUFFER_SIZE)
    (h32 : w.OTA_client_info.write_info.firmware_buffer_current_offset + c.length < 4294967296) :
    WriteImage_size cfg c w = c.length := by
  have hm := Nat.mod_eq_of_lt h32
  unfold WriteImage_size
  rw [hm, if_neg (by omega)]

theorem WriteImage_pause_frame (w : World) :
    (WriteImage_pause w).2.trace = w.trace ∧ (WriteImage_pause w).2.flash = w.flash
      ∧ (WriteImage_pause w).2.ee = w.ee
      ∧ (WriteImage_pause w).2.current_offset = w.current_offset
      ∧ (WriteImage_pause w).2.OTA_client_info.ctx = w.OTA_client_info.ctx
      ∧ (WriteImage_pause w).2.OTA_client_info.zigbee_ota_ctx_nvm
        = w.OTA_client_info.zigbee_ota_ctx_nvm
      ∧ (WriteImage_pause w).1 ≠ .ZCL_STATUS_FAILURE := by
  unfold WriteImage_pause
  by_cases h : w.OTA_client_info.flags.OTA_CLIENT_PAUSE_DOWNLOAD_FLAG = true
  · rw [if_pos h]
    exact ⟨rfl, rfl, rfl, rfl, rfl, rfl, by simp⟩
  · rw [if_neg h]
    exact ⟨rfl, rfl, rfl, rfl, rfl, rfl, by simp⟩

theorem WriteFirmwareData_ctx (cfg : Config) (hw : Hw) (w : World) :
    (APP_ZIGBEE_OTA_Client_WriteFirmwareData cfg hw w).2.OTA_client_info.ctx
      = w.OTA_client_info.ctx := by
  obtain ⟨k, _, hok, herr⟩ := WriteFirmwareData_outcome cfg hw w
  rcases hs : (APP_ZIGBEE_OTA_Client_WriteFirmwareData cfg hw w).1 with _ | _
  · obtain ⟨_, _, _, h4, _⟩ := hok hs
    rw [h4]
  · obtain ⟨_, _, h3⟩ := herr hs
    rw [h3]
    rfl

theorem WriteFirmwareData_setFlags (cfg : Config) (hw : Hw) (w : World) (f : Flags) :
    APP_ZIGBEE_OTA_Client_WriteFirmwareData cfg hw (w.setFlags f)
      = ((APP_ZIGBEE_OTA_Client_WriteFirmwareData cfg hw w).1,
          (APP_ZIGBEE_OTA_Client_WriteFirmwareData cfg hw w).2.setFlags f) := by
  have e1 : w.setFlags f = w.withFlagsCrc f w.OTA_client_info.ctx.binary_srv_crc
      w.OTA_client_info.ctx.binary_calc_crc := rfl
  have e2 : (APP_ZIGBEE_OTA_Client_WriteFirmwareData cfg hw w).2.setFlags f
      = (APP_ZIGBEE_OTA_Client_WriteFirmwareData cfg hw w).2.withFlagsCrc f
          (APP_ZIGBEE_OTA_Client_WriteFirmwareData cfg hw w).2.OTA_client_info.ctx.binary_srv_crc
          (APP_ZIGBEE_OTA_Client_WriteFirmwareData cfg hw w).2.OTA_client_info.ctx.binary_calc_crc :=
    rfl
  rw [e1, WriteFirmwareData_withFlagsCrc, e2, WriteFirmwareData_ctx]

theorem WriteImage_pause_requested (w : World)
    (h : w.OTA_client_info.flags.OTA_CLIENT_PAUSE_DOWNLOAD_FLAG = true) :
    WriteImage_pause w
      = (.ZCL_STATUS_WAIT_FOR_DATA,
          w.setFlags { w.OTA_client_info.flags with OTA_CLIENT_PAUSE_DOWNLOAD_FLAG := false }) := by
  unfold WriteImage_pause
  rw [if_pos h]

theorem WriteImage_cb_paused (cfg : Config) (hw : Hw) (hl : Nat) (c : List Nat) (w : World)
    (hres : w.OTA_client_info.flags.OTA_CLIENT_RESUME_DOWNLOAD_FLAG = false) :
    APP_ZIGBEE_OTA_Client_WriteImage_cb cfg hw hl c (APP_ZIGBEE_OTA_Client_PauseDownload w)
      = if WriteImage_full cfg c w = true then
          match APP_ZIGBEE_OTA_Client_WriteFirmwareData cfg hw (WriteImage_staged cfg c w) with
          | (.APP_ZIGBEE_ERROR, w1) =>
            (.ZCL_STATUS_FAILURE,
              w1.setFlags { w.OTA_client_info.flags with OTA_CLIENT_PAUSE_DOWNLOAD_FLAG := true })
          | (.APP_ZIGBEE_OK, w1) =>
            (.ZCL_STATUS_WAIT_FOR_DATA,
              (WriteImage_refill cfg c w (APP_ZIGBEE_OTA_Client_Crc_Calc w1)).setFlags
                { w.OTA_client_info.flags with OTA_CLIENT_PAUSE_DOWNLOAD_FLAG := false })
        else
          (.ZCL_STATUS_WAIT_FOR_DATA,
            (WriteImage_staged cfg c w).setFlags
              { w.OTA_client_info.flags with OTA_CLIENT_PAUSE_DOWNLOAD_FLAG := false }) := by
  have hres' : (APP_ZIGBEE_OTA_Client_PauseDownload w).OTA_client_info.flags.OTA_CLIENT_RESUME_DOWNLOAD_FLAG
      = false := hres
  rw [WriteImage_cb_unfold cfg hw hl c _ hres']
  have hf : WriteImage_full cfg c (APP_ZIGBEE_OTA_Client_PauseDownload w)
      = WriteImage_full cfg c w := rfl
  have hst : WriteImage_staged cfg c (APP_ZIGBEE_OTA_Client_PauseDownload w)
      = (WriteImage_staged cfg c w).setFlags
          { w.OTA_client_info.flags with OTA_CLIENT_PAUSE_DOWNLOAD_FLAG := true } := rfl
  rw [hf, hst, WriteFirmwareData_setFlags]
  by_cases hfull : WriteImage_full cfg c w = true
  · rw [if_pos hfull, if_pos hfull]
    rcases hW : APP_ZIGBEE_OTA_Client_WriteFirmwareData cfg hw (WriteImage_staged cfg c w)
      with ⟨st, w1⟩
    cases st with
    | APP_ZIGBEE_ERROR => rfl
    | APP_ZIGBEE_OK =>
      dsimp only
      rw [WriteImage_pause_requested _ rfl]
      rfl
  · rw [if_neg hfull, if_neg hfull, WriteImage_pause_requested _ rfl]
    rfl

/-- C18, counterexample: after a pause request the callback returns
`ZCL_STATUS_WAIT_FOR_DATA` for the chunk `[1, 2, 3]` and has staged it (fill 0
before the call, 3 after it); with a staging buffer of 8 bytes it returns the
same status for the chunk `[1, .., 8]` and has flushed it (cursor 0 before the
call, 8 after it). -/
theorem C18_counterexample :
    (APP_ZIGBEE_OTA_Client_WriteImage_cb refConfig idealHw 0 [1, 2, 3]
        (APP_ZIGBEE_OTA_Client_PauseDownload refTransfer)).1 = .ZCL_STATUS_WAIT_FOR_DATA
      ∧ (APP_ZIGBEE_OTA_Client_PauseDownload
          refTransfer).OTA_client_info.write_info.firmware_buffer_current_offset = 0
      ∧ (APP_ZIGBEE_OTA_Client_WriteImage_cb refConfig idealHw 0 [1, 2, 3]
          (APP_ZIGBEE_OTA_Client_PauseDownload
            refTransfer)).2.OTA_client_info.write_info.firmware_buffer_current_offset = 3
      ∧ (List.range 3).map (APP_ZIGBEE_OTA_Client_WriteImage_cb refConfig idealHw 0 [1, 2, 3]
          (APP_ZIGBEE_OTA_Client_PauseDownload
            refTransfer)).2.OTA_client_info.write_info.firmware_buffer = [1, 2, 3]
      ∧ (APP_ZIGBEE_OTA_Client_WriteImage_cb refConfig8 idealHw 0 [1, 2, 3, 4, 5, 6, 7, 8]
          (APP_ZIGBEE_OTA_Client_PauseDownload refTransfer)).1 = .ZCL_STATUS_WAIT_FOR_DATA
      ∧ (APP_ZIGBEE_OTA_Client_PauseDownload
          refTransfer).OTA_client_info.write_info.flash_current_offset = 0
      ∧ (APP_ZIGBEE_OTA_Client_WriteImage_cb refConfig8 idealHw 0 [1, 2, 3, 4, 5, 6, 7, 8]
          (APP_ZIGBEE_OTA_Client_PauseDownload
            refTransfer)).2.OTA_client_info.write_info.flash_current_offset = 8 := by
  refine ⟨?_, ?_, ?_, ?_, ?_, ?_, ?_⟩ <;> decide

/-- C18, amended: with the resume flag clear, the write-image callback called
after a pause request handles the chunk exactly as it does without the request:
staging buffer, fill, cursor, `buffer_full`, flash, EEPROM and trace are those
of the call without the request.  Where that call fails the paused call fails
too and the request stays pending; otherwise the paused call returns
`ZCL_STATUS_WAIT_FOR_DATA` and clears the request. -/
theorem C18_pause_after_accepting (cfg : Config) (hw : Hw) (hl : Nat) (c : List Nat) (w : World)
    (hres : w.OTA_client_info.flags.OTA_CLIENT_RESUME_DOWNLOAD_FLAG = false) :
    (APP_ZIGBEE_OTA_Client_WriteImage_cb cfg hw hl c
        (APP_ZIGBEE_OTA_Client_PauseDownload w)).2.OTA_client_info.write_info
      = (APP_ZIGBEE_OTA_Client_WriteImage_cb cfg hw hl c w).2.OTA_client_info.write_info
    ∧ (APP_ZIGBEE_OTA_Client_WriteImage_cb cfg hw hl c
        (APP_ZIGBEE_OTA_Client_PauseDownload w)).2.flash
      = (APP_ZIGBEE_OTA_Client_WriteImage_cb cfg hw hl c w).2.flash
    ∧ (APP_ZIGBEE_OTA_Client_WriteImage_cb cfg hw hl c
        (APP_ZIGBEE_OTA_Client_PauseDownload w)).2.ee
      = (APP_ZIGBEE_OTA_Client_WriteImage_cb cfg hw hl c w).2.ee
    ∧ (APP_ZIGBEE_OTA_Client_WriteImage_cb cfg hw hl c
        (APP_ZIGBEE_OTA_Client_PauseDownload w)).2.trace
      = (APP_ZIGBEE_OTA_Client_WriteImage_cb cfg hw hl c w).2.trace
    ∧ ((APP_ZIGBEE_OTA_Client_WriteImage_cb cfg hw hl c w).1 = .ZCL_STATUS_FAILURE →
        (APP_ZIGBEE_OTA_Client_WriteImage_cb cfg hw hl c
            (APP_ZIGBEE_OTA_Client_PauseDownload w)).1 = .ZCL_STATUS_FAILURE
        ∧ (APP_ZIGBEE_OTA_Client_WriteImage_cb cfg hw hl c
            (APP_ZIGBEE_OTA_Client_PauseDownload
              w)).2.OTA_client_info.flags.OTA_CLIENT_PAUSE_DOWNLOAD_FLAG = true)
    ∧ ((APP_ZIGBEE_OTA_Client_WriteImage_cb cfg hw hl c w).1 ≠ .ZCL_STATUS_FAILURE →
        (APP_ZIGBEE_OTA_Client_WriteImage_cb cfg hw hl c
            (APP_ZIGBEE_OTA_Client_PauseDownload w)).1 = .ZCL_STATUS_WAIT_FOR_DATA
        ∧ (APP_ZIGBEE_OTA_Client_WriteImage_cb cfg hw hl c
            (APP_ZIGBEE_OTA_Client_PauseDownload
              w)).2.OTA_client_info.flags.OTA_CLIENT_PAUSE_DOWNLOAD_FLAG = false) := by
  rw [WriteImage_cb_paused cfg hw hl c w hres, WriteImage_cb_unfold cfg hw hl c w hres]
  by_cases hfull : WriteImage_full cfg c w = true
  · rw [if_pos hfull, if_pos hfull]
    rcases hW : APP_ZIGBEE_OTA_Client_WriteFirmwareData cfg hw (WriteImage_staged cfg c w)
      with ⟨st, w1⟩
    cases st with
    | APP_ZIGBEE_ERROR =>
      dsimp only
      exact ⟨rfl, rfl, rfl, rfl, fun _ => ⟨rfl, rfl⟩, fun h => absurd rfl h⟩
    | APP_ZIGBEE_OK =>
      dsimp only
      obtain ⟨p1, p2, p3, _, _, _, p7⟩ :=
        WriteImage_pause_frame (WriteImage_refill cfg c w (APP_ZIGBEE_OTA_Client_Crc_Calc w1))
      have p0 := WriteImage_pause_write_info
        (WriteImage_refill cfg c w (APP_ZIGBEE_OTA_Client_Crc_Calc w1))
      exact ⟨p0.symm, p2.symm, p3.symm, p1.symm, fun h => absurd h p7, fun _ => ⟨rfl, rfl⟩⟩
  · rw [if_neg hfull, if_neg hfull]
    obtain ⟨p1, p2, p3, _, _, _, p7⟩ := WriteImage_pause_frame (WriteImage_staged cfg c w)
    have p0 := WriteImage_pause_write_info (WriteImage_staged cfg c w)
    exact ⟨p0.symm, p2.symm, p3.symm, p1.symm, fun h => absurd h p7, fun _ => ⟨rfl, rfl⟩⟩

theorem C18_pause_after_accepting_witness :
    refTransfer.OTA_client_info.flags.OTA_CLIENT_RESUME_DOWNLOAD_FLAG = false
      ∧ (APP_ZIGBEE_OTA_Client_WriteImage_cb refConfig idealHw 0 chunk16
          (APP_ZIGBEE_OTA_Client_PauseDownload refTransfer)).2.OTA_client_info.write_info
        = (APP_ZIGBEE_OTA_Client_WriteImage_cb refConfig idealHw 0 chunk16
          refTransfer).2.OTA_client_info.write_info :=
  ⟨rfl, (C18_pause_after_accepting refConfig idealHw 0 chunk16 refTransfer rfl).1⟩

/-! ## C29, C27: sector arithmetic -/

theorem CheckDeviceCapabilities_wrapped (cfg : Config) (w : World)
    (hgt : GetFirstSecureSector w < firstFreeSector cfg w)
    (hff : firstFreeSector cfg w ≤ 1048576) :
    APP_ZIGBEE_CheckDeviceCapabilities cfg w = .APP_ZIGBEE_OK
      ↔ w.OTA_client_info.requested_image_size
          ≤ 4294967296 - 4096 * (firstFreeSector cfg w - GetFirstSecureSector w) := by
  unfold firstFreeSector at hgt hff ⊢
  unfold APP_ZIGBEE_CheckDeviceCapabilities
  dsimp only
  generalize GetFirstSecureSector w = fs at hgt ⊢
  generalize (if w.sram1 1 % 256 = 0 then cfg.CFG_APP_START_SECTOR_INDEX else w.sram1 1 % 256)
    = ff at hgt hff ⊢
  have h1 : (fs + 4294967296 - ff) % 4294967296 = 4294967296 - (ff - fs) := by omega
  have h2 : (4294967296 - (ff - fs)) * 4096 % 4294967296 = 4294967296 - 4096 * (ff - fs) := by
    omega
  rw [h1, h2]
  split <;> simp_all

/-- C29: with the first free sector above the first secure sector the 32-bit
difference wraps and the capacity check accepts every requested size up to
`2 ^ 32 - 4096 * (first free - first secure)`; on the reference device with
first free sector 200 and first secure sector 100 it returns `APP_ZIGBEE_OK`
for 1 byte and for 4096 bytes.  With the two sectors equal it returns
`APP_ZIGBEE_ERROR` for every positive size. -/
theorem C29_no_free_space_accepted :
    (∀ (cfg : Config) (w : World), GetFirstSecureSector w < firstFreeSector cfg w →
      firstFreeSector cfg w ≤ 1048576 →
      (APP_ZIGBEE_CheckDeviceCapabilities cfg w = .APP_ZIGBEE_OK
        ↔ w.OTA_client_info.requested_image_size
            ≤ 4294967296 - 4096 * (firstFreeSector cfg w - GetFirstSecureSector w)))
    ∧ (∀ (cfg : Config) (w : World), firstFreeSector cfg w = GetFirstSecureSector w →
      GetFirstSecureSector w < 1048576 → 0 < w.OTA_client_info.requested_image_size →
      APP_ZIGBEE_CheckDeviceCapabilities cfg w = .APP_ZIGBEE_ERROR)
    ∧ GetFirstSecureSector (withRequestedSize refWorldNoSpace 1) = 100
    ∧ firstFreeSector refConfig (withRequestedSize refWorldNoSpace 1) = 200
    ∧ APP_ZIGBEE_CheckDeviceCapabilities refConfig (withRequestedSize refWorldNoSpace 1)
        = .APP_ZIGBEE_OK
    ∧ APP_ZIGBEE_CheckDeviceCapabilities refConfig (withRequestedSize refWorldNoSpace 4294557696)
        = .APP_ZIGBEE_OK
    ∧ APP_ZIGBEE_CheckDeviceCapabilities refConfig (withRequestedSize refWorldNoSpace 4294557697)
        = .APP_ZIGBEE_ERROR := by
  refine ⟨CheckDeviceCapabilities_wrapped, ?_, by decide, by decide, by decide, by decide,
    by decide⟩
  intro cfg w heq hfs hpos
  refine (CheckDeviceCapabilities_nominal cfg w (Nat.le_of_eq heq) hfs).2 ?_
  rw [heq]
  omega

theorem Delete_Sectors_reset_eq (cfg : Config) (hw : Hw) (w : World)
    (h : w.sram1 1 % 256 < (cfg.CFG_APP_START_SECTOR_INDEX + 4294967296 - 1) % 4294967296) :
    Delete_Sectors cfg hw w
      = (false, ({ w with sram1 := fun i =>
          if i = 0 then cfg.CFG_REBOOT_ON_DOWNLOADED_FW else w.sram1 i } : World).emit
            [.bootSelector, .systemReset]) := by
  unfold Delete_Sectors
  exact if_pos h

theorem Delete_Sectors_erase_eq (cfg : Config) (hw : Hw) (w : World)
    (h : ¬ w.sram1 1 % 256 < (cfg.CFG_APP_START_SECTOR_INDEX + 4294967296 - 1) % 4294967296) :
    Delete_Sectors cfg hw w
      = (true, ({ w with flash :=
            hw.HAL_FLASHEx_Erase w.flash (w.sram1 1 % 256) (Delete_Sectors_NbPages w) } : World).emit
          [.flashUnlock, .flashErase (w.sram1 1 % 256) (Delete_Sectors_NbPages w), .flashLock]) := by
  unfold Delete_Sectors Delete_Sectors_NbPages
  exact if_neg h

theorem Delete_Sectors_NbPages_le (w : World)
    (hle : w.sram1 1 % 256 ≤ GetFirstSecureSector w) :
    w.sram1 1 % 256 + Delete_Sectors_NbPages w ≤ GetFirstSecureSector w := by
  unfold Delete_Sectors_NbPages
  have hp : w.sram1 1 % 256 < 256 := Nat.mod_lt _ (by omega)
  generalize GetFirstSecureSector w = fs at hle ⊢
  generalize w.sram1 1 % 256 = p at hle hp ⊢
  have hq : w.sram1 2 % 256 < 256 := Nat.mod_lt _ (by omega)
  generalize w.sram1 2 % 256 = q at hq ⊢
  by_cases h : (p + q) % 4294967296 > fs
  · rw [if_pos h]; omega
  · rw [if_neg h]; omega

theorem Delete_Sectors_NbPages_wrap (w : World)
    (hgt : GetFirstSecureSector w < w.sram1 1 % 256) :
    Delete_Sectors_NbPages w = GetFirstSecureSector w + 4294967296 - w.sram1 1 % 256 := by
  unfold Delete_Sectors_NbPages
  have hp : w.sram1 1 % 256 < 256 := Nat.mod_lt _ (by omega)
  generalize GetFirstSecureSector w = fs at hgt ⊢
  generalize w.sram1 1 % 256 = p at hgt hp ⊢
  have hq : w.sram1 2 % 256 < 256 := Nat.mod_lt _ (by omega)
  generalize w.sram1 2 % 256 = q at hq ⊢
  rw [if_pos (by omega)]
  omega

/-- C27: when the start page is below `CFG_APP_START_SECTOR_INDEX - 1` no
erase is issued, and when it is at or below the first secure sector the erase
request ends at or below that sector.  When the start page is above the first
secure sector the page count wraps: on the reference device with start page
200, 16 pages and first secure sector 100 the request is 4294967196 pages from
page 200, and the first byte of page 200, in the secured area, is erased. -/
theorem C27_erase_above_secure_sector :
    (∀ (cfg : Config) (hw : Hw) (w : World),
      w.sram1 1 % 256 < (cfg.CFG_APP_START_SECTOR_INDEX + 4294967296 - 1) % 4294967296 →
      (Delete_Sectors cfg hw w).2.flash = w.flash
        ∧ (Delete_Sectors cfg hw w).2.trace = w.trace ++ [.bootSelector, .systemReset])
    ∧ (∀ (cfg : Config) (hw : Hw) (w : World),
      ¬ w.sram1 1 % 256 < (cfg.CFG_APP_START_SECTOR_INDEX + 4294967296 - 1) % 4294967296 →
      (Delete_Sectors cfg hw w).2.trace
          = w.trace ++ [.flashUnlock,
              .flashErase (w.sram1 1 % 256) (Delete_Sectors_NbPages w), .flashLock]
        ∧ (w.sram1 1 % 256 ≤ GetFirstSecureSector w →
            w.sram1 1 % 256 + Delete_Sectors_NbPages w ≤ GetFirstSecureSector w)
        ∧ (GetFirstSecureSector w < w.sram1 1 % 256 →
            Delete_Sectors_NbPages w
              = GetFirstSecureSector w + 4294967296 - w.sram1 1 % 256))
    ∧ GetFirstSecureSector refWorldAboveSecure = 100
    ∧ (Delete_Sectors refConfig idealHw refWorldAboveSecure).2.trace
        = [.flashUnlock, .flashErase 200 4294967196, .flashLock]
    ∧ refWorldAboveSecure.flash (134217728 + 200 * 4096) = 0
    ∧ (Delete_Sectors refConfig idealHw refWorldAboveSecure).2.flash (134217728 + 200 * 4096)
        = 255 := by
  refine ⟨?_, ?_, by decide, by decide, by decide, by decide⟩
  · intro cfg hw w h
    rw [Delete_Sectors_reset_eq cfg hw w h]
    exact ⟨rfl, rfl⟩
  · intro cfg hw w h
    rw [Delete_Sectors_erase_eq cfg hw w h]
    exact ⟨rfl, Delete_Sectors_NbPages_le w, Delete_Sectors_NbPages_wrap w⟩

/-! ## C25: the residual flush -/

/-- C25: 1024 bytes that end with the application keyword are committed and
eight residual bytes are staged; the program of the residual double word at
offset 1024 fails, so the flash writer called by the validation callback
returns `APP_ZIGBEE_ERROR` and the residual bytes are not in flash; the
callback goes on, reads the keyword at offset 1016 and returns
`ZCL_STATUS_SUCCESS`. -/
theorem C25_residual_flush_error_ignored :
    refResidual.OTA_client_info.write_info.firmware_buffer_current_offset = 8
    ∧ refResidual.OTA_client_info.write_info.flash_current_offset = 1024
    ∧ (APP_ZIGBEE_OTA_Client_WriteFirmwareData refConfig (failAtHw (134479872 + 1024))
        ({ refResidual.emit [.tsStop .TS_ID_LED] with
          OTA_client_info := { refResidual.OTA_client_info with
            OTA_state := refConfig.VERIFYING_IMAGE } } : World)).1 = .APP_ZIGBEE_ERROR
    ∧ (APP_ZIGBEE_OTA_Client_ImageValidate_cb refConfig (failAtHw (134479872 + 1024))
        refResidual).2.trace
      = [.tsStop .TS_ID_LED, .enterWriteFirmwareData 1024 8, .hsemLock, .flashUnlock,
          .flashProgram (134479872 + 1024) 578437695752307201 false,
          .magicRead (134479872 + 1016)]
    ∧ (APP_ZIGBEE_OTA_Client_ImageValidate_cb refConfig (failAtHw (134479872 + 1024))
        refResidual).2.flash (134479872 + 1024) = 255
    ∧ (APP_ZIGBEE_OTA_Client_ImageValidate_cb refConfig (failAtHw (134479872 + 1024))
        refResidual).1 = .ZCL_STATUS_SUCCESS := by
  refine ⟨by decide, by decide, by decide, by decide, by decide, by decide⟩

/-! ## C26: the semaphore and the flash lock -/

theorem LockState_run_append (s : LockState) (a b : List Event) :
    s.run (a ++ b) = (s.run a).run b := by
  unfold LockState.run
  exact List.foldl_append _ _ _ _

theorem LockState_run_isEE (es : List Event) (h : ∀ e ∈ es, e.isEE = true) :
    ∀ s : LockState, s.run es = s := by
  induction es with
  | nil => intro s; rfl
  | cons e es ih =>
    intro s
    have he := h e (List.mem_cons_self _ _)
    have hs : s.step e = s := by
      cases e <;> first | rfl | exact absurd he (by simp [Event.isEE])
    show (s.step e).run es = s
    rw [hs]
    exact ih (fun x hx => h x (List.mem_cons_of_mem _ hx)) s

theorem LockState_run_unit (s : LockState) (a d : Nat) (ok : Bool) :
    s.run [.hsemLock, .flashUnlock, .flashProgram a d ok]
      = { s with held := true, unlocked := true } := by
  simp [LockState.run, LockState.step]

theorem LockState_run_progEventsW (buf : Nat → Nat) (base : Nat) :
    ∀ (k cur idx : Nat) (s : LockState),
      s.run (progEventsW buf base cur idx k)
        = if k = 0 then s else { s with held := true, unlocked := true } := by
  intro k
  induction k with
  | zero => intro cur idx s; rfl
  | succ n ih =>
    intro cur idx s
    rw [progEventsW, LockState_run_append, LockState_run_unit, ih]
    by_cases hn : n = 0
    · rw [if_pos hn, if_neg (by omega)]
    · rw [if_neg hn, if_neg (by omega)]

theorem WriteFirmwareData_lock_ok (cfg : Config) (hw : Hw) (w : World)
    (hs : (APP_ZIGBEE_OTA_Client_WriteFirmwareData cfg hw w).1 = .APP_ZIGBEE_OK) :
    (lockStateAfter (APP_ZIGBEE_OTA_Client_WriteFirmwareData cfg hw w).2.trace).held = false
      ∧ (lockStateAfter (APP_ZIGBEE_OTA_Client_WriteFirmwareData cfg hw w).2.trace).unlocked
        = false
      ∧ (lockStateAfter (APP_ZIGBEE_OTA_Client_WriteFirmwareData cfg hw w).2.trace).programOutside
        = (lockStateAfter w.trace).programOutside
      ∧ (w.OTA_client_info.write_info.firmware_buffer_current_offset = 0 →
          (lockStateAfter (APP_ZIGBEE_OTA_Client_WriteFirmwareData cfg hw w).2.trace).releaseUntaken
            = ((lockStateAfter w.trace).releaseUntaken || !(lockStateAfter w.trace).held))
      ∧ (0 < w.OTA_client_info.write_info.firmware_buffer_current_offset →
          (lockStateAfter (APP_ZIGBEE_OTA_Client_WriteFirmwareData cfg hw w).2.trace).releaseUntaken
            = (lockStateAfter w.trace).releaseUntaken) := by
  obtain ⟨k, _, hok, _⟩ := WriteFirmwareData_outcome cfg hw w
  obtain ⟨h1, h2, _, _, _, es, h6, h7⟩ := hok hs
  unfold lockStateAfter
  rw [h7]
  simp only [LockState_run_append, LockState_run_progEventsW, LockState_run_isEE es h6]
  by_cases hk : k = 0
  · rw [if_pos hk]
    refine ⟨rfl, rfl, rfl, fun _ => rfl, fun h => ?_⟩
    omega
  · rw [if_neg hk]
    refine ⟨rfl, rfl, rfl, fun h => ?_, fun _ => ?_⟩
    · omega
    · simp [LockState.run, LockState.step]

theorem WriteFirmwareData_lock_error (cfg : Config) (hw : Hw) (w : World)
    (hs : (APP_ZIGBEE_OTA_Client_WriteFirmwareData cfg hw w).1 = .APP_ZIGBEE_ERROR) :
    lockStateAfter (APP_ZIGBEE_OTA_Client_WriteFirmwareData cfg hw w).2.trace
      = { lockStateAfter w.trace with held := true, unlocked := true } := by
  obtain ⟨k, _, _, herr⟩ := WriteFirmwareData_outcome cfg hw w
  obtain ⟨_, _, h3⟩ := herr hs
  have ht := congrArg (fun x => x.trace) h3
  dsimp only at ht
  unfold lockStateAfter
  rw [ht]
  simp only [LockState_run_append, LockState_run_progEventsW, failEvents, LockState_run_unit]
  by_cases hk : k = 0
  · rw [if_pos hk]; rfl
  · rw [if_neg hk]; rfl

theorem WriteFirmwareData_empty_ok (cfg : Config) (hw : Hw) (w : World)
    (h0 : w.OTA_client_info.write_info.firmware_buffer_current_offset = 0) :
    (APP_ZIGBEE_OTA_Client_WriteFirmwareData cfg hw w).1 = .APP_ZIGBEE_OK := by
  obtain ⟨k, _, _, herr⟩ := WriteFirmwareData_outcome cfg hw w
  rcases hs : (APP_ZIGBEE_OTA_Client_WriteFirmwareData cfg hw w).1 with _ | _
  · rfl
  · obtain ⟨h1, _⟩ := herr hs
    omega

/-- C26: every flash program of `APP_ZIGBEE_OTA_Client_WriteFirmwareData` is
made with the semaphore held, and a call that returns `APP_ZIGBEE_OK` ends with
the semaphore released and the flash locked.  A call that returns
`APP_ZIGBEE_ERROR` ends with the semaphore held and the flash unlocked, and a
flush of an empty buffer releases a semaphore that it has not taken: so on the
reference device for a program failure at the second double word and for the
zero-length flush. -/
theorem C26_semaphore_discipline :
    (∀ (cfg : Config) (hw : Hw) (w : World),
      (lockStateAfter (APP_ZIGBEE_OTA_Client_WriteFirmwareData cfg hw w).2.trace).programOutside
        = (lockStateAfter w.trace).programOutside)
    ∧ (∀ (cfg : Config) (hw : Hw) (w : World),
      (APP_ZIGBEE_OTA_Client_WriteFirmwareData cfg hw w).1 = .APP_ZIGBEE_OK →
      (lockStateAfter (APP_ZIGBEE_OTA_Client_WriteFirmwareData cfg hw w).2.trace).held = false
        ∧ (lockStateAfter (APP_ZIGBEE_OTA_Client_WriteFirmwareData cfg hw w).2.trace).unlocked
          = false)
    ∧ (∀ (cfg : Config) (hw : Hw) (w : World),
      (APP_ZIGBEE_OTA_Client_WriteFirmwareData cfg hw w).1 = .APP_ZIGBEE_ERROR →
      (lockStateAfter (APP_ZIGBEE_OTA_Client_WriteFirmwareData cfg hw w).2.trace).held = true
        ∧ (lockStateAfter (APP_ZIGBEE_OTA_Client_WriteFirmwareData cfg hw w).2.trace).unlocked
          = true)
    ∧ (∀ (cfg : Config) (hw : Hw) (w : World),
      w.OTA_client_info.write_info.firmware_buffer_current_offset = 0 →
      (lockStateAfter w.trace).held = false →
      (lockStateAfter (APP_ZIGBEE_OTA_Client_WriteFirmwareData cfg hw w).2.trace).releaseUntaken
        = true)
    ∧ (APP_ZIGBEE_OTA_Client_WriteFirmwareData refConfig16 (failAtHw 134479880)
        (WriteImage_staged refConfig16 chunk16 refTransfer)).1 = .APP_ZIGBEE_ERROR
    ∧ lockStateAfter (APP_ZIGBEE_OTA_Client_WriteFirmwareData refConfig16 (failAtHw 134479880)
        (WriteImage_staged refConfig16 chunk16 refTransfer)).2.trace
      = { held := true, unlocked := true, programOutside := false, releaseUntaken := false }
    ∧ (APP_ZIGBEE_OTA_Client_WriteFirmwareData refConfig idealHw refTransfer).1 = .APP_ZIGBEE_OK
    ∧ lockStateAfter (APP_ZIGBEE_OTA_Client_WriteFirmwareData refConfig idealHw refTransfer).2.trace
      = { held := false, unlocked := false, programOutside := false, releaseUntaken := true } := by
  refine ⟨?_, ?_, ?_, ?_, by decide, by decide, by decide, by decide⟩
  · intro cfg hw w
    rcases hs : (APP_ZIGBEE_OTA_Client_WriteFirmwareData cfg hw w).1 with _ | _
    · exact (WriteFirmwareData_lock_ok cfg hw w hs).2.2.1
    · rw [WriteFirmwareData_lock_error cfg hw w hs]
  · intro cfg hw w hs
    exact ⟨(WriteFirmwareData_lock_ok cfg hw w hs).1, (WriteFirmwareData_lock_ok cfg hw w hs).2.1⟩
  · intro cfg hw w hs
    rw [WriteFirmwareData_lock_error cfg hw w hs]
    exact ⟨rfl, rfl⟩
  · intro cfg hw w h0 hh
    have hs := WriteFirmwareData_empty_ok cfg hw w h0
    rw [(WriteFirmwareData_lock_ok cfg hw w hs).2.2.2.1 h0, hh]
    simp

/-! ## C30, C22: a successful flush -/

theorem programCount_append (a b : List Event) :
    programCount (a ++ b) = programCount a + programCount b := by
  unfold programCount
  rw [List.filter_append, List.length_append]

theorem programCount_progEventsW (buf : Nat → Nat) (base : Nat) :
    ∀ (k cur idx : Nat), programCount (progEventsW buf base cur idx k) = k := by
  intro k
  induction k with
  | zero => intro cur idx; rfl
  | succ n ih =>
    intro cur idx
    rw [progEventsW, programCount_append, ih]
    have : programCount [Event.hsemLock, Event.flashUnlock,
        Event.flashProgram ((base + cur) % 4294967296) (read64 buf idx) true] = 1 := rfl
    rw [this]
    omega

theorem programCount_isEE (es : List Event) (h : ∀ e ∈ es, e.isEE = true) :
    programCount es = 0 := by
  induction es with
  | nil => rfl
  | cons e es ih =>
    have he := h e (List.mem_cons_self _ _)
    have h1 : programCount [e] = 0 := by
      cases e <;> first | rfl | exact absurd he (by simp [Event.isEE])
    have h2 := programCount_append [e] es
    rw [List.singleton_append] at h2
    rw [h2, h1, ih (fun x hx => h x (List.mem_cons_of_mem _ hx))]

theorem progEventsW_mem (buf : Nat → Nat) (base : Nat) :
    ∀ (k cur idx j : Nat), j < k →
      Event.flashProgram ((base + cursorAfter cur j) % 4294967296) (read64 buf (idx + 8 * j)) true
        ∈ progEventsW buf base cur idx k := by
  intro k
  induction k with
  | zero => intro cur idx j hj; omega
  | succ n ih =>
    intro cur idx j hj
    rw [progEventsW]
    cases j with
    | zero =>
      simp [cursorAfter]
    | succ i =>
      have e : idx + 8 * (i + 1) = idx + 8 + 8 * i := by omega
      rw [e, cursorAfter]
      exact List.mem_append_right _ (ih _ _ i (by omega))

theorem WriteFirmwareData_ok_units (cfg : Config) (hw : Hw) (w : World)
    (hs : (APP_ZIGBEE_OTA_Client_WriteFirmwareData cfg hw w).1 = .APP_ZIGBEE_OK) :
    UnitsVerified hw w.OTA_client_info.write_info.firmware_buffer
        w.OTA_client_info.ctx.base_address w.flash
        w.OTA_client_info.write_info.flash_current_offset 0
        ((w.OTA_client_info.write_info.firmware_buffer_current_offset + 7) / 8)
      ∧ (APP_ZIGBEE_OTA_Client_WriteFirmwareData cfg hw w).2.flash
        = flashAfter hw w.OTA_client_info.write_info.firmware_buffer
            w.OTA_client_info.ctx.base_address w.flash
            w.OTA_client_info.write_info.flash_current_offset 0
            ((w.OTA_client_info.write_info.firmware_buffer_current_offset + 7) / 8)
      ∧ (APP_ZIGBEE_OTA_Client_WriteFirmwareData cfg hw w).2.OTA_client_info
        = { w.OTA_client_info with
            write_info := { w.OTA_client_info.write_info with
              flash_current_offset :=
                cursorAfter w.OTA_client_info.write_info.flash_current_offset
                  ((w.OTA_client_info.write_info.firmware_buffer_current_offset + 7) / 8) }
            zigbee_ota_ctx_nvm :=
              { flash_offset := cursorAfter w.OTA_client_info.write_info.flash_current_offset
                  ((w.OTA_client_info.write_info.firmware_buffer_current_offset + 7) / 8)
                previous_image_type := w.OTA_client_info.ctx.file_type
                file_version := w.OTA_client_info.ctx.file_version
                OtaCurrentState := w.OTA_client_info.OTA_state } }
      ∧ ∃ es, (∀ e ∈ es, e.isEE = true)
        ∧ (APP_ZIGBEE_OTA_Client_WriteFirmwareData cfg hw w).2.trace = w.trace
          ++ ([.enterWriteFirmwareData w.OTA_client_info.write_info.flash_current_offset
                w.OTA_client_info.write_info.firmware_buffer_current_offset]
            ++ progEventsW w.OTA_client_info.write_info.firmware_buffer
                w.OTA_client_info.ctx.base_address
                w.OTA_client_info.write_info.flash_current_offset 0
                ((w.OTA_client_info.write_info.firmware_buffer_current_offset + 7) / 8)
            ++ [.enterCtxSave
                (cursorAfter w.OTA_client_info.write_info.flash_current_offset
                  ((w.OTA_client_info.write_info.firmware_buffer_current_offset + 7) / 8))]
            ++ es ++ [.flashLock, .hsemRelease]) := by
  obtain ⟨k, hv, hok, _⟩ := WriteFirmwareData_outcome cfg hw w
  obtain ⟨h1, h2, h3, h4, _, es, h6, h7⟩ := hok hs
  have hk : k = (w.OTA_client_info.write_info.firmware_buffer_current_offset + 7) / 8 := by
    omega
  subst hk
  exact ⟨hv, h3, h4, es, h6, h7⟩

theorem WriteFirmwareData_ok_of_verified (cfg : Config) (hw : Hw) (w : World)
    (hv : UnitsVerified hw w.OTA_client_info.write_info.firmware_buffer
      w.OTA_client_info.ctx.base_address w.flash
      w.OTA_client_info.write_info.flash_current_offset 0
      ((w.OTA_client_info.write_info.firmware_buffer_current_offset + 7) / 8)) :
    (APP_ZIGBEE_OTA_Client_WriteFirmwareData cfg hw w).1 = .APP_ZIGBEE_OK := by
  obtain ⟨k, _, _, herr⟩ := WriteFirmwareData_outcome cfg hw w
  rcases hs : (APP_ZIGBEE_OTA_Client_WriteFirmwareData cfg hw w).1 with _ | _
  · rfl
  · obtain ⟨h1, hf, _⟩ := herr hs
    exact absurd hf (UnitsVerified_not_fails hw _ _ _ _ _ _ k hv (by omega))

/-- C30: a call of `APP_ZIGBEE_OTA_Client_WriteFirmwareData` with `n` staged
bytes that returns `APP_ZIGBEE_OK`, the cursor below the 32-bit limit, makes
exactly `ceil (n / 8)` calls of `HAL_FLASH_Program`, the `j`-th with the double
word of the staging-buffer bytes `8 j .. 8 j + 7` (those beyond `n` included)
at the cursor plus `8 j`, and advances the cursor by `8 * ceil (n / 8)`, which
lies in `n .. n + 7` and equals `n` exactly when `n` is a multiple of 8. -/
theorem C30_flush_rounds_up (cfg : Config) (hw : Hw) (w : World)
    (hs : (APP_ZIGBEE_OTA_Client_WriteFirmwareData cfg hw w).1 = .APP_ZIGBEE_OK)
    (h32 : w.OTA_client_info.write_info.flash_current_offset
      + w.OTA_client_info.write_info.firmware_buffer_current_offset + 8 ≤ 4294967296) :
    programCount (APP_ZIGBEE_OTA_Client_WriteFirmwareData cfg hw w).2.trace
        = programCount w.trace
          + (w.OTA_client_info.write_info.firmware_buffer_current_offset + 7) / 8
      ∧ (∀ j, j < (w.OTA_client_info.write_info.firmware_buffer_current_offset + 7) / 8 →
          Event.flashProgram
              ((w.OTA_client_info.ctx.base_address
                + (w.OTA_client_info.write_info.flash_current_offset + 8 * j)) % 4294967296)
              (read64 w.OTA_client_info.write_info.firmware_buffer (8 * j)) true
            ∈ (APP_ZIGBEE_OTA_Client_WriteFirmwareData cfg hw w).2.trace)
      ∧ (APP_ZIGBEE_OTA_Client_WriteFirmwareData cfg hw
            w).2.OTA_client_info.write_info.flash_current_offset
          = w.OTA_client_info.write_info.flash_current_offset
            + 8 * ((w.OTA_client_info.write_info.firmware_buffer_current_offset + 7) / 8)
      ∧ w.OTA_client_info.write_info.firmware_buffer_current_offset
          ≤ 8 * ((w.OTA_client_info.write_info.firmware_buffer_current_offset + 7) / 8)
      ∧ 8 * ((w.OTA_client_info.write_info.firmware_buffer_current_offset + 7) / 8)
          < w.OTA_client_info.write_info.firmware_buffer_current_offset + 8
      ∧ ((APP_ZIGBEE_OTA_Client_WriteFirmwareData cfg hw
            w).2.OTA_client_info.write_info.flash_current_offset
          = w.OTA_client_info.write_info.flash_current_offset
            + w.OTA_client_info.write_info.firmware_buffer_current_offset
        ↔ w.OTA_client_info.write_info.firmware_buffer_current_offset % 8 = 0) := by
  obtain ⟨_, _, h4, es, h6, h7⟩ := WriteFirmwareData_ok_units cfg hw w hs
  have hc := cursorAfter_eq
    ((w.OTA_client_info.write_info.firmware_buffer_current_offset + 7) / 8)
    w.OTA_client_info.write_info.flash_current_offset (by omega)
  have c1 := congrArg (fun x => x.write_info.flash_current_offset) h4
  dsimp only at c1
  rw [hc] at c1
  refine ⟨?_, ?_, c1, by omega, by omega, ?_⟩
  · rw [h7]
    simp only [programCount_append, programCount_progEventsW, programCount_isEE es h6]
    have e1 : programCount [Event.enterWriteFirmwareData
        w.OTA_client_info.write_info.flash_current_offset
        w.OTA_client_info.write_info.firmware_buffer_current_offset] = 0 := rfl
    have e2 : programCount [Event.enterCtxSave
        (cursorAfter w.OTA_client_info.write_info.flash_current_offset
          ((w.OTA_client_info.write_info.firmware_buffer_current_offset + 7) / 8))] = 0 := rfl
    have e3 : programCount [Event.flashLock, Event.hsemRelease] = 0 := rfl
    rw [e1, e2, e3]
    omega
  · intro j hj
    have hm := progEventsW_mem w.OTA_client_info.write_info.firmware_buffer
      w.OTA_client_info.ctx.base_address
      ((w.OTA_client_info.write_info.firmware_buffer_current_offset + 7) / 8)
      w.OTA_client_info.write_info.flash_current_offset 0 j hj
    rw [cursorAfter_eq j _ (by omega), Nat.zero_add] at hm
    rw [h7]
    simp only [List.mem_append]
    exact Or.inr (Or.inl (Or.inl (Or.inl (Or.inr hm))))
  · rw [c1]
    omega

theorem C30_flush_rounds_up_witness :
    (APP_ZIGBEE_OTA_Client_WriteFirmwareData refConfig idealHw refThreeStaged).1
        = .APP_ZIGBEE_OK
      ∧ refThreeStaged.OTA_client_info.write_info.firmware_buffer_current_offset = 3
      ∧ programCount (APP_ZIGBEE_OTA_Client_WriteFirmwareData refConfig idealHw
          refThreeStaged).2.trace
        = programCount refThreeStaged.trace
          + (refThreeStaged.OTA_client_info.write_info.firmware_buffer_current_offset + 7) / 8 :=
  ⟨by decide, by decide,
    (C30_flush_rounds_up refConfig idealHw refThreeStaged (by decide) (by decide)).1⟩

/-- C22: for every EEPROM library, whatever its `EE_Write` returns: when all
`ceil (fill / 8)` staged units program and read back equal, the cursor below
the 32-bit limit, `APP_ZIGBEE_OTA_Client_WriteFirmwareData` returns
`APP_ZIGBEE_OK` with the cursor advanced by `8 * ceil (fill / 8)`, and a
write-image callback whose flush this is does not return `ZCL_STATUS_FAILURE`
(it returns `ZCL_STATUS_SUCCESS` when no pause is requested), keeps the
advanced cursor and leaves the staging buffer ready for the next chunk: fill
equal to the rest of the chunk and `buffer_full` false. -/
theorem C22_checkpoint_failure_not_fatal (cfg : Config) (hw : Hw) (w : World)
    (hv : UnitsVerified hw w.OTA_client_info.write_info.firmware_buffer
      w.OTA_client_info.ctx.base_address w.flash
      w.OTA_client_info.write_info.flash_current_offset 0
      ((w.OTA_client_info.write_info.firmware_buffer_current_offset + 7) / 8))
    (h32 : w.OTA_client_info.write_info.flash_current_offset
      + w.OTA_client_info.write_info.firmware_buffer_current_offset + 8 ≤ 4294967296) :
    (APP_ZIGBEE_OTA_Client_WriteFirmwareData cfg hw w).1 = .APP_ZIGBEE_OK
      ∧ (APP_ZIGBEE_OTA_Client_WriteFirmwareData cfg hw
            w).2.OTA_client_info.write_info.flash_current_offset
          = w.OTA_client_info.write_info.flash_current_offset
            + 8 * ((w.OTA_client_info.write_info.firmware_buffer_current_offset + 7) / 8)
      ∧ (∀ (hl : Nat) (c : List Nat) (w0 : World),
          w0.OTA_client_info.flags.OTA_CLIENT_RESUME_DOWNLOAD_FLAG = false →
          WriteImage_full cfg c w0 = true →
          WriteImage_staged cfg c w0 = w →
          (APP_ZIGBEE_OTA_Client_WriteImage_cb cfg hw hl c w0).1 ≠ .ZCL_STATUS_FAILURE
          ∧ (w0.OTA_client_info.flags.OTA_CLIENT_PAUSE_DOWNLOAD_FLAG = false →
              (APP_ZIGBEE_OTA_Client_WriteImage_cb cfg hw hl c w0).1 = .ZCL_STATUS_SUCCESS)
          ∧ (APP_ZIGBEE_OTA_Client_WriteImage_cb cfg hw hl c
                w0).2.OTA_client_info.write_info.flash_current_offset
              = w.OTA_client_info.write_info.flash_current_offset
                + 8 * ((w.OTA_client_info.write_info.firmware_buffer_current_offset + 7) / 8)
          ∧ (APP_ZIGBEE_OTA_Client_WriteImage_cb cfg hw hl c
                w0).2.OTA_client_info.write_info.firmware_buffer_current_offset
              = WriteImage_remaining cfg c w0
          ∧ (APP_ZIGBEE_OTA_Client_WriteImage_cb cfg hw hl c
                w0).2.OTA_client_info.write_info.buffer_full = false) := by
  have hs := WriteFirmwareData_ok_of_verified cfg hw w hv
  obtain ⟨_, _, h4, _⟩ := WriteFirmwareData_ok_units cfg hw w hs
  have hc := cursorAfter_eq
    ((w.OTA_client_info.write_info.firmware_buffer_current_offset + 7) / 8)
    w.OTA_client_info.write_info.flash_current_offset (by omega)
  have c1 := congrArg (fun x => x.write_info.flash_current_offset) h4
  have c2 := congrArg (fun x => x.flags) h4
  dsimp only at c1 c2
  rw [hc] at c1
  refine ⟨hs, c1, ?_⟩
  intro hl c w0 hres hfull hst
  rw [WriteImage_cb_unfold cfg hw hl c w0 hres, if_pos hfull, hst]
  rcases hW : APP_ZIGBEE_OTA_Client_WriteFirmwareData cfg hw w with ⟨st, w1⟩
  rw [hW] at hs c1 c2
  dsimp only at hs c1 c2
  subst hs
  dsimp only
  obtain ⟨_, _, _, _, _, _, p7⟩ :=
    WriteImage_pause_frame (WriteImage_refill cfg c w0 (APP_ZIGBEE_OTA_Client_Crc_Calc w1))
  have p0 := WriteImage_pause_write_info
    (WriteImage_refill cfg c w0 (APP_ZIGBEE_OTA_Client_Crc_Calc w1))
  refine ⟨p7, ?_, ?_, ?_, ?_⟩
  · intro hp
    have hfl : (WriteImage_refill cfg c w0
        (APP_ZIGBEE_OTA_Client_Crc_Calc w1)).OTA_client_info.flags.OTA_CLIENT_PAUSE_DOWNLOAD_FLAG
        = false := by
      have e : (WriteImage_refill cfg c w0
          (APP_ZIGBEE_OTA_Client_Crc_Calc w1)).OTA_client_info.flags
          = w1.OTA_client_info.flags := rfl
      rw [e, c2, ← hst]
      exact hp
    unfold WriteImage_pause
    rw [if_neg (by rw [hfl]; simp)]
  · rw [p0]
    exact c1
  · rw [p0]
    rfl
  · rw [p0]
    rfl

theorem C22_checkpoint_failure_not_fatal_witness :
    (APP_ZIGBEE_OTA_ctx_save_nvm refConfig16 eeFailHw
        (WriteImage_staged refConfig16 chunk16 refTransfer)).1 = false
      ∧ (APP_ZIGBEE_OTA_Client_WriteFirmwareData refConfig16 eeFailHw
          (WriteImage_staged refConfig16 chunk16 refTransfer)).1 = .APP_ZIGBEE_OK
      ∧ (APP_ZIGBEE_OTA_Client_WriteImage_cb refConfig16 eeFailHw 0 chunk16 refTransfer).1
        = .ZCL_STATUS_SUCCESS :=
  have h := C22_checkpoint_failure_not_fatal refConfig16 eeFailHw
    (WriteImage_staged refConfig16 chunk16 refTransfer)
    ⟨⟨by decide, by decide⟩, ⟨by decide, by decide⟩, trivial⟩ (by decide)
  ⟨by decide, h.1, (h.2.2 0 chunk16 refTransfer rfl (by decide) rfl).2.1 rfl⟩

/-! ## C24: the checkpoint round trip -/

theorem ctx_save_loop_store (cfg : Config) (hw : Hw)
    (hW : ∀ e a d, (hw.EE_Write e a d).1 ≠ .EE_ERROR →
      ∀ x, (hw.EE_Write e a d).2 x = if x = a then some d else e x)
    (hC : ∀ e x, hw.EE_Clean e x = e x) (ds : List Nat) :
    ∀ (i : Nat) (w : World), (ctx_save_loop cfg hw ds i w).1 = true →
      ∀ x, (ctx_save_loop cfg hw ds i w).2.ee x
        = if cfg.USER_DB_START_ADDR + i ≤ x ∧ x < cfg.USER_DB_START_ADDR + i + ds.length then
            some (ds.getD (x - (cfg.USER_DB_START_ADDR + i)) 0)
          else w.ee x := by
  induction ds with
  | nil =>
    intro i w _ x
    rw [if_neg (by simp only [List.length_nil]; omega)]
    rfl
  | cons d ds ih =>
    intro i w hs x
    rw [ctx_save_loop] at hs ⊢
    have hw1 := hW w.ee (cfg.USER_DB_START_ADDR + i) d
    rcases hh : hw.EE_Write w.ee (cfg.USER_DB_START_ADDR + i) d with ⟨st, e⟩
    rw [hh] at hs hw1
    dsimp only at hs hw1 ⊢
    have key : ∀ (e' : Nat → Option Nat) (w' : World), w'.ee = e' →
        (∀ y, e' y = if y = cfg.USER_DB_START_ADDR + i then some d else w.ee y) →
        (ctx_save_loop cfg hw ds (i + 1) w').1 = true →
        (ctx_save_loop cfg hw ds (i + 1) w').2.ee x
          = if cfg.USER_DB_START_ADDR + i ≤ x
                ∧ x < cfg.USER_DB_START_ADDR + i + (d :: ds).length then
              some ((d :: ds).getD (x - (cfg.USER_DB_START_ADDR + i)) 0)
            else w.ee x := by
      intro e' w' he' hy hs'
      rw [ih (i + 1) w' hs' x, he', hy x]
      simp only [List.length_cons]
      by_cases h1 : x = cfg.USER_DB_START_ADDR + i
      · subst h1
        rw [if_neg (by omega), if_pos rfl, if_pos (by omega), Nat.sub_self]
        rfl
      · by_cases h2 : cfg.USER_DB_START_ADDR + (i + 1) ≤ x
            ∧ x < cfg.USER_DB_START_ADDR + (i + 1) + ds.length
        · rw [if_pos h2, if_pos (by omega)]
          have e2 : x - (cfg.USER_DB_START_ADDR + i)
              = (x - (cfg.USER_DB_START_ADDR + (i + 1))) + 1 := by omega
          rw [e2]
          rfl
        · rw [if_neg h2, if_neg h1, if_neg (by omega)]
    cases st with
    | EE_OK =>
      exact key e _ rfl (hw1 (by simp)) hs
    | EE_CLEAN_NEEDED =>
      refine key (hw.EE_Clean e) _ rfl ?_ hs
      intro y
      rw [hC e y]
      exact hw1 (by simp) y
    | EE_ERROR =>
      exact absurd hs (by simp)

theorem ctx_save_nvm_store (cfg : Config) (hw : Hw)
    (hW : ∀ e a d, (hw.EE_Write e a d).1 ≠ .EE_ERROR →
      ∀ x, (hw.EE_Write e a d).2 x = if x = a then some d else e x)
    (hC : ∀ e x, hw.EE_Clean e x = e x) (w : World)
    (hs : (APP_ZIGBEE_OTA_ctx_save_nvm cfg hw w).1 = true) :
    (APP_ZIGBEE_OTA_ctx_save_nvm cfg hw w).2.ee (cfg.USER_DB_START_ADDR + 0)
        = some w.OTA_client_info.write_info.flash_current_offset
      ∧ (APP_ZIGBEE_OTA_ctx_save_nvm cfg hw w).2.ee (cfg.USER_DB_START_ADDR + 1)
        = some w.OTA_client_info.ctx.file_type
      ∧ (APP_ZIGBEE_OTA_ctx_save_nvm cfg hw w).2.ee (cfg.USER_DB_START_ADDR + 2)
        = some w.OTA_client_info.ctx.file_version
      ∧ (APP_ZIGBEE_OTA_ctx_save_nvm cfg hw w).2.ee (cfg.USER_DB_START_ADDR + 3)
        = some w.OTA_client_info.OTA_state := by
  unfold APP_ZIGBEE_OTA_ctx_save_nvm at hs ⊢
  dsimp only at hs ⊢
  have h := ctx_save_loop_store cfg hw hW hC _ 0 _ hs
  refine ⟨?_, ?_, ?_, ?_⟩
  · rw [h, if_pos (by simp only [List.length_cons, List.length_nil]; omega)]
    simp
  · rw [h, if_pos (by simp only [List.length_cons, List.length_nil]; omega)]
    simp
  · rw [h, if_pos (by simp only [List.length_cons, List.length_nil]; omega)]
    simp
  · rw [h, if_pos (by simp only [List.length_cons, List.length_nil]; omega)]
    simp

theorem ctx_load_nvm_words (cfg : Config) (hw : Hw) (hR : ∀ e a, hw.EE_Read e a = e a)
    (w : World) (d0 d1 d2 d3 : Nat)
    (h0 : w.ee (cfg.USER_DB_START_ADDR + 0) = some d0)
    (h1 : w.ee (cfg.USER_DB_START_ADDR + 1) = some d1)
    (h2 : w.ee (cfg.USER_DB_START_ADDR + 2) = some d2)
    (h3 : w.ee (cfg.USER_DB_START_ADDR + 3) = some d3) :
    APP_ZIGBEE_OTA_ctx_load_nvm cfg hw w
      = (true, ({ w with OTA_client_info := { w.OTA_client_info with
            zigbee_ota_ctx_nvm := { flash_offset := d0, previous_image_type := d1,
                                    file_version := d2, OtaCurrentState := d3 }
            flags := { w.OTA_client_info.flags with OTA_CLIENT_CTX_FOUND_FLAG := true }
            write_info := { w.OTA_client_info.write_info with flash_current_offset := d0 } } }
          : World).emit [.flashUnlock, .flashLock]) := by
  unfold APP_ZIGBEE_OTA_ctx_load_nvm
  simp only [World.emit, hR, h0, h1, h2, h3, List.append_assoc, List.singleton_append]

/-- C24: on an EEPROM emulation whose successful writes store the word at
its address, whose clean keeps the contents and whose read returns the word
last written: when `APP_ZIGBEE_OTA_ctx_save_nvm` returns `true`, the words at
`USER_DB_START_ADDR + 0 .. 3` are the cursor, the image type, the file version
and the state, in that order, and `APP_ZIGBEE_OTA_ctx_load_nvm`, run in any
context that sees this EEPROM, returns `true`, restores the record saved, sets
`OTA_CLIENT_CTX_FOUND_FLAG` and sets the cursor to the saved write offset. -/
theorem C24_checkpoint_round_trip (cfg : Config) (hw : Hw) (w w2 : World)
    (hW : ∀ e a d, (hw.EE_Write e a d).1 ≠ .EE_ERROR →
      ∀ x, (hw.EE_Write e a d).2 x = if x = a then some d else e x)
    (hC : ∀ e x, hw.EE_Clean e x = e x)
    (hR : ∀ e a, hw.EE_Read e a = e a)
    (hs : (APP_ZIGBEE_OTA_ctx_save_nvm cfg hw w).1 = true)
    (hee : w2.ee = (APP_ZIGBEE_OTA_ctx_save_nvm cfg hw w).2.ee) :
    ((APP_ZIGBEE_OTA_ctx_save_nvm cfg hw w).2.ee (cfg.USER_DB_START_ADDR + 0)
        = some w.OTA_client_info.write_info.flash_current_offset
      ∧ (APP_ZIGBEE_OTA_ctx_save_nvm cfg hw w).2.ee (cfg.USER_DB_START_ADDR + 1)
        = some w.OTA_client_info.ctx.file_type
      ∧ (APP_ZIGBEE_OTA_ctx_save_nvm cfg hw w).2.ee (cfg.USER_DB_START_ADDR + 2)
        = some w.OTA_client_info.ctx.file_version
      ∧ (APP_ZIGBEE_OTA_ctx_save_nvm cfg hw w).2.ee (cfg.USER_DB_START_ADDR + 3)
        = some w.OTA_client_info.OTA_state)
    ∧ (APP_ZIGBEE_OTA_ctx_load_nvm cfg hw w2).1 = true
    ∧ (APP_ZIGBEE_OTA_ctx_load_nvm cfg hw w2).2.OTA_client_info.zigbee_ota_ctx_nvm
      = { flash_offset := w.OTA_client_info.write_info.flash_current_offset
          previous_image_type := w.OTA_client_info.ctx.file_type
          file_version := w.OTA_client_info.ctx.file_version
          OtaCurrentState := w.OTA_client_info.OTA_state }
    ∧ (APP_ZIGBEE_OTA_ctx_load_nvm cfg hw w2).2.OTA_client_info.zigbee_ota_ctx_nvm
      = (APP_ZIGBEE_OTA_ctx_save_nvm cfg hw w).2.OTA_client_info.zigbee_ota_ctx_nvm
    ∧ (APP_ZIGBEE_OTA_ctx_load_nvm cfg hw w2).2.OTA_client_info.flags.OTA_CLIENT_CTX_FOUND_FLAG
      = true
    ∧ (APP_ZIGBEE_OTA_ctx_load_nvm cfg hw w2).2.OTA_client_info.write_info.flash_current_offset
      = w.OTA_client_info.write_info.flash_current_offset := by
  have hst := ctx_save_nvm_store cfg hw hW hC w hs
  obtain ⟨s0, s1, s2, s3⟩ := hst
  have hl := ctx_load_nvm_words cfg hw hR w2 _ _ _ _
    (by rw [hee]; exact s0) (by rw [hee]; exact s1) (by rw [hee]; exact s2)
    (by rw [hee]; exact s3)
  obtain ⟨f1, _⟩ := ctx_save_nvm_frame cfg hw w
  refine ⟨⟨s0, s1, s2, s3⟩, ?_, ?_, ?_, ?_, ?_⟩
  · rw [hl]
  · rw [hl]; rfl
  · rw [hl, f1]; rfl
  · rw [hl]; rfl
  · rw [hl]; rfl

theorem C24_checkpoint_round_trip_witness :
    (APP_ZIGBEE_OTA_ctx_save_nvm refConfig idealHw refCrcMismatch).1 = true
      ∧ (APP_ZIGBEE_OTA_ctx_load_nvm refConfig idealHw
          ({ refWorld with ee := (APP_ZIGBEE_OTA_ctx_save_nvm refConfig idealHw
              refCrcMismatch).2.ee } : World)).2.OTA_client_info.write_info.flash_current_offset
        = refCrcMismatch.OTA_client_info.write_info.flash_current_offset :=
  ⟨by decide,
    (C24_checkpoint_round_trip refConfig idealHw refCrcMismatch
      ({ refWorld with ee := (APP_ZIGBEE_OTA_ctx_save_nvm refConfig idealHw
          refCrcMismatch).2.ee } : World)
      (fun _ _ _ _ _ => rfl) (fun _ _ => rfl) (fun _ _ => rfl) (by decide) rfl).2.2.2.2.2⟩

/-! ## C21: the cursor is a multiple of eight -/

theorem WriteFirmwareData_write_info (cfg : Config) (hw : Hw) (w : World) :
    (APP_ZIGBEE_OTA_Client_WriteFirmwareData cfg hw w).2.OTA_client_info.write_info
      = { w.OTA_client_info.write_info with
          flash_current_offset := (APP_ZIGBEE_OTA_Client_WriteFirmwareData cfg hw
            w).2.OTA_client_info.write_info.flash_current_offset } := by
  obtain ⟨k, _, hok, herr⟩ := WriteFirmwareData_outcome cfg hw w
  rcases hs : (APP_ZIGBEE_OTA_Client_WriteFirmwareData cfg hw w).1 with _ | _
  · obtain ⟨_, _, _, h4, _⟩ := hok hs
    rw [h4]
  · obtain ⟨_, _, h3⟩ := herr hs
    rw [h3]
    rfl

/-- C28, counterexample: with fill 0, `buffer_full` false and byte 5 of the
staging buffer equal to 7, the one-byte chunk `[1]` is accepted with
`ZCL_STATUS_SUCCESS`, the fill is 1 and byte 5 is still 7; and with a capacity
of 255 and a fill of 254, the chunk `[1]` is accepted with `ZCL_STATUS_SUCCESS`
and the byte at index 1020 of the buffer array, 7 before the call, is 0 after
it. -/
theorem C28_counterexample :
    refStaleTail.OTA_client_info.write_info.firmware_buffer_current_offset = 0
      ∧ refStaleTail.OTA_client_info.write_info.buffer_full = false
      ∧ (APP_ZIGBEE_OTA_Client_WriteImage_cb refConfig idealHw 0 [1] refStaleTail).1
        = .ZCL_STATUS_SUCCESS
      ∧ (APP_ZIGBEE_OTA_Client_WriteImage_cb refConfig idealHw 0 [1]
          refStaleTail).2.OTA_client_info.write_info.firmware_buffer_current_offset = 1
      ∧ (APP_ZIGBEE_OTA_Client_WriteImage_cb refConfig idealHw 0 [1]
          refStaleTail).2.OTA_client_info.write_info.firmware_buffer 5 = 7
      ∧ refBeyond.OTA_client_info.write_info.firmware_buffer_current_offset = 254
      ∧ refBeyond.OTA_client_info.write_info.buffer_full = false
      ∧ refBeyond.OTA_client_info.write_info.firmware_buffer 1020 = 7
      ∧ (APP_ZIGBEE_OTA_Client_WriteImage_cb refConfig255 idealHw 0 [1]
          refBeyond).1 = .ZCL_STATUS_SUCCESS
      ∧ (APP_ZIGBEE_OTA_Client_WriteImage_cb refConfig255 idealHw 0 [1]
          refBeyond).2.OTA_client_info.write_info.firmware_buffer 1020 = 0 := by
  refine ⟨by decide, by decide, by decide, by decide, by decide, by decide, by decide,
    by decide, ?_, ?_⟩
  · decide
  · decide

/-- C28, amended: with the resume flag clear, `buffer_full` false, a fill
below the capacity, zeros in the staging buffer from the fill up to the
capacity, a chunk of at most 255 bytes and a capacity of at least 255 that is
a multiple of 4: for every outcome of the call the bytes of the buffer array
at indices at or beyond the capacity are unchanged, and after a call that does
not return `ZCL_STATUS_FAILURE` the fill is again below the capacity,
`buffer_full` is false and the buffer holds zeros from the fill up to the
capacity. -/
theorem C28_buffer_invariant (cfg : Config) (hw : Hw) (hl : Nat) (c : List Nat) (w : World)
    (hres : w.OTA_client_info.flags.OTA_CLIENT_RESUME_DOWNLOAD_FLAG = false)
    (hfull : w.OTA_client_info.write_info.buffer_full = false)
    (hfill : w.OTA_client_info.write_info.firmware_buffer_current_offset
      < cfg.RAM_FIRMWARE_BUFFER_SIZE)
    (hz : ∀ i, w.OTA_client_info.write_info.firmware_buffer_current_offset ≤ i →
      i < cfg.RAM_FIRMWARE_BUFFER_SIZE → w.OTA_client_info.write_info.firmware_buffer i = 0)
    (hlen : c.length ≤ 255)
    (h255 : 255 ≤ cfg.RAM_FIRMWARE_BUFFER_SIZE)
    (h4 : cfg.RAM_FIRMWARE_BUFFER_SIZE % 4 = 0)
    (hcap : cfg.RAM_FIRMWARE_BUFFER_SIZE + 255 < 4294967296) :
    (∀ i, cfg.RAM_FIRMWARE_BUFFER_SIZE ≤ i →
      (APP_ZIGBEE_OTA_Client_WriteImage_cb cfg hw hl c
          w).2.OTA_client_info.write_info.firmware_buffer i
        = w.OTA_client_info.write_info.firmware_buffer i)
    ∧ ((APP_ZIGBEE_OTA_Client_WriteImage_cb cfg hw hl c w).1 ≠ .ZCL_STATUS_FAILURE →
        (APP_ZIGBEE_OTA_Client_WriteImage_cb cfg hw hl c
            w).2.OTA_client_info.write_info.firmware_buffer_current_offset
          < cfg.RAM_FIRMWARE_BUFFER_SIZE
        ∧ (APP_ZIGBEE_OTA_Client_WriteImage_cb cfg hw hl c
            w).2.OTA_client_info.write_info.buffer_full = false
        ∧ ∀ i, (APP_ZIGBEE_OTA_Client_WriteImage_cb cfg hw hl c
              w).2.OTA_client_info.write_info.firmware_buffer_current_offset ≤ i →
            i < cfg.RAM_FIRMWARE_BUFFER_SIZE →
            (APP_ZIGBEE_OTA_Client_WriteImage_cb cfg hw hl c
              w).2.OTA_client_info.write_info.firmware_buffer i = 0) := by
  have h32 : w.OTA_client_info.write_info.firmware_buffer_current_offset + c.length
      < 4294967296 := by omega
  have hu := WriteImage_cb_unfold cfg hw hl c w hres
  have hiff := WriteImage_full_iff cfg c w hfull h32
  by_cases hge : cfg.RAM_FIRMWARE_BUFFER_SIZE
      ≤ w.OTA_client_info.write_info.firmware_buffer_current_offset + c.length
  · have hf : WriteImage_full cfg c w = true := hiff.2 hge
    obtain ⟨hsz, hrem⟩ := WriteImage_size_flush cfg c w hge (by omega) hlen h32
    rw [if_pos hf] at hu
    have hsb : (WriteImage_staged cfg c w).OTA_client_info.write_info.firmware_buffer
        = memcpy w.OTA_client_info.write_info.firmware_buffer
            w.OTA_client_info.write_info.firmware_buffer_current_offset c
            (cfg.RAM_FIRMWARE_BUFFER_SIZE
              - w.OTA_client_info.write_info.firmware_buffer_current_offset) := by
      unfold WriteImage_staged
      rw [hsz]
      rfl
    have hsf : (WriteImage_staged cfg c w).OTA_client_info.write_info.firmware_buffer_current_offset
        = cfg.RAM_FIRMWARE_BUFFER_SIZE := by
      have e1 : (w.OTA_client_info.write_info.firmware_buffer_current_offset
          + (cfg.RAM_FIRMWARE_BUFFER_SIZE
            - w.OTA_client_info.write_info.firmware_buffer_current_offset)) % 4294967296
          = cfg.RAM_FIRMWARE_BUFFER_SIZE := by omega
      unfold WriteImage_staged
      rw [hsz]
      exact e1
    have hwi := WriteFirmwareData_write_info cfg hw (WriteImage_staged cfg c w)
    have hb1 := congrArg (fun x => x.firmware_buffer) hwi
    have hb2 := congrArg (fun x => x.firmware_buffer_current_offset) hwi
    dsimp only at hb1 hb2
    rw [hsb] at hb1
    rw [hsf] at hb2
    have hout : ∀ i, cfg.RAM_FIRMWARE_BUFFER_SIZE ≤ i →
        memcpy w.OTA_client_info.write_info.firmware_buffer
          w.OTA_client_info.write_info.firmware_buffer_current_offset c
          (cfg.RAM_FIRMWARE_BUFFER_SIZE
            - w.OTA_client_info.write_info.firmware_buffer_current_offset) i
          = w.OTA_client_info.write_info.firmware_buffer i := by
      intro i hi
      unfold memcpy
      rw [if_neg (by omega)]
    rcases hW : APP_ZIGBEE_OTA_Client_WriteFirmwareData cfg hw (WriteImage_staged cfg c w)
      with ⟨st, w1⟩
    rw [hW] at hu hb1 hb2
    dsimp only at hb1 hb2
    cases st with
    | APP_ZIGBEE_ERROR =>
      dsimp only at hu
      rw [hu]
      refine ⟨?_, fun h => absurd rfl h⟩
      intro i hi
      show w1.OTA_client_info.write_info.firmware_buffer i = _
      rw [hb1]
      exact hout i hi
    | APP_ZIGBEE_OK =>
      dsimp only at hu
      rw [hu]
      have p0 := WriteImage_pause_write_info
        (WriteImage_refill cfg c w (APP_ZIGBEE_OTA_Client_Crc_Calc w1))
      have hcrc := (Crc_Calc_frame w1 (by rw [hb2]; omega)).2.2.2.1
      have hbuf : ∀ i, (WriteImage_refill cfg c w
          (APP_ZIGBEE_OTA_Client_Crc_Calc w1)).OTA_client_info.write_info.firmware_buffer i
          = if i < w.OTA_client_info.write_info.firmware_buffer_current_offset + c.length
                - cfg.RAM_FIRMWARE_BUFFER_SIZE then
              (c.drop (cfg.RAM_FIRMWARE_BUFFER_SIZE
                - w.OTA_client_info.write_info.firmware_buffer_current_offset)).getD i 0
            else if i < cfg.RAM_FIRMWARE_BUFFER_SIZE then 0
            else w1.OTA_client_info.write_info.firmware_buffer i := by
        intro i
        unfold WriteImage_refill
        rw [hsz, hrem, hcrc]
        simp only [World.setWriteInfo, memcpy, memset0, Nat.zero_le, true_and, Nat.zero_add,
          Nat.sub_zero]
      refine ⟨?_, fun _ => ⟨?_, ?_, ?_⟩⟩
      · intro i hi
        rw [p0, hbuf i, if_neg (by omega), if_neg (by omega), hb1]
        exact hout i hi
      · rw [p0]
        show WriteImage_remaining cfg c w < _
        rw [hrem]
        omega
      · rw [p0]
        rfl
      · intro i hi1 hi2
        rw [p0] at hi1 ⊢
        have hi3 : WriteImage_remaining cfg c w ≤ i := hi1
        rw [hrem] at hi3
        rw [hbuf i, if_neg (by omega), if_pos hi2]
  · have hlt : w.OTA_client_info.write_info.firmware_buffer_current_offset + c.length
        < cfg.RAM_FIRMWARE_BUFFER_SIZE := by omega
    have hnf : ¬ WriteImage_full cfg c w = true := fun h => hge (hiff.1 h)
    rw [if_neg hnf] at hu
    rw [hu]
    have p0 := WriteImage_pause_write_info (WriteImage_staged cfg c w)
    have hsz := WriteImage_size_stage cfg c w hlt h32
    have hf : WriteImage_full cfg c w = false := by simpa using hnf
    have hst : (WriteImage_staged cfg c w).OTA_client_info.write_info
        = { w.OTA_client_info.write_info with
            firmware_buffer := memcpy w.OTA_client_info.write_info.firmware_buffer
              w.OTA_client_info.write_info.firmware_buffer_current_offset c c.length
            firmware_buffer_current_offset :=
              w.OTA_client_info.write_info.firmware_buffer_current_offset + c.length
            buffer_full := false } := by
      unfold WriteImage_staged
      rw [hsz, hf, Nat.mod_eq_of_lt h32]
      rfl
    rw [p0, hst]
    dsimp only
    refine ⟨?_, fun _ => ⟨hlt, rfl, ?_⟩⟩
    · intro i hi
      unfold memcpy
      rw [if_neg (by omega)]
    · intro i hi1 hi2
      unfold memcpy
      rw [if_neg (by omega)]
      exact hz i (by omega) hi2

theorem C28_buffer_invariant_witness :
    refTransfer.OTA_client_info.write_info.firmware_buffer_current_offset
        < refConfig.RAM_FIRMWARE_BUFFER_SIZE
      ∧ chunk16.length ≤ 255
      ∧ refConfig.RAM_FIRMWARE_BUFFER_SIZE % 4 = 0
      ∧ ∀ i, refConfig.RAM_FIRMWARE_BUFFER_SIZE ≤ i →
        (APP_ZIGBEE_OTA_Client_WriteImage_cb refConfig idealHw 0 chunk16
            refTransfer).2.OTA_client_info.write_info.firmware_buffer i
          = refTransfer.OTA_client_info.write_info.firmware_buffer i :=
  ⟨by decide, by decide, by decide,
    (C28_buffer_invariant refConfig idealHw 0 chunk16 refTransfer rfl rfl (by decide)
      (fun _ _ _ => rfl) (by decide) (by decide) (by decide) (by decide)).1⟩

/-! ## C5: the downgrade policy -/

/-- With one table entry per file type, the code's search finds the entry of
the requested type. -/
theorem FindImageType_entry (cfg : Config) (e : Nat × Nat) (t : Nat)
    (hd : cfg.fileType_COPRO_WIRELESS ≠ cfg.fileType_APP)
    (he : e ∈ OTA_currentFileVersionTab cfg) (het : e.1 = t) :
    ¬ APP_ZIGBEE_FindImageType cfg t < 0
      ∧ (OTA_currentFileVersionTab cfg).getD (APP_ZIGBEE_FindImageType cfg t).toNat (0, 0) = e := by
  rw [FindImageType_eq]
  simp only [OTA_currentFileVersionTab, List.mem_cons, List.mem_singleton, List.not_mem_nil,
    or_false] at he
  rcases he with he | he
  · subst he
    dsimp only at het
    rw [if_pos het]
    exact ⟨by omega, rfl⟩
  · subst he
    dsimp only at het
    rw [if_neg (by rw [← het]; exact hd), if_pos het]
    exact ⟨by omega, rfl⟩

/-- C5: the table `OTA_currentFileVersionTab` has one entry per file type.  An
image notify with the right manufacturer code whose image type is that of the
table entry `e` and whose file version is lower than the version of `e` is
refused with `ZCL_STATUS_FAILURE` when `OTA_PREVENT_DOWNGRADE` is set (whatever
the payload type, the state unchanged); when it is not set, the file-version
notify (the payload type that carries the three fields) is accepted: the
callback returns `ZCL_STATUS_SUCCESS`, records the image type and the version
of `e` and sets the request-upgrade task. -/
theorem C5_downgrade_policy (cfg : Config) (payload_type jitter : Nat)
    (d : ZbZclOtaImageDefinition) (w : World) (e : Nat × Nat)
    (hd : cfg.fileType_COPRO_WIRELESS ≠ cfg.fileType_APP)
    (hman : d.manufacturer_code = cfg.ST_ZIGBEE_MANUFACTURER_CODE)
    (he : e ∈ OTA_currentFileVersionTab cfg)
    (het : e.1 = d.image_type)
    (hlow : d.file_version < e.2) :
    (cfg.OTA_PREVENT_DOWNGRADE = true →
      APP_ZIGBEE_OTA_Client_ImageNotify_cb cfg payload_type jitter d w
        = (ZclStatusCodeT.ZCL_STATUS_FAILURE, w))
    ∧ (cfg.OTA_PREVENT_DOWNGRADE = false →
        payload_type = cfg.ZCL_OTA_NOTIFY_TYPE_FILE_VERSION →
        (APP_ZIGBEE_OTA_Client_ImageNotify_cb cfg payload_type jitter d w).1
          = ZclStatusCodeT.ZCL_STATUS_SUCCESS
        ∧ (APP_ZIGBEE_OTA_Client_ImageNotify_cb cfg payload_type jitter d w).2.trace
          = w.trace ++ [.setTask .CFG_TASK_ZIGBEE_OTA_REQUEST_UPGRADE]
        ∧ (APP_ZIGBEE_OTA_Client_ImageNotify_cb cfg payload_type jitter d
            w).2.OTA_client_info.image_type = d.image_type
        ∧ (APP_ZIGBEE_OTA_Client_ImageNotify_cb cfg payload_type jitter d
            w).2.OTA_client_info.current_file_version = e.2) := by
  obtain ⟨hpos, hent⟩ := FindImageType_entry cfg e d.image_type hd he het
  have hne : ¬ e.2 = d.file_version := by omega
  unfold APP_ZIGBEE_OTA_Client_ImageNotify_cb
  constructor
  · intro hp
    by_cases hpt : payload_type = cfg.ZCL_OTA_NOTIFY_TYPE_FILE_VERSION
    · rw [if_pos hpt, if_neg (by simpa using hman)]
      simp only [hpos, if_false]
      rw [hent, if_neg hne, if_pos ⟨hp, hlow⟩]
    · rw [if_neg hpt]
  · intro hp hpt
    rw [if_pos hpt, if_neg (by simpa using hman)]
    simp only [hpos, if_false]
    rw [hent, if_neg hne, if_neg (by simp [hp])]
    exact ⟨rfl, rfl, rfl, rfl⟩

/-- C5 on a configuration where the application runs version 5 and the
coprocessor version 2: version 3 of the application is refused with downgrade
prevention enabled and accepted with it disabled. -/
theorem C5_downgrade_policy_witness :
    ((2, 5) : Nat × Nat) ∈ OTA_currentFileVersionTab refConfigVersions
      ∧ offerAppDowngrade.file_version < 5
      ∧ APP_ZIGBEE_OTA_Client_ImageNotify_cb refConfigVersions 3 0 offerAppDowngrade refWorld
        = (ZclStatusCodeT.ZCL_STATUS_FAILURE, refWorld)
      ∧ (APP_ZIGBEE_OTA_Client_ImageNotify_cb refConfigDowngrade 3 0 offerAppDowngrade
          refWorld).1 = ZclStatusCodeT.ZCL_STATUS_SUCCESS
      ∧ (APP_ZIGBEE_OTA_Client_ImageNotify_cb refConfigDowngrade 3 0 offerAppDowngrade
          refWorld).2.trace = refWorld.trace ++ [.setTask .CFG_TASK_ZIGBEE_OTA_REQUEST_UPGRADE] :=
  ⟨by decide, by decide,
    (C5_downgrade_policy refConfigVersions 3 0 offerAppDowngrade refWorld (2, 5)
      (by decide) rfl (by decide) rfl (by decide)).1 rfl,
    ((C5_downgrade_policy refConfigDowngrade 3 0 offerAppDowngrade refWorld (2, 5)
      (by decide) rfl (by decide) rfl (by decide)).2 rfl rfl).1,
    ((C5_downgrade_policy refConfigDowngrade 3 0 offerAppDowngrade refWorld (2, 5)
      (by decide) rfl (by decide) rfl (by decide)).2 rfl rfl).2.1⟩

/-! ## C13: the checkpoint after the commit -/

theorem WriteFirmwareData_ok_eq (cfg : Config) (hw : Hw) (w : World)
    (hs : (APP_ZIGBEE_OTA_Client_WriteFirmwareData cfg hw w).1 = .APP_ZIGBEE_OK) :
    (APP_ZIGBEE_OTA_Client_WriteFirmwareData cfg hw w).2
      = (APP_ZIGBEE_OTA_ctx_save_nvm cfg hw (WriteFirmwareData_committed hw w)).2.emit
          [.flashLock, .hsemRelease] := by
  unfold APP_ZIGBEE_OTA_Client_WriteFirmwareData WriteFirmwareData_committed at *
  dsimp only at hs ⊢
  rcases hl : WriteFirmwareData_loop hw
      w.OTA_client_info.write_info.firmware_buffer_current_offset 0
      (w.emit [.enterWriteFirmwareData w.OTA_client_info.write_info.flash_current_offset
        w.OTA_client_info.write_info.firmware_buffer_current_offset]) with ⟨b, w1⟩
  rw [hl] at hs
  cases b with
  | false => exact absurd hs (by simp)
  | true => rfl

theorem WriteFirmwareData_committed_frame (hw : Hw) (w : World) :
    (WriteFirmwareData_committed hw w).ee = w.ee
      ∧ (WriteFirmwareData_committed hw w).OTA_client_info.zigbee_ota_ctx_nvm
        = w.OTA_client_info.zigbee_ota_ctx_nvm := by
  obtain ⟨k, _, hT, hF⟩ := WriteFirmwareData_loop_outcome hw
    w.OTA_client_info.write_info.firmware_buffer_current_offset 0
    (w.emit [.enterWriteFirmwareData w.OTA_client_info.write_info.flash_current_offset
      w.OTA_client_info.write_info.firmware_buffer_current_offset])
    (by simp only [World.emit]; omega)
  unfold WriteFirmwareData_committed
  rcases hb : (WriteFirmwareData_loop hw
      w.OTA_client_info.write_info.firmware_buffer_current_offset 0
      (w.emit [.enterWriteFirmwareData w.OTA_client_info.write_info.flash_current_offset
        w.OTA_client_info.write_info.firmware_buffer_current_offset])).1 with _ | _
  · obtain ⟨_, _, a3⟩ := hF hb
    rw [a3]
    exact ⟨rfl, rfl⟩
  · obtain ⟨_, _, a3⟩ := hT hb
    rw [a3]
    exact ⟨rfl, rfl⟩

theorem WriteFirmwareData_persisted (cfg : Config) (hw : Hw) (w : World)
    (hW : ∀ e a d, (hw.EE_Write e a d).1 ≠ .EE_ERROR →
      ∀ x, (hw.EE_Write e a d).2 x = if x = a then some d else e x)
    (hC : ∀ e x, hw.EE_Clean e x = e x)
    (hs : (APP_ZIGBEE_OTA_Client_WriteFirmwareData cfg hw w).1 = .APP_ZIGBEE_OK)
    (hsave : (APP_ZIGBEE_OTA_ctx_save_nvm cfg hw (WriteFirmwareData_committed hw w)).1 = true) :
    (APP_ZIGBEE_OTA_Client_WriteFirmwareData cfg hw w).2.ee (cfg.USER_DB_START_ADDR + 0)
      = some (APP_ZIGBEE_OTA_Client_WriteFirmwareData cfg hw
          w).2.OTA_client_info.write_info.flash_current_offset := by
  rw [WriteFirmwareData_ok_eq cfg hw w hs, emit_ee, emit_info]
  obtain ⟨s0, _⟩ := ctx_save_nvm_store cfg hw hW hC (WriteFirmwareData_committed hw w) hsave
  obtain ⟨f1, _⟩ := ctx_save_nvm_frame cfg hw (WriteFirmwareData_committed hw w)
  rw [s0, f1]
  rfl

/-- C13, counterexample: on an EEPROM whose every write returns `EE_ERROR`,
with a staging buffer of 16 bytes, four chunks of 16 bytes are accepted with
`ZCL_STATUS_SUCCESS`; the first flush enters the checkpoint with the cursor at
16 and its `EE_Write` fails; after the four chunks the cursor is 64 and no
write offset is persisted. -/
theorem C13_counterexample :
    (deliverChunks refConfig16 eeFailHw 0 [chunk16, chunk16, chunk16, chunk16] refTransfer).1
        = [.ZCL_STATUS_SUCCESS, .ZCL_STATUS_SUCCESS, .ZCL_STATUS_SUCCESS, .ZCL_STATUS_SUCCESS]
      ∧ (APP_ZIGBEE_OTA_Client_WriteImage_cb refConfig16 eeFailHw 0 chunk16
            refTransfer).2.trace.filter (fun e => e.isCycle || e.isEE)
          = [.enterWriteFirmwareData 0 16, .enterCtxSave 16, .eeWrite 0 16 .EE_ERROR]
      ∧ (APP_ZIGBEE_OTA_Client_WriteImage_cb refConfig16 eeFailHw 0 chunk16
            refTransfer).2.OTA_client_info.write_info.flash_current_offset = 16
      ∧ (APP_ZIGBEE_OTA_Client_WriteImage_cb refConfig16 eeFailHw 0 chunk16
            refTransfer).2.ee (refConfig16.USER_DB_START_ADDR + 0) = none
      ∧ (deliverChunks refConfig16 eeFailHw 0 [chunk16, chunk16, chunk16, chunk16]
            refTransfer).2.OTA_client_info.write_info.flash_current_offset = 64
      ∧ (deliverChunks refConfig16 eeFailHw 0 [chunk16, chunk16, chunk16, chunk16]
            refTransfer).2.ee (refConfig16.USER_DB_START_ADDR + 0) = none
      ∧ refConfig16.RAM_FIRMWARE_BUFFER_SIZE = 16 := by
  refine ⟨by decide, by decide, by decide, by decide, by decide, by decide, by decide⟩

/-- C13, amended: for every flash controller and every EEPROM library, below
the 32-bit limit, a call of `APP_ZIGBEE_OTA_Client_WriteFirmwareData` programs
and verifies `k` units and moves the cursor by `8 * k`, less than the staged
length plus eight; the EEPROM is untouched until the checkpoint.  When the
call returns `APP_ZIGBEE_OK` all units of the staged buffer are among the `k`,
the checkpoint is entered once, after the last of them, the record in RAM
holds the cursor, and, on a store that keeps the words written, the persisted
write offset equals the cursor provided the checkpoint save returns `true`.
When it returns `APP_ZIGBEE_ERROR` no checkpoint is entered and the EEPROM and
the record are as before.  With a capacity that is a multiple of eight, a fill
within the capacity and a persisted write offset equal to the cursor at the
call, every value the cursor takes up to the checkpoint, and the cursor left
by a failed flush, is at most one staging buffer beyond the persisted
offset. -/
theorem C13_checkpoint_after_verified_commit (cfg : Config) (hw : Hw) (w : World)
    (h32 : w.OTA_client_info.write_info.flash_current_offset
      + w.OTA_client_info.write_info.firmware_buffer_current_offset + 8 ≤ 4294967296) :
    ∃ k, UnitsVerified hw w.OTA_client_info.write_info.firmware_buffer
          w.OTA_client_info.ctx.base_address w.flash
          w.OTA_client_info.write_info.flash_current_offset 0 k
      ∧ 8 * k < w.OTA_client_info.write_info.firmware_buffer_current_offset + 8
      ∧ (APP_ZIGBEE_OTA_Client_WriteFirmwareData cfg hw
            w).2.OTA_client_info.write_info.flash_current_offset
          = w.OTA_client_info.write_info.flash_current_offset + 8 * k
      ∧ (WriteFirmwareData_committed hw w).ee = w.ee
      ∧ ((APP_ZIGBEE_OTA_Client_WriteFirmwareData cfg hw w).1 = .APP_ZIGBEE_OK →
          w.OTA_client_info.write_info.firmware_buffer_current_offset ≤ 8 * k
          ∧ (∃ es, (∀ e ∈ es, e.isEE = true)
            ∧ (APP_ZIGBEE_OTA_Client_WriteFirmwareData cfg hw w).2.trace = w.trace
              ++ ([.enterWriteFirmwareData w.OTA_client_info.write_info.flash_current_offset
                    w.OTA_client_info.write_info.firmware_buffer_current_offset]
                ++ progEventsW w.OTA_client_info.write_info.firmware_buffer
                    w.OTA_client_info.ctx.base_address
                    w.OTA_client_info.write_info.flash_current_offset 0 k
                ++ [.enterCtxSave (w.OTA_client_info.write_info.flash_current_offset + 8 * k)]
                ++ es ++ [.flashLock, .hsemRelease]))
          ∧ (APP_ZIGBEE_OTA_Client_WriteFirmwareData cfg hw
                w).2.OTA_client_info.zigbee_ota_ctx_nvm.flash_offset
              = (APP_ZIGBEE_OTA_Client_WriteFirmwareData cfg hw
                w).2.OTA_client_info.write_info.flash_current_offset
          ∧ ((∀ e a d, (hw.EE_Write e a d).1 ≠ .EE_ERROR →
                ∀ x, (hw.EE_Write e a d).2 x = if x = a then some d else e x) →
              (∀ e x, hw.EE_Clean e x = e x) →
              (APP_ZIGBEE_OTA_ctx_save_nvm cfg hw (WriteFirmwareData_committed hw w)).1 = true →
              (APP_ZIGBEE_OTA_Client_WriteFirmwareData cfg hw w).2.ee
                  (cfg.USER_DB_START_ADDR + 0)
                = some (APP_ZIGBEE_OTA_Client_WriteFirmwareData cfg hw
                  w).2.OTA_client_info.write_info.flash_current_offset))
      ∧ ((APP_ZIGBEE_OTA_Client_WriteFirmwareData cfg hw w).1 = .APP_ZIGBEE_ERROR →
          (APP_ZIGBEE_OTA_Client_WriteFirmwareData cfg hw w).2.ee = w.ee
          ∧ (APP_ZIGBEE_OTA_Client_WriteFirmwareData cfg hw w).2.OTA_client_info.zigbee_ota_ctx_nvm
              = w.OTA_client_info.zigbee_ota_ctx_nvm
          ∧ (APP_ZIGBEE_OTA_Client_WriteFirmwareData cfg hw w).2.trace = w.trace
              ++ ([.enterWriteFirmwareData w.OTA_client_info.write_info.flash_current_offset
                    w.OTA_client_info.write_info.firmware_buffer_current_offset]
                ++ progEventsW w.OTA_client_info.write_info.firmware_buffer
                    w.OTA_client_info.ctx.base_address
                    w.OTA_client_info.write_info.flash_current_offset 0 k
                ++ failEvents hw w.OTA_client_info.write_info.firmware_buffer
                    w.OTA_client_info.ctx.base_address w.flash
                    w.OTA_client_info.write_info.flash_current_offset 0 k))
      ∧ (cfg.RAM_FIRMWARE_BUFFER_SIZE % 8 = 0 →
          w.OTA_client_info.write_info.firmware_buffer_current_offset
            ≤ cfg.RAM_FIRMWARE_BUFFER_SIZE →
          ∀ p, w.ee (cfg.USER_DB_START_ADDR + 0) = some p →
            p = w.OTA_client_info.write_info.flash_current_offset →
            (∀ j, j ≤ k →
              cursorAfter w.OTA_client_info.write_info.flash_current_offset j
                ≤ p + cfg.RAM_FIRMWARE_BUFFER_SIZE)
            ∧ (WriteFirmwareData_committed hw w).ee (cfg.USER_DB_START_ADDR + 0) = some p
            ∧ ((APP_ZIGBEE_OTA_Client_WriteFirmwareData cfg hw w).1 = .APP_ZIGBEE_ERROR →
                (APP_ZIGBEE_OTA_Client_WriteFirmwareData cfg hw w).2.ee
                    (cfg.USER_DB_START_ADDR + 0) = some p
                ∧ (APP_ZIGBEE_OTA_Client_WriteFirmwareData cfg hw
                    w).2.OTA_client_info.write_info.flash_current_offset
                  ≤ p + cfg.RAM_FIRMWARE_BUFFER_SIZE)) := by
  obtain ⟨k, hv, hok, herr⟩ := WriteFirmwareData_outcome cfg hw w
  obtain ⟨hce, _⟩ := WriteFirmwareData_committed_frame hw w
  refine ⟨k, hv, ?_⟩
  rcases hs : (APP_ZIGBEE_OTA_Client_WriteFirmwareData cfg hw w).1 with _ | _
  · obtain ⟨h1, h2, _, h4, _, es, h6, h7⟩ := hok hs
    have hk : 8 * k < w.OTA_client_info.write_info.firmware_buffer_current_offset + 8 := by
      omega
    have hc := cursorAfter_eq k w.OTA_client_info.write_info.flash_current_offset (by omega)
    have c1 := congrArg (fun x => x.write_info.flash_current_offset) h4
    have c2 := congrArg (fun x => x.zigbee_ota_ctx_nvm.flash_offset) h4
    dsimp only at c1 c2
    rw [hc] at c1 c2 h7
    refine ⟨hk, c1, hce, ?_, ?_, ?_⟩
    · intro _
      exact ⟨h1, ⟨es, h6, h7⟩, c2.trans c1.symm,
        fun hW hC hsave => WriteFirmwareData_persisted cfg hw w hW hC hs hsave⟩
    · intro h
      exact absurd h (by simp)
    · intro h8 hcap p hp hpc
      refine ⟨?_, ?_, fun h => absurd h (by simp)⟩
      · intro j hj
        rw [cursorAfter_eq j _ (by omega), hpc]
        omega
      · rw [hce]
        exact hp
  · obtain ⟨h1, _, h3⟩ := herr hs
    have hc := cursorAfter_eq k w.OTA_client_info.write_info.flash_current_offset (by omega)
    have c1 := congrArg (fun x => x.OTA_client_info.write_info.flash_current_offset) h3
    have c2 := congrArg (fun x => x.ee) h3
    have c3 := congrArg (fun x => x.OTA_client_info.zigbee_ota_ctx_nvm) h3
    have c4 := congrArg (fun x => x.trace) h3
    dsimp only at c1 c2 c3 c4
    rw [setCursor_cursor, hc] at c1
    have c2' := c2.trans (setCursor_ee _ _)
    refine ⟨by omega, c1, hce, ?_, ?_, ?_⟩
    · intro h
      exact absurd h (by simp)
    · intro _
      exact ⟨c2', c3.trans (setCursor_nvm _ _), c4⟩
    · intro h8 hcap p hp hpc
      refine ⟨?_, ?_, fun _ => ⟨?_, ?_⟩⟩
      · intro j hj
        rw [cursorAfter_eq j _ (by omega), hpc]
        omega
      · rw [hce]
        exact hp
      · rw [c2']
        exact hp
      · rw [c1, hpc]
        omega

/-- C13 amended, on the reference device: the flush of eight staged bytes
persists the cursor. -/
theorem C13_checkpoint_after_verified_commit_witness :
    refShortImage.OTA_client_info.write_info.flash_current_offset
        + refShortImage.OTA_client_info.write_info.firmware_buffer_current_offset + 8
        ≤ 4294967296
      ∧ (APP_ZIGBEE_OTA_ctx_save_nvm refConfig idealHw
          (WriteFirmwareData_committed idealHw refShortImage)).1 = true
      ∧ ∃ k, 8 * k < refShortImage.OTA_client_info.write_info.firmware_buffer_current_offset + 8
        ∧ (APP_ZIGBEE_OTA_Client_WriteFirmwareData refConfig idealHw
              refShortImage).2.OTA_client_info.write_info.flash_current_offset
            = refShortImage.OTA_client_info.write_info.flash_current_offset + 8 * k
        ∧ (APP_ZIGBEE_OTA_Client_WriteFirmwareData refConfig idealHw refShortImage).2.ee
              (refConfig.USER_DB_START_ADDR + 0)
            = some (APP_ZIGBEE_OTA_Client_WriteFirmwareData refConfig idealHw
                refShortImage).2.OTA_client_info.write_info.flash_current_offset :=
  ⟨by decide, by decide,
    (C13_checkpoint_after_verified_commit refConfig idealHw refShortImage (by decide)).imp
      (fun _ h => ⟨h.2.1, h.2.2.1,
        (h.2.2.2.2.1 (by decide)).2.2.2 (fun _ _ _ _ _ => rfl) (fun _ _ => rfl) (by decide)⟩)⟩

end OtaClient
